import Mathlib

/-!
Shallow embedding of `src/main.py` (Project Euler 60: prime pair sets).

The program maintains a growing undirected graph over discovered primes
(candidate list `prime_cands`, index map `prime_to_index`, degree map
`prime_degrees`, boolean adjacency matrix `adj`) and, after inserting each
new prime, searches for a k-clique containing it.  Machine integers are
modelled as `Nat` (the Python integers involved are non-negative and
unbounded), the unbounded `while True` loop is modelled with fuel, and the
`assert` statements are modelled by `Except`-valued wrappers.
-/

/-- Fuel-driven Newton iteration for the integer square root.  The guess
strictly decreases on every recursive call, so any fuel at least as large as
the starting guess reaches the fixpoint. -/
def sqrtIter (n : Nat) : Nat → Nat → Nat
  | 0, guess => guess
  | fuel + 1, guess =>
    let next := Nat.div (Nat.add guess (Nat.div n guess)) 2
    match Nat.blt next guess with
    | true => sqrtIter n fuel next
    | false => guess

/-- Kernel-computable integer square root; proved equal to `Nat.sqrt` below.
Models the `floor(sqrt(x))` of src/main.py line 33. -/
def isqrt (n : Nat) : Nat := if n ≤ 1 then n else sqrtIter n n (n / 2)

/-- The trial-division loop of `is_prime` (src/main.py lines 34-36):
`d` is the current divisor candidate, the second argument counts the
remaining iterations of `for d in range(...)`; the loop reports composite on
the first exact divisor. -/
def trialLoop (x : Nat) : Nat → Nat → Bool
  | _, 0 => true
  | d, c + 1 =>
    match Nat.mod x d with
    | 0 => false
    | _ + 1 => trialLoop x (Nat.add d 1) c

/-- The function is_prime from src/main.py lines 18-37: with `mid = floor(sqrt(x)) + 1`,
trial-divide `x` by every `d` in `range(2, mid)` (that is, `mid - 2` values
starting at 2); report composite on the first exact divisor, else prime. -/
def is_prime (x : Nat) : Bool := trialLoop x 2 (Nat.sub (Nat.add (isqrt x) 1) 2)

/-- Little-endian decimal digits of `n`, with explicit fuel so that the
definition is structural and kernel-reducible (`fuel ≥ n` suffices). -/
def digitsLE : Nat → Nat → List Nat
  | 0, _ => []
  | _ + 1, 0 => []
  | fuel + 1, n => Nat.mod n 10 :: digitsLE fuel (Nat.div n 10)

/-- The value str(n) of src/main.py lines 57-58: the decimal digit string of `n`,
big-endian, modelled as its list of digits. -/
def strDigits (n : Nat) : List Nat := (digitsLE n n).reverse

/-- The value int(s) on a digit string: left fold accumulating `acc * 10 + digit`. -/
def parseDigits (s : List Nat) : Nat := s.foldl (fun n d => Nat.add (Nat.mul n 10) d) 0

/-- The value int(str(x) + str(y)) of src/main.py line 59: the decimal concatenation
of `x` and `y`, read back as an integer. -/
def concatVal (x y : Nat) : Nat := parseDigits (strDigits x ++ strDigits y)

/-- The function is_pairwise_concatable from src/main.py lines 40-59: both decimal
concatenations pass the trial-division primality test. -/
def is_pairwise_concatable (x y : Nat) : Bool :=
  is_prime (concatVal x y) && is_prime (concatVal y x)

/-- The mutable state of `main` (src/main.py lines 96-101): the candidate
primes in insertion order (`prime_cands`; a prime's index is its position,
mirroring `prime_to_index`), the sparse boolean adjacency matrix `adj`
(a dok matrix: row `i` is modelled by the list of columns `j` whose entry
`adj[i, j]` is set; all other entries are False), and the degrees
(`prime_degrees`, indexed like `cands`). -/
structure GState where
  cands : List Nat
  adj : List (List Nat)
  degrees : List Nat
  deriving Repr, DecidableEq

/-- Matrix query `adj[i, j]`: is the entry set?  Entries the dok matrix does
not hold are False. -/
def edgeQ (adj : List (List Nat)) (i j : Nat) : Bool := decide (j ∈ adj.getD i [])

/-- Matrix update `adj[i, j] = True`: record column `j` in row `i`
(out-of-range writes cannot happen in the program; `List.set` makes them
no-ops, and the program never sets one entry twice). -/
def setEdge (adj : List (List Nat)) (i j : Nat) : List (List Nat) :=
  adj.set i (j :: adj.getD i [])

/-- The statement adj.resize(n, n) of src/main.py line 109: grow the matrix by one row
and one column; no stored entry changes, the new row holds none. -/
def resize (adj : List (List Nat)) : List (List Nat) := adj ++ [[]]

/-- The edge-building loop of `main` (src/main.py lines 111-117): for each
existing vertex (index `j`, prime `q`), test compatibility with the new prime
`x` (new index `n - 1`); on success record both matrix entries (`adj[-1, j]`
and `adj[j, -1]`) and increment the degrees of `q` and of `x` (accumulated
in `dx`). -/
def insertAux (x n : Nat) :
    List (Nat × Nat) → List (List Nat) × List Nat × Nat →
    List (List Nat) × List Nat × Nat
  | [], acc => acc
  | (j, q) :: rest, (adj, degs, dx) =>
    if is_pairwise_concatable x q then
      insertAux x n rest
        (setEdge (setEdge adj (n - 1) j) j (n - 1), degs.set j (degs.getD j 0 + 1), dx + 1)
    else
      insertAux x n rest (adj, degs, dx)

/-- Insertion of a newly discovered prime `x` into the graph
(src/main.py lines 107-119): grow the matrix to the new size `n`, compute
the edges to every existing vertex, then append `x` to the candidate list
together with its degree. -/
def insertPrime (st : GState) (x : Nat) : GState :=
  let n := st.cands.length + 1
  let res := insertAux x n st.cands.enum (resize st.adj, st.degrees, 0)
  { cands := st.cands ++ [x], adj := res.1, degrees := res.2.1 ++ [res.2.2] }

/-- The function itertools.combinations on a list, in Python enumeration order
(lexicographic by position). -/
def combinations : Nat → List Nat → List (List Nat)
  | 0, _ => [[]]
  | _ + 1, [] => []
  | r + 1, a :: as => ((combinations r as).map (a :: ·)) ++ combinations (r + 1) as

/-- The candidate-neighbour collection loop of `main` (src/main.py
lines 127-132): every prime `q` of the index map (which at this point
already contains `x` itself; the self-loop-free matrix filters it out)
whose degree is at least `k - 1` and which has an edge to `x` (index `i`). -/
def cliqueCands (st : GState) (k i : Nat) : List Nat :=
  st.cands.enum.filterMap fun jq =>
    if k - 1 ≤ st.degrees.getD jq.1 0 ∧ edgeQ st.adj jq.1 i = true then some jq.2 else none

/-- The `all(...)` test of src/main.py lines 139-140: every 2-subset of the
chosen primes is connected in the matrix (indices via `prime_to_index`). -/
def pairwiseAdj (st : GState) (sub : List Nat) : Bool :=
  (combinations 2 sub).all fun pr =>
    match pr with
    | [a, b] => edgeQ st.adj (st.cands.indexOf a) (st.cands.indexOf b)
    | _ => true

/-- The clique loop of `main` (src/main.py lines 136-148) exactly as the
code runs it: the `return` statement sits inside the `for` body, after the
branch that records a new best, so the loop returns on the FIRST
pairwise-connected subset it meets; `p_sum_best` is still `None` whenever a
subset is tested, hence the `sum(p_set) < p_sum_best` comparison is never
exercised.  If no subset passes, the loop falls through and `main` continues
with the next integer. -/
def cliqueLoop (st : GState) (x : Nat) : List (List Nat) → Option (List Nat × Nat)
  | [] => none
  | sub :: rest =>
    if pairwiseAdj st sub then some (sub ++ [x], (sub ++ [x]).sum)
    else cliqueLoop st x rest

/-- The clique loop of `main` again, instrumented with the number of
combinations the loop examines before it stops (all of them when nothing is
returned): the `for ... return` control flow made explicit as data. -/
def cliqueLoopSteps (st : GState) (x : Nat) : List (List Nat) → Option (List Nat × Nat) × Nat
  | [] => (none, 0)
  | sub :: rest =>
    if pairwiseAdj st sub then (some (sub ++ [x], (sub ++ [x]).sum), 1)
    else
      let r := cliqueLoopSteps st x rest
      (r.1, r.2 + 1)

/-- One iteration of the while-loop of `main` (src/main.py lines 105-150) at
integer `x`: if `x` is prime, insert it, and when its degree reaches `k - 1`
run the anchored clique search over the combinations of the filtered
candidate neighbours; return the new state and the search outcome. -/
def mainStep (k : Nat) (st : GState) (x : Nat) : GState × Option (List Nat × Nat) :=
  if is_prime x then
    let st2 := insertPrime st x
    let i := st2.cands.length - 1
    if k - 1 ≤ st2.degrees.getD i 0 then
      (st2, cliqueLoop st2 x (combinations (k - 1) (cliqueCands st2 k i)))
    else (st2, none)
  else (st, none)

/-- The unbounded while-loop of `main`, made total with fuel (the number of
integers examined, starting at `x`). -/
def mainLoop (k : Nat) : Nat → GState → Nat → Option (List Nat × Nat)
  | 0, _, _ => none
  | fuel + 1, st, x =>
    match mainStep k st x with
    | (_, some r) => some r
    | (st2, none) => mainLoop k fuel st2 (x + 1)

/-- The initial state of `main` (src/main.py lines 97-101): the seed prime 3
at index 0 with degree 0, and a 1-by-1 matrix with no entry set. -/
def initState : GState := ⟨[3], [[]], [0]⟩

/-- The function main of src/main.py at argument k, with fuel bounding the number of integers
examined starting from 7 (line 104). -/
def mainFuel (k fuel : Nat) : Option (List Nat × Nat) := mainLoop k fuel initState 7

/-- One iteration of the state evolution of the while-loop: insert `x` when
prime, then move to `x + 1`.  The clique search never mutates the state, so
this is the full effect of one iteration of `main` on its variables. -/
def advance (p : GState × Nat) : GState × Nat :=
  (if is_prime p.2 then insertPrime p.1 p.2 else p.1, p.2 + 1)

/-- Iterating the state evolution n times. -/
def advanceN : Nat → GState × Nat → GState × Nat
  | 0, p => p
  | n + 1, p => advanceN n (advance p)

/-- The graph state after the outer loop has examined the integers
`7, 8, ..., 6 + n`.  The state evolution does not depend on `k`: the clique
search never mutates the graph, so these are exactly the states every run of
`main` passes through (up to the point where it returns). -/
def stateAt : Nat → GState
  | 0 => initState
  | n + 1 =>
    if is_prime (7 + n) then insertPrime (stateAt n) (7 + n) else stateAt n

/-- The while-loop again, returning both the state evolution and the search
outcome (the state and integer reached when a clique ends the run, or after
all the fuel otherwise).  Used to evaluate long runs piecewise. -/
def runN (k : Nat) : Nat → GState × Nat → (GState × Nat) × Option (List Nat × Nat)
  | 0, p => (p, none)
  | n + 1, p =>
    match mainStep k p.1 p.2 with
    | (st2, some r) => ((st2, p.2 + 1), some r)
    | (st2, none) => runN k n (st2, p.2 + 1)

/-- The failure of a Python assert statement; the spec calls the condition
raised for a bad argument InvalidInput. -/
inductive AssertError where
  | invalidInput
  deriving Repr, DecidableEq

/-- The positivity assertion of `is_prime` (src/main.py line 31) on an
integer argument; failure is the InvalidInput condition. -/
def is_prime_checked (x : Int) : Except AssertError Bool :=
  if 0 < x then .ok (is_prime x.toNat) else .error .invalidInput

/-- The positivity assertions of `is_pairwise_concatable`
(src/main.py lines 54-55). -/
def is_pairwise_concatable_checked (x y : Int) : Except AssertError Bool :=
  if 0 < x ∧ 0 < y then .ok (is_pairwise_concatable x.toNat y.toNat)
  else .error .invalidInput

/-- The argument assertion of `main` (src/main.py line 80): `k > 1`.  On
failure the InvalidInput condition surfaces before the search state is even
created, so the result is an error for every fuel. -/
def mainChecked (k : Int) (fuel : Nat) : Except AssertError (Option (List Nat × Nat)) :=
  if 1 < k then .ok (mainFuel k.toNat fuel) else .error .invalidInput

/-- Modelled from the spec (section 4.3, tie-break rule): examine ALL
combinations, keep the valid clique with the lowest sum of member values,
and return it only once every combination has been examined.  This is the
comparison point for the code loop `cliqueLoop`. -/
def cliqueSpecLoop (st : GState) (x : Nat) :
    List (List Nat) → Option (List Nat × Nat) → Option (List Nat × Nat)
  | [], best => best
  | sub :: rest, best =>
    if pairwiseAdj st sub = true ∧ (∀ b ∈ best, (sub ++ [x]).sum < b.2) then
      cliqueSpecLoop st x rest (some (sub ++ [x], (sub ++ [x]).sum))
    else
      cliqueSpecLoop st x rest best


/-- Snapshot of the search state after examining the integers 7..31. -/
def T25 : GState :=
  { cands := [3, 7, 11, 13, 17, 19, 23, 29, 31], adj := [[8, 4, 2, 1], [5, 0], [6, 0], [5], [0], [8, 3, 1],
    [2], [], [5, 0]], degrees := [4, 2, 2, 1, 1, 3, 1, 0, 2] }

/-- Snapshot of the search state after examining the integers 7..56. -/
def T50 : GState :=
  { cands := [3, 7, 11, 13, 17, 19, 23, 29, 31, 37, 41, 43, 47, 53], adj := [[9, 8, 4, 2, 1], [5, 0], [6, 0],
    [5], [0], [8, 3, 1], [12, 2], [], [5, 0], [0], [], [], [6], []], degrees := [5, 2, 2, 1, 1, 3, 2, 0, 2, 1,
    0, 0, 1, 0] }

/-- Snapshot of the search state after examining the integers 7..81. -/
def T75 : GState :=
  { cands := [3, 7, 11, 13, 17, 19, 23, 29, 31, 37, 41, 43, 47, 53, 59, 61, 67, 71, 73, 79], adj := [[18, 16,
    14, 9, 8, 4, 2, 1], [15, 5, 0], [6, 0], [15, 5], [0], [19, 8, 3, 1], [12, 2], [17], [5, 0], [19, 16, 0],
    [], [], [6], [], [0], [3, 1], [9, 0], [7], [0], [9, 5]], degrees := [8, 3, 2, 2, 1, 4, 2, 1, 2, 3, 0, 0,
    1, 0, 1, 2, 2, 1, 1, 2] }

/-- Snapshot of the search state after examining the integers 7..106. -/
def T100 : GState :=
  { cands := [3, 7, 11, 13, 17, 19, 23, 29, 31, 37, 41, 43, 47, 53, 59, 61, 67, 71, 73, 79, 83, 89, 97, 101,
    103], adj := [[18, 16, 14, 9, 8, 4, 2, 1], [22, 15, 5, 0], [6, 0], [24, 15, 5], [20, 0], [22, 19, 8, 3,
    1], [21, 12, 2], [17], [5, 0], [19, 16, 0], [], [24, 22], [6], [], [0], [3, 1], [9, 0], [7], [0], [9, 5],
    [4], [6], [11, 5, 1], [], [11, 3]], degrees := [8, 4, 2, 3, 2, 5, 3, 1, 2, 3, 0, 2, 1, 0, 1, 2, 2, 1, 1,
    2, 1, 1, 3, 0, 2] }

/-- Snapshot of the search state after examining the integers 7..131. -/
def T125 : GState :=
  { cands := [3, 7, 11, 13, 17, 19, 23, 29, 31, 37, 41, 43, 47, 53, 59, 61, 67, 71, 73, 79, 83, 89, 97, 101,
    103, 107, 109, 113, 127, 131], adj := [[26, 18, 16, 14, 9, 8, 4, 2, 1], [28, 26, 22, 15, 5, 0], [27, 6,
    0], [28, 24, 15, 5], [20, 0], [22, 19, 8, 3, 1], [21, 12, 2], [17], [5, 0], [19, 16, 0], [], [24, 22],
    [6], [27], [0], [3, 1], [9, 0], [7], [0], [9, 5], [4], [25, 6], [11, 5, 1], [25], [11, 3], [23, 21], [1,
    0], [29, 13, 2], [3, 1], [27]], degrees := [9, 6, 3, 4, 2, 5, 3, 1, 2, 3, 0, 2, 1, 1, 1, 2, 2, 1, 1, 2, 1,
    2, 3, 1, 2, 2, 2, 3, 2, 1] }

/-- Snapshot of the search state after examining the integers 7..156. -/
def T150 : GState :=
  { cands := [3, 7, 11, 13, 17, 19, 23, 29, 31, 37, 41, 43, 47, 53, 59, 61, 67, 71, 73, 79, 83, 89, 97, 101,
    103, 107, 109, 113, 127, 131, 137, 139, 149, 151], adj := [[30, 26, 18, 16, 14, 9, 8, 4, 2, 1], [28, 26,
    22, 15, 5, 0], [27, 6, 0], [28, 24, 15, 5], [20, 0], [22, 19, 8, 3, 1], [21, 12, 2], [30, 17], [33, 31, 5,
    0], [19, 16, 0], [], [24, 22], [32, 6], [27], [0], [33, 3, 1], [31, 9, 0], [7], [0], [9, 5], [4], [30, 25,
    6], [11, 5, 1], [32, 25], [11, 3], [23, 21], [31, 1, 0], [32, 29, 13, 2], [3, 1], [27], [21, 7, 0], [26,
    16, 8], [27, 23, 12], [15, 8]], degrees := [10, 6, 3, 4, 2, 5, 3, 2, 4, 3, 0, 2, 2, 1, 1, 3, 3, 1, 1, 2,
    1, 3, 3, 2, 2, 2, 3, 4, 2, 1, 3, 3, 3, 2] }

/-- Snapshot of the search state after examining the integers 7..181. -/
def T175 : GState :=
  { cands := [3, 7, 11, 13, 17, 19, 23, 29, 31, 37, 41, 43, 47, 53, 59, 61, 67, 71, 73, 79, 83, 89, 97, 101,
    103, 107, 109, 113, 127, 131, 137, 139, 149, 151, 157, 163, 167, 173, 179, 181], adj := [[30, 26, 18, 16,
    14, 9, 8, 4, 2, 1], [28, 26, 22, 15, 5, 0], [27, 6, 0], [28, 24, 15, 5], [20, 0], [39, 35, 22, 19, 8, 3,
    1], [21, 12, 2], [38, 36, 30, 17], [39, 33, 31, 5, 0], [19, 16, 0], [], [24, 22], [32, 6], [27], [36, 0],
    [33, 3, 1], [34, 31, 9, 0], [7], [0], [9, 5], [4], [30, 25, 6], [34, 11, 5, 1], [32, 25], [11, 3], [23,
    21], [31, 1, 0], [36, 32, 29, 13, 2], [35, 34, 3, 1], [27], [21, 7, 0], [26, 16, 8], [37, 27, 23, 12],
    [35, 15, 8], [39, 28, 22, 16], [33, 28, 5], [27, 14, 7], [32], [7], [34, 8, 5]], degrees := [10, 6, 3, 4,
    2, 7, 3, 4, 5, 3, 0, 2, 2, 1, 2, 3, 4, 1, 1, 2, 1, 3, 4, 2, 2, 2, 3, 5, 4, 1, 3, 3, 4, 3, 4, 3, 3, 1, 1,
    3] }

/-- Snapshot of the search state after examining the integers 7..206. -/
def T200 : GState :=
  { cands := [3, 7, 11, 13, 17, 19, 23, 29, 31, 37, 41, 43, 47, 53, 59, 61, 67, 71, 73, 79, 83, 89, 97, 101,
    103, 107, 109, 113, 127, 131, 137, 139, 149, 151, 157, 163, 167, 173, 179, 181, 191, 193, 197, 199], adj
    := [[40, 30, 26, 18, 16, 14, 9, 8, 4, 2, 1], [28, 26, 22, 15, 5, 0], [27, 6, 0], [28, 24, 15, 5], [20, 0],
    [39, 35, 22, 19, 8, 3, 1], [21, 12, 2], [38, 36, 30, 17], [39, 33, 31, 5, 0], [43, 19, 16, 0], [], [24,
    22], [32, 6], [42, 27], [42, 36, 0], [33, 3, 1], [34, 31, 9, 0], [7], [0], [41, 9, 5], [4], [30, 25, 6],
    [34, 11, 5, 1], [42, 32, 25], [11, 3], [23, 21], [43, 31, 1, 0], [36, 32, 29, 13, 2], [35, 34, 3, 1],
    [27], [42, 40, 21, 7, 0], [26, 16, 8], [37, 27, 23, 12], [35, 15, 8], [39, 28, 22, 16], [41, 33, 28, 5],
    [27, 14, 7], [40, 32], [7], [43, 41, 34, 8, 5], [37, 30, 0], [39, 35, 19], [30, 23, 14, 13], [39, 26, 9]],
    degrees := [11, 6, 3, 4, 2, 7, 3, 4, 5, 4, 0, 2, 2, 2, 3, 3, 4, 1, 1, 3, 1, 3, 4, 3, 2, 2, 4, 5, 4, 1, 5,
    3, 4, 3, 4, 4, 3, 2, 1, 5, 3, 3, 4, 3] }

/-- Snapshot of the search state after examining the integers 7..231. -/
def T225 : GState :=
  { cands := [3, 7, 11, 13, 17, 19, 23, 29, 31, 37, 41, 43, 47, 53, 59, 61, 67, 71, 73, 79, 83, 89, 97, 101,
    103, 107, 109, 113, 127, 131, 137, 139, 149, 151, 157, 163, 167, 173, 179, 181, 191, 193, 197, 199, 211,
    223, 227, 229], adj := [[47, 40, 30, 26, 18, 16, 14, 9, 8, 4, 2, 1], [47, 28, 26, 22, 15, 5, 0], [27, 6,
    0], [28, 24, 15, 5], [20, 0], [39, 35, 22, 19, 8, 3, 1], [21, 12, 2], [38, 36, 30, 17], [39, 33, 31, 5,
    0], [43, 19, 16, 0], [46], [45, 24, 22], [32, 6], [42, 27], [42, 36, 0], [33, 3, 1], [34, 31, 9, 0], [7],
    [0], [41, 9, 5], [46, 4], [30, 25, 6], [34, 11, 5, 1], [42, 32, 25], [11, 3], [23, 21], [43, 31, 1, 0],
    [46, 36, 32, 29, 13, 2], [35, 34, 3, 1], [27], [42, 40, 21, 7, 0], [26, 16, 8], [37, 27, 23, 12], [35, 15,
    8], [47, 39, 28, 22, 16], [41, 33, 28, 5], [27, 14, 7], [40, 32], [7], [43, 41, 34, 8, 5], [46, 37, 30,
    0], [39, 35, 19], [30, 23, 14, 13], [44, 39, 26, 9], [43], [47, 11], [40, 27, 20, 10], [45, 34, 1, 0]],
    degrees := [12, 7, 3, 4, 2, 7, 3, 4, 5, 4, 1, 3, 2, 2, 3, 3, 4, 1, 1, 3, 2, 3, 4, 3, 2, 2, 4, 6, 4, 1, 5,
    3, 4, 3, 5, 4, 3, 2, 1, 5, 4, 3, 4, 4, 1, 2, 4, 4] }

/-- Snapshot of the search state after examining the integers 7..256. -/
def T250 : GState :=
  { cands := [3, 7, 11, 13, 17, 19, 23, 29, 31, 37, 41, 43, 47, 53, 59, 61, 67, 71, 73, 79, 83, 89, 97, 101,
    103, 107, 109, 113, 127, 131, 137, 139, 149, 151, 157, 163, 167, 173, 179, 181, 191, 193, 197, 199, 211,
    223, 227, 229, 233, 239, 241, 251], adj := [[47, 40, 30, 26, 18, 16, 14, 9, 8, 4, 2, 1], [47, 28, 26, 22,
    15, 5, 0], [51, 49, 27, 6, 0], [50, 28, 24, 15, 5], [49, 20, 0], [39, 35, 22, 19, 8, 3, 1], [21, 12, 2],
    [38, 36, 30, 17], [39, 33, 31, 5, 0], [43, 19, 16, 0], [46], [45, 24, 22], [51, 32, 6], [42, 27], [42, 36,
    0], [33, 3, 1], [34, 31, 9, 0], [48, 7], [0], [50, 41, 9, 5], [46, 4], [30, 25, 6], [50, 34, 11, 5, 1],
    [42, 32, 25], [11, 3], [23, 21], [43, 31, 1, 0], [48, 46, 36, 32, 29, 13, 2], [50, 35, 34, 3, 1], [27],
    [49, 42, 40, 21, 7, 0], [26, 16, 8], [51, 37, 27, 23, 12], [35, 15, 8], [47, 39, 28, 22, 16], [41, 33, 28,
    5], [27, 14, 7], [40, 32], [7], [43, 41, 34, 8, 5], [51, 46, 37, 30, 0], [39, 35, 19], [30, 23, 14, 13],
    [44, 39, 26, 9], [43], [47, 11], [40, 27, 20, 10], [45, 34, 1, 0], [51, 49, 27, 17], [48, 30, 4, 2], [28,
    22, 19, 3], [48, 40, 32, 12, 2]], degrees := [12, 7, 5, 5, 3, 7, 3, 4, 5, 4, 1, 3, 3, 2, 3, 3, 4, 2, 1, 4,
    2, 3, 5, 3, 2, 2, 4, 7, 5, 1, 6, 3, 5, 3, 5, 4, 3, 2, 1, 5, 5, 3, 4, 4, 1, 2, 4, 4, 4, 4, 4, 5] }

/-- Snapshot of the search state after examining the integers 7..281. -/
def T275 : GState :=
  { cands := [3, 7, 11, 13, 17, 19, 23, 29, 31, 37, 41, 43, 47, 53, 59, 61, 67, 71, 73, 79, 83, 89, 97, 101,
    103, 107, 109, 113, 127, 131, 137, 139, 149, 151, 157, 163, 167, 173, 179, 181, 191, 193, 197, 199, 211,
    223, 227, 229, 233, 239, 241, 251, 257, 263, 269, 271, 277, 281], adj := [[55, 47, 40, 30, 26, 18, 16, 14,
    9, 8, 4, 2, 1], [47, 28, 26, 22, 15, 5, 0], [51, 49, 27, 6, 0], [50, 28, 24, 15, 5], [52, 49, 20, 0], [39,
    35, 22, 19, 8, 3, 1], [21, 12, 2], [38, 36, 30, 17], [39, 33, 31, 5, 0], [56, 43, 19, 16, 0], [52, 46],
    [55, 45, 24, 22], [54, 51, 32, 6], [54, 42, 27], [42, 36, 0], [33, 3, 1], [34, 31, 9, 0], [53, 52, 48, 7],
    [56, 0], [50, 41, 9, 5], [46, 4], [30, 25, 6], [50, 34, 11, 5, 1], [42, 32, 25], [11, 3], [23, 21], [43,
    31, 1, 0], [48, 46, 36, 32, 29, 13, 2], [55, 50, 35, 34, 3, 1], [27], [49, 42, 40, 21, 7, 0], [26, 16, 8],
    [51, 37, 27, 23, 12], [35, 15, 8], [56, 47, 39, 28, 22, 16], [41, 33, 28, 5], [54, 27, 14, 7], [40, 32],
    [54, 7], [43, 41, 34, 8, 5], [57, 51, 46, 37, 30, 0], [39, 35, 19], [30, 23, 14, 13], [44, 39, 26, 9],
    [55, 43], [56, 47, 11], [57, 40, 27, 20, 10], [45, 34, 1, 0], [51, 49, 27, 17], [53, 48, 30, 4, 2], [55,
    28, 22, 19, 3], [48, 40, 32, 12, 2], [53, 17, 10, 4], [52, 49, 17], [38, 36, 13, 12], [50, 44, 28, 11, 0],
    [45, 34, 18, 9], [46, 40]], degrees := [13, 7, 5, 5, 4, 7, 3, 4, 5, 5, 2, 4, 4, 3, 3, 3, 4, 4, 2, 4, 2, 3,
    5, 3, 2, 2, 4, 7, 6, 1, 6, 3, 5, 3, 6, 4, 4, 2, 2, 5, 6, 3, 4, 4, 2, 3, 5, 4, 4, 5, 5, 5, 4, 3, 4, 5, 4,
    2] }

/-- Snapshot of the search state after examining the integers 7..306. -/
def T300 : GState :=
  { cands := [3, 7, 11, 13, 17, 19, 23, 29, 31, 37, 41, 43, 47, 53, 59, 61, 67, 71, 73, 79, 83, 89, 97, 101,
    103, 107, 109, 113, 127, 131, 137, 139, 149, 151, 157, 163, 167, 173, 179, 181, 191, 193, 197, 199, 211,
    223, 227, 229, 233, 239, 241, 251, 257, 263, 269, 271, 277, 281, 283, 293], adj := [[55, 47, 40, 30, 26,
    18, 16, 14, 9, 8, 4, 2, 1], [58, 47, 28, 26, 22, 15, 5, 0], [51, 49, 27, 6, 0], [50, 28, 24, 15, 5], [52,
    49, 20, 0], [39, 35, 22, 19, 8, 3, 1], [21, 12, 2], [38, 36, 30, 17], [39, 33, 31, 5, 0], [56, 43, 19, 16,
    0], [52, 46], [55, 45, 24, 22], [59, 54, 51, 32, 6], [54, 42, 27], [42, 36, 0], [33, 3, 1], [34, 31, 9,
    0], [53, 52, 48, 7], [56, 0], [50, 41, 9, 5], [46, 4], [59, 30, 25, 6], [50, 34, 11, 5, 1], [42, 32, 25],
    [11, 3], [23, 21], [43, 31, 1, 0], [48, 46, 36, 32, 29, 13, 2], [55, 50, 35, 34, 3, 1], [27], [49, 42, 40,
    21, 7, 0], [26, 16, 8], [51, 37, 27, 23, 12], [35, 15, 8], [56, 47, 39, 28, 22, 16], [41, 33, 28, 5], [54,
    27, 14, 7], [59, 40, 32], [54, 7], [58, 43, 41, 34, 8, 5], [57, 51, 46, 37, 30, 0], [58, 39, 35, 19], [30,
    23, 14, 13], [44, 39, 26, 9], [58, 55, 43], [56, 47, 11], [57, 40, 27, 20, 10], [45, 34, 1, 0], [51, 49,
    27, 17], [53, 48, 30, 4, 2], [55, 28, 22, 19, 3], [48, 40, 32, 12, 2], [59, 53, 17, 10, 4], [59, 52, 49,
    17], [38, 36, 13, 12], [50, 44, 28, 11, 0], [45, 34, 18, 9], [46, 40], [44, 41, 39, 1], [53, 52, 37, 21,
    12]], degrees := [13, 8, 5, 5, 4, 7, 3, 4, 5, 5, 2, 4, 5, 3, 3, 3, 4, 4, 2, 4, 2, 4, 5, 3, 2, 2, 4, 7, 6,
    1, 6, 3, 5, 3, 6, 4, 4, 3, 2, 6, 6, 4, 4, 4, 3, 3, 5, 4, 4, 5, 5, 5, 5, 4, 4, 5, 4, 2, 4, 5] }

/-- Snapshot of the search state after examining the integers 7..331. -/
def T325 : GState :=
  { cands := [3, 7, 11, 13, 17, 19, 23, 29, 31, 37, 41, 43, 47, 53, 59, 61, 67, 71, 73, 79, 83, 89, 97, 101,
    103, 107, 109, 113, 127, 131, 137, 139, 149, 151, 157, 163, 167, 173, 179, 181, 191, 193, 197, 199, 211,
    223, 227, 229, 233, 239, 241, 251, 257, 263, 269, 271, 277, 281, 283, 293, 307, 311, 313, 317, 331], adj
    := [[64, 55, 47, 40, 30, 26, 18, 16, 14, 9, 8, 4, 2, 1], [58, 47, 28, 26, 22, 15, 5, 0], [51, 49, 27, 6,
    0], [64, 50, 28, 24, 15, 5], [52, 49, 20, 0], [39, 35, 22, 19, 8, 3, 1], [61, 21, 12, 2], [38, 36, 30,
    17], [39, 33, 31, 5, 0], [62, 56, 43, 19, 16, 0], [52, 46], [55, 45, 24, 22], [59, 54, 51, 32, 6], [54,
    42, 27], [42, 36, 0], [64, 33, 3, 1], [34, 31, 9, 0], [63, 53, 52, 48, 7], [56, 0], [50, 41, 9, 5], [61,
    46, 4], [59, 30, 25, 6], [50, 34, 11, 5, 1], [42, 32, 25], [60, 11, 3], [23, 21], [62, 43, 31, 1, 0], [48,
    46, 36, 32, 29, 13, 2], [64, 55, 50, 35, 34, 3, 1], [27], [49, 42, 40, 21, 7, 0], [26, 16, 8], [51, 37,
    27, 23, 12], [35, 15, 8], [56, 47, 39, 28, 22, 16], [60, 41, 33, 28, 5], [54, 27, 14, 7], [59, 40, 32],
    [63, 54, 7], [58, 43, 41, 34, 8, 5], [57, 51, 46, 37, 30, 0], [58, 39, 35, 19], [61, 30, 23, 14, 13], [44,
    39, 26, 9], [62, 58, 55, 43], [56, 47, 11], [57, 40, 27, 20, 10], [45, 34, 1, 0], [51, 49, 27, 17], [53,
    48, 30, 4, 2], [62, 55, 28, 22, 19, 3], [48, 40, 32, 12, 2], [59, 53, 17, 10, 4], [59, 52, 49, 17], [63,
    38, 36, 13, 12], [50, 44, 28, 11, 0], [64, 45, 34, 18, 9], [46, 40], [44, 41, 39, 1], [61, 53, 52, 37, 21,
    12], [35, 24], [59, 42, 20, 6], [50, 44, 26, 9], [54, 38, 17], [56, 28, 15, 3, 0]], degrees := [14, 8, 5,
    6, 4, 7, 4, 4, 5, 6, 2, 4, 5, 3, 3, 4, 4, 5, 2, 4, 3, 4, 5, 3, 3, 2, 5, 7, 7, 1, 6, 3, 5, 3, 6, 5, 4, 3,
    3, 6, 6, 4, 5, 4, 4, 3, 5, 4, 4, 5, 6, 5, 5, 4, 5, 5, 5, 2, 4, 6, 2, 4, 4, 3, 5] }

/-- Snapshot of the search state after examining the integers 7..356. -/
def T350 : GState :=
  { cands := [3, 7, 11, 13, 17, 19, 23, 29, 31, 37, 41, 43, 47, 53, 59, 61, 67, 71, 73, 79, 83, 89, 97, 101,
    103, 107, 109, 113, 127, 131, 137, 139, 149, 151, 157, 163, 167, 173, 179, 181, 191, 193, 197, 199, 211,
    223, 227, 229, 233, 239, 241, 251, 257, 263, 269, 271, 277, 281, 283, 293, 307, 311, 313, 317, 331, 337,
    347, 349, 353], adj := [[64, 55, 47, 40, 30, 26, 18, 16, 14, 9, 8, 4, 2, 1], [58, 47, 28, 26, 22, 15, 5,
    0], [68, 51, 49, 27, 6, 0], [65, 64, 50, 28, 24, 15, 5], [52, 49, 20, 0], [39, 35, 22, 19, 8, 3, 1], [61,
    21, 12, 2], [66, 38, 36, 30, 17], [39, 33, 31, 5, 0], [62, 56, 43, 19, 16, 0], [52, 46], [55, 45, 24, 22],
    [59, 54, 51, 32, 6], [68, 54, 42, 27], [42, 36, 0], [64, 33, 3, 1], [34, 31, 9, 0], [63, 53, 52, 48, 7],
    [56, 0], [50, 41, 9, 5], [61, 46, 4], [59, 30, 25, 6], [50, 34, 11, 5, 1], [42, 32, 25], [60, 11, 3], [23,
    21], [62, 43, 31, 1, 0], [48, 46, 36, 32, 29, 13, 2], [64, 55, 50, 35, 34, 3, 1], [27], [68, 49, 42, 40,
    21, 7, 0], [26, 16, 8], [51, 37, 27, 23, 12], [35, 15, 8], [56, 47, 39, 28, 22, 16], [60, 41, 33, 28, 5],
    [54, 27, 14, 7], [66, 59, 40, 32], [63, 54, 7], [58, 43, 41, 34, 8, 5], [57, 51, 46, 37, 30, 0], [58, 39,
    35, 19], [66, 61, 30, 23, 14, 13], [44, 39, 26, 9], [67, 62, 58, 55, 43], [65, 56, 47, 11], [57, 40, 27,
    20, 10], [45, 34, 1, 0], [66, 51, 49, 27, 17], [66, 53, 48, 30, 4, 2], [62, 55, 28, 22, 19, 3], [66, 48,
    40, 32, 12, 2], [59, 53, 17, 10, 4], [59, 52, 49, 17], [63, 38, 36, 13, 12], [50, 44, 28, 11, 0], [64, 45,
    34, 18, 9], [46, 40], [44, 41, 39, 1], [61, 53, 52, 37, 21, 12], [35, 24], [59, 42, 20, 6], [50, 44, 26,
    9], [68, 54, 38, 17], [67, 56, 28, 15, 3, 0], [67, 45, 3], [51, 49, 48, 42, 37, 7], [65, 64, 44], [63, 30,
    13, 2]], degrees := [14, 8, 6, 7, 4, 7, 4, 5, 5, 6, 2, 4, 5, 4, 3, 4, 4, 5, 2, 4, 3, 4, 5, 3, 3, 2, 5, 7,
    7, 1, 7, 3, 5, 3, 6, 5, 4, 4, 3, 6, 6, 4, 6, 4, 5, 4, 5, 4, 5, 6, 6, 6, 5, 4, 5, 5, 5, 2, 4, 6, 2, 4, 4,
    4, 6, 3, 6, 3, 4] }

/-- Snapshot of the search state after examining the integers 7..381. -/
def T375 : GState :=
  { cands := [3, 7, 11, 13, 17, 19, 23, 29, 31, 37, 41, 43, 47, 53, 59, 61, 67, 71, 73, 79, 83, 89, 97, 101,
    103, 107, 109, 113, 127, 131, 137, 139, 149, 151, 157, 163, 167, 173, 179, 181, 191, 193, 197, 199, 211,
    223, 227, 229, 233, 239, 241, 251, 257, 263, 269, 271, 277, 281, 283, 293, 307, 311, 313, 317, 331, 337,
    347, 349, 353, 359, 367, 373, 379], adj := [[71, 69, 64, 55, 47, 40, 30, 26, 18, 16, 14, 9, 8, 4, 2, 1],
    [58, 47, 28, 26, 22, 15, 5, 0], [68, 51, 49, 27, 6, 0], [70, 65, 64, 50, 28, 24, 15, 5], [52, 49, 20, 0],
    [39, 35, 22, 19, 8, 3, 1], [61, 21, 12, 2], [66, 38, 36, 30, 17], [39, 33, 31, 5, 0], [62, 56, 43, 19, 16,
    0], [52, 46], [55, 45, 24, 22], [59, 54, 51, 32, 6], [68, 54, 42, 27], [42, 36, 0], [64, 33, 3, 1], [34,
    31, 9, 0], [63, 53, 52, 48, 7], [56, 0], [70, 50, 41, 9, 5], [61, 46, 4], [59, 30, 25, 6], [72, 71, 50,
    34, 11, 5, 1], [69, 42, 32, 25], [60, 11, 3], [23, 21], [62, 43, 31, 1, 0], [48, 46, 36, 32, 29, 13, 2],
    [71, 64, 55, 50, 35, 34, 3, 1], [27], [69, 68, 49, 42, 40, 21, 7, 0], [70, 26, 16, 8], [51, 37, 27, 23,
    12], [35, 15, 8], [56, 47, 39, 28, 22, 16], [70, 60, 41, 33, 28, 5], [54, 27, 14, 7], [66, 59, 40, 32],
    [63, 54, 7], [58, 43, 41, 34, 8, 5], [57, 51, 46, 37, 30, 0], [71, 58, 39, 35, 19], [66, 61, 30, 23, 14,
    13], [72, 71, 44, 39, 26, 9], [71, 67, 62, 58, 55, 43], [65, 56, 47, 11], [57, 40, 27, 20, 10], [71, 45,
    34, 1, 0], [66, 51, 49, 27, 17], [66, 53, 48, 30, 4, 2], [62, 55, 28, 22, 19, 3], [66, 48, 40, 32, 12, 2],
    [59, 53, 17, 10, 4], [59, 52, 49, 17], [63, 38, 36, 13, 12], [50, 44, 28, 11, 0], [64, 45, 34, 18, 9],
    [46, 40], [44, 41, 39, 1], [61, 53, 52, 37, 21, 12], [70, 35, 24], [69, 59, 42, 20, 6], [50, 44, 26, 9],
    [68, 54, 38, 17], [67, 56, 28, 15, 3, 0], [67, 45, 3], [51, 49, 48, 42, 37, 7], [71, 65, 64, 44], [69, 63,
    30, 13, 2], [68, 61, 30, 23, 0], [60, 35, 31, 19, 3], [67, 47, 44, 43, 41, 28, 22, 0], [43, 22]], degrees
    := [16, 8, 6, 8, 4, 7, 4, 5, 5, 6, 2, 4, 5, 4, 3, 4, 4, 5, 2, 5, 3, 4, 7, 4, 3, 2, 5, 7, 8, 1, 8, 4, 5, 3,
    6, 6, 4, 4, 3, 6, 6, 5, 6, 6, 6, 4, 5, 5, 5, 6, 6, 6, 5, 4, 5, 5, 5, 2, 4, 6, 3, 5, 4, 4, 6, 3, 6, 4, 5,
    5, 5, 8, 2] }

/-- Snapshot of the search state after examining the integers 7..406. -/
def T400 : GState :=
  { cands := [3, 7, 11, 13, 17, 19, 23, 29, 31, 37, 41, 43, 47, 53, 59, 61, 67, 71, 73, 79, 83, 89, 97, 101,
    103, 107, 109, 113, 127, 131, 137, 139, 149, 151, 157, 163, 167, 173, 179, 181, 191, 193, 197, 199, 211,
    223, 227, 229, 233, 239, 241, 251, 257, 263, 269, 271, 277, 281, 283, 293, 307, 311, 313, 317, 331, 337,
    347, 349, 353, 359, 367, 373, 379, 383, 389, 397, 401], adj := [[71, 69, 64, 55, 47, 40, 30, 26, 18, 16,
    14, 9, 8, 4, 2, 1], [58, 47, 28, 26, 22, 15, 5, 0], [68, 51, 49, 27, 6, 0], [70, 65, 64, 50, 28, 24, 15,
    5], [74, 73, 52, 49, 20, 0], [39, 35, 22, 19, 8, 3, 1], [61, 21, 12, 2], [76, 73, 66, 38, 36, 30, 17],
    [39, 33, 31, 5, 0], [62, 56, 43, 19, 16, 0], [52, 46], [55, 45, 24, 22], [59, 54, 51, 32, 6], [76, 68, 54,
    42, 27], [42, 36, 0], [64, 33, 3, 1], [34, 31, 9, 0], [74, 63, 53, 52, 48, 7], [56, 0], [75, 70, 50, 41,
    9, 5], [61, 46, 4], [59, 30, 25, 6], [72, 71, 50, 34, 11, 5, 1], [73, 69, 42, 32, 25], [60, 11, 3], [23,
    21], [62, 43, 31, 1, 0], [73, 48, 46, 36, 32, 29, 13, 2], [71, 64, 55, 50, 35, 34, 3, 1], [27], [69, 68,
    49, 42, 40, 21, 7, 0], [70, 26, 16, 8], [51, 37, 27, 23, 12], [75, 35, 15, 8], [56, 47, 39, 28, 22, 16],
    [70, 60, 41, 33, 28, 5], [54, 27, 14, 7], [66, 59, 40, 32], [73, 63, 54, 7], [75, 58, 43, 41, 34, 8, 5],
    [57, 51, 46, 37, 30, 0], [71, 58, 39, 35, 19], [66, 61, 30, 23, 14, 13], [72, 71, 44, 39, 26, 9], [71, 67,
    62, 58, 55, 43], [65, 56, 47, 11], [57, 40, 27, 20, 10], [71, 45, 34, 1, 0], [66, 51, 49, 27, 17], [66,
    53, 48, 30, 4, 2], [62, 55, 28, 22, 19, 3], [66, 48, 40, 32, 12, 2], [59, 53, 17, 10, 4], [59, 52, 49,
    17], [74, 63, 38, 36, 13, 12], [50, 44, 28, 11, 0], [64, 45, 34, 18, 9], [46, 40], [75, 44, 41, 39, 1],
    [61, 53, 52, 37, 21, 12], [70, 35, 24], [69, 59, 42, 20, 6], [50, 44, 26, 9], [68, 54, 38, 17], [67, 56,
    28, 15, 3, 0], [75, 67, 45, 3], [76, 51, 49, 48, 42, 37, 7], [71, 65, 64, 44], [69, 63, 30, 13, 2], [68,
    61, 30, 23, 0], [60, 35, 31, 19, 3], [67, 47, 44, 43, 41, 28, 22, 0], [75, 43, 22], [38, 27, 23, 7, 4],
    [54, 17, 4], [72, 65, 58, 39, 33, 19], [66, 13, 7]], degrees := [16, 8, 6, 8, 6, 7, 4, 7, 5, 6, 2, 4, 5,
    5, 3, 4, 4, 6, 2, 6, 3, 4, 7, 5, 3, 2, 5, 8, 8, 1, 8, 4, 5, 4, 6, 6, 4, 4, 4, 7, 6, 5, 6, 6, 6, 4, 5, 5,
    5, 6, 6, 6, 5, 4, 6, 5, 5, 2, 5, 6, 3, 5, 4, 4, 6, 4, 7, 4, 5, 5, 5, 8, 3, 5, 3, 6, 3] }

/-- Snapshot of the search state after examining the integers 7..431. -/
def T425 : GState :=
  { cands := [3, 7, 11, 13, 17, 19, 23, 29, 31, 37, 41, 43, 47, 53, 59, 61, 67, 71, 73, 79, 83, 89, 97, 101,
    103, 107, 109, 113, 127, 131, 137, 139, 149, 151, 157, 163, 167, 173, 179, 181, 191, 193, 197, 199, 211,
    223, 227, 229, 233, 239, 241, 251, 257, 263, 269, 271, 277, 281, 283, 293, 307, 311, 313, 317, 331, 337,
    347, 349, 353, 359, 367, 373, 379, 383, 389, 397, 401, 409, 419, 421, 431], adj := [[71, 69, 64, 55, 47,
    40, 30, 26, 18, 16, 14, 9, 8, 4, 2, 1], [58, 47, 28, 26, 22, 15, 5, 0], [68, 51, 49, 27, 6, 0], [70, 65,
    64, 50, 28, 24, 15, 5], [80, 74, 73, 52, 49, 20, 0], [39, 35, 22, 19, 8, 3, 1], [61, 21, 12, 2], [76, 73,
    66, 38, 36, 30, 17], [39, 33, 31, 5, 0], [62, 56, 43, 19, 16, 0], [52, 46], [55, 45, 24, 22], [78, 59, 54,
    51, 32, 6], [78, 76, 68, 54, 42, 27], [78, 42, 36, 0], [77, 64, 33, 3, 1], [34, 31, 9, 0], [74, 63, 53,
    52, 48, 7], [56, 0], [75, 70, 50, 41, 9, 5], [61, 46, 4], [80, 59, 30, 25, 6], [72, 71, 50, 34, 11, 5, 1],
    [73, 69, 42, 32, 25], [79, 60, 11, 3], [23, 21], [62, 43, 31, 1, 0], [73, 48, 46, 36, 32, 29, 13, 2], [71,
    64, 55, 50, 35, 34, 3, 1], [27], [69, 68, 49, 42, 40, 21, 7, 0], [70, 26, 16, 8], [51, 37, 27, 23, 12],
    [75, 35, 15, 8], [56, 47, 39, 28, 22, 16], [77, 70, 60, 41, 33, 28, 5], [54, 27, 14, 7], [80, 66, 59, 40,
    32], [73, 63, 54, 7], [79, 75, 58, 43, 41, 34, 8, 5], [57, 51, 46, 37, 30, 0], [71, 58, 39, 35, 19], [66,
    61, 30, 23, 14, 13], [72, 71, 44, 39, 26, 9], [71, 67, 62, 58, 55, 43], [65, 56, 47, 11], [57, 40, 27, 20,
    10], [71, 45, 34, 1, 0], [66, 51, 49, 27, 17], [66, 53, 48, 30, 4, 2], [79, 62, 55, 28, 22, 19, 3], [80,
    66, 48, 40, 32, 12, 2], [59, 53, 17, 10, 4], [59, 52, 49, 17], [80, 74, 63, 38, 36, 13, 12], [77, 50, 44,
    28, 11, 0], [64, 45, 34, 18, 9], [78, 46, 40], [75, 44, 41, 39, 1], [61, 53, 52, 37, 21, 12], [70, 35,
    24], [69, 59, 42, 20, 6], [50, 44, 26, 9], [78, 68, 54, 38, 17], [67, 56, 28, 15, 3, 0], [75, 67, 45, 3],
    [76, 51, 49, 48, 42, 37, 7], [77, 71, 65, 64, 44], [69, 63, 30, 13, 2], [68, 61, 30, 23, 0], [60, 35, 31,
    19, 3], [67, 47, 44, 43, 41, 28, 22, 0], [75, 43, 22], [78, 38, 27, 23, 7, 4], [54, 17, 4], [72, 65, 58,
    39, 33, 19], [66, 13, 7], [67, 55, 35, 15], [73, 63, 57, 14, 13, 12], [50, 39, 24], [54, 51, 37, 21, 4]],
    degrees := [16, 8, 6, 8, 7, 7, 4, 7, 5, 6, 2, 4, 6, 6, 4, 5, 4, 6, 2, 6, 3, 5, 7, 5, 4, 2, 5, 8, 8, 1, 8,
    4, 5, 4, 6, 7, 4, 5, 4, 8, 6, 5, 6, 6, 6, 4, 5, 5, 5, 6, 7, 7, 5, 4, 7, 6, 5, 3, 5, 6, 3, 5, 4, 5, 6, 4,
    7, 5, 5, 5, 5, 8, 3, 6, 3, 6, 3, 4, 6, 3, 5] }

/-- Snapshot of the search state after examining the integers 7..456. -/
def T450 : GState :=
  { cands := [3, 7, 11, 13, 17, 19, 23, 29, 31, 37, 41, 43, 47, 53, 59, 61, 67, 71, 73, 79, 83, 89, 97, 101,
    103, 107, 109, 113, 127, 131, 137, 139, 149, 151, 157, 163, 167, 173, 179, 181, 191, 193, 197, 199, 211,
    223, 227, 229, 233, 239, 241, 251, 257, 263, 269, 271, 277, 281, 283, 293, 307, 311, 313, 317, 331, 337,
    347, 349, 353, 359, 367, 373, 379, 383, 389, 397, 401, 409, 419, 421, 431, 433, 439, 443, 449], adj :=
    [[84, 71, 69, 64, 55, 47, 40, 30, 26, 18, 16, 14, 9, 8, 4, 2, 1], [81, 58, 47, 28, 26, 22, 15, 5, 0], [68,
    51, 49, 27, 6, 0], [70, 65, 64, 50, 28, 24, 15, 5], [84, 80, 74, 73, 52, 49, 20, 0], [81, 39, 35, 22, 19,
    8, 3, 1], [61, 21, 12, 2], [76, 73, 66, 38, 36, 30, 17], [39, 33, 31, 5, 0], [62, 56, 43, 19, 16, 0], [52,
    46], [55, 45, 24, 22], [78, 59, 54, 51, 32, 6], [78, 76, 68, 54, 42, 27], [78, 42, 36, 0], [77, 64, 33, 3,
    1], [34, 31, 9, 0], [83, 74, 63, 53, 52, 48, 7], [56, 0], [75, 70, 50, 41, 9, 5], [84, 83, 61, 46, 4],
    [83, 80, 59, 30, 25, 6], [72, 71, 50, 34, 11, 5, 1], [73, 69, 42, 32, 25], [79, 60, 11, 3], [84, 23, 21],
    [62, 43, 31, 1, 0], [73, 48, 46, 36, 32, 29, 13, 2], [71, 64, 55, 50, 35, 34, 3, 1], [84, 27], [69, 68,
    49, 42, 40, 21, 7, 0], [70, 26, 16, 8], [51, 37, 27, 23, 12], [81, 75, 35, 15, 8], [56, 47, 39, 28, 22,
    16], [77, 70, 60, 41, 33, 28, 5], [83, 54, 27, 14, 7], [80, 66, 59, 40, 32], [73, 63, 54, 7], [79, 75, 58,
    43, 41, 34, 8, 5], [57, 51, 46, 37, 30, 0], [81, 71, 58, 39, 35, 19], [66, 61, 30, 23, 14, 13], [72, 71,
    44, 39, 26, 9], [71, 67, 62, 58, 55, 43], [65, 56, 47, 11], [57, 40, 27, 20, 10], [81, 71, 45, 34, 1, 0],
    [66, 51, 49, 27, 17], [66, 53, 48, 30, 4, 2], [79, 62, 55, 28, 22, 19, 3], [80, 66, 48, 40, 32, 12, 2],
    [59, 53, 17, 10, 4], [83, 59, 52, 49, 17], [80, 74, 63, 38, 36, 13, 12], [77, 50, 44, 28, 11, 0], [64, 45,
    34, 18, 9], [78, 46, 40], [75, 44, 41, 39, 1], [61, 53, 52, 37, 21, 12], [70, 35, 24], [69, 59, 42, 20,
    6], [50, 44, 26, 9], [78, 68, 54, 38, 17], [67, 56, 28, 15, 3, 0], [75, 67, 45, 3], [83, 76, 51, 49, 48,
    42, 37, 7], [77, 71, 65, 64, 44], [83, 69, 63, 30, 13, 2], [68, 61, 30, 23, 0], [60, 35, 31, 19, 3], [67,
    47, 44, 43, 41, 28, 22, 0], [75, 43, 22], [78, 38, 27, 23, 7, 4], [54, 17, 4], [72, 65, 58, 39, 33, 19],
    [66, 13, 7], [67, 55, 35, 15], [84, 83, 73, 63, 57, 14, 13, 12], [81, 50, 39, 24], [54, 51, 37, 21, 4],
    [79, 47, 41, 33, 5, 1], [], [78, 68, 66, 53, 36, 21, 20, 17], [78, 29, 25, 20, 4, 0]], degrees := [17, 9,
    6, 8, 8, 8, 4, 7, 5, 6, 2, 4, 6, 6, 4, 5, 4, 7, 2, 6, 5, 6, 7, 5, 4, 3, 5, 8, 8, 2, 8, 4, 5, 5, 6, 7, 5,
    5, 4, 8, 6, 6, 6, 6, 6, 4, 5, 6, 5, 6, 7, 7, 5, 5, 7, 6, 5, 3, 5, 6, 3, 5, 4, 5, 6, 4, 8, 5, 6, 5, 5, 8,
    3, 6, 3, 6, 3, 4, 8, 4, 5, 6, 0, 8, 6] }

/-- Snapshot of the search state after examining the integers 7..481. -/
def T475 : GState :=
  { cands := [3, 7, 11, 13, 17, 19, 23, 29, 31, 37, 41, 43, 47, 53, 59, 61, 67, 71, 73, 79, 83, 89, 97, 101,
    103, 107, 109, 113, 127, 131, 137, 139, 149, 151, 157, 163, 167, 173, 179, 181, 191, 193, 197, 199, 211,
    223, 227, 229, 233, 239, 241, 251, 257, 263, 269, 271, 277, 281, 283, 293, 307, 311, 313, 317, 331, 337,
    347, 349, 353, 359, 367, 373, 379, 383, 389, 397, 401, 409, 419, 421, 431, 433, 439, 443, 449, 457, 461,
    463, 467, 479], adj := [[88, 84, 71, 69, 64, 55, 47, 40, 30, 26, 18, 16, 14, 9, 8, 4, 2, 1], [81, 58, 47,
    28, 26, 22, 15, 5, 0], [68, 51, 49, 27, 6, 0], [70, 65, 64, 50, 28, 24, 15, 5], [84, 80, 74, 73, 52, 49,
    20, 0], [81, 39, 35, 22, 19, 8, 3, 1], [61, 21, 12, 2], [76, 73, 66, 38, 36, 30, 17], [39, 33, 31, 5, 0],
    [87, 62, 56, 43, 19, 16, 0], [52, 46], [55, 45, 24, 22], [78, 59, 54, 51, 32, 6], [78, 76, 68, 54, 42,
    27], [78, 42, 36, 0], [77, 64, 33, 3, 1], [34, 31, 9, 0], [83, 74, 63, 53, 52, 48, 7], [56, 0], [75, 70,
    50, 41, 9, 5], [84, 83, 61, 46, 4], [83, 80, 59, 30, 25, 6], [72, 71, 50, 34, 11, 5, 1], [88, 73, 69, 42,
    32, 25], [79, 60, 11, 3], [84, 23, 21], [62, 43, 31, 1, 0], [73, 48, 46, 36, 32, 29, 13, 2], [71, 64, 55,
    50, 35, 34, 3, 1], [89, 84, 27], [69, 68, 49, 42, 40, 21, 7, 0], [85, 70, 26, 16, 8], [51, 37, 27, 23,
    12], [81, 75, 35, 15, 8], [56, 47, 39, 28, 22, 16], [77, 70, 60, 41, 33, 28, 5], [83, 54, 27, 14, 7], [80,
    66, 59, 40, 32], [73, 63, 54, 7], [79, 75, 58, 43, 41, 34, 8, 5], [86, 57, 51, 46, 37, 30, 0], [81, 71,
    58, 39, 35, 19], [66, 61, 30, 23, 14, 13], [72, 71, 44, 39, 26, 9], [71, 67, 62, 58, 55, 43], [65, 56, 47,
    11], [57, 40, 27, 20, 10], [81, 71, 45, 34, 1, 0], [66, 51, 49, 27, 17], [86, 66, 53, 48, 30, 4, 2], [79,
    62, 55, 28, 22, 19, 3], [80, 66, 48, 40, 32, 12, 2], [59, 53, 17, 10, 4], [83, 59, 52, 49, 17], [86, 80,
    74, 63, 38, 36, 13, 12], [77, 50, 44, 28, 11, 0], [64, 45, 34, 18, 9], [78, 46, 40], [87, 75, 44, 41, 39,
    1], [88, 61, 53, 52, 37, 21, 12], [70, 35, 24], [69, 59, 42, 20, 6], [50, 44, 26, 9], [78, 68, 54, 38,
    17], [67, 56, 28, 15, 3, 0], [75, 67, 45, 3], [83, 76, 51, 49, 48, 42, 37, 7], [77, 71, 65, 64, 44], [83,
    69, 63, 30, 13, 2], [68, 61, 30, 23, 0], [85, 60, 35, 31, 19, 3], [67, 47, 44, 43, 41, 28, 22, 0], [75,
    43, 22], [78, 38, 27, 23, 7, 4], [54, 17, 4], [72, 65, 58, 39, 33, 19], [66, 13, 7], [67, 55, 35, 15],
    [84, 83, 73, 63, 57, 14, 13, 12], [81, 50, 39, 24], [89, 54, 51, 37, 21, 4], [79, 47, 41, 33, 5, 1], [],
    [78, 68, 66, 53, 36, 21, 20, 17], [78, 29, 25, 20, 4, 0], [70, 31], [89, 54, 49, 40], [58, 9], [59, 23,
    0], [86, 80, 29]], degrees := [18, 9, 6, 8, 8, 8, 4, 7, 5, 7, 2, 4, 6, 6, 4, 5, 4, 7, 2, 6, 5, 6, 7, 6, 4,
    3, 5, 8, 8, 3, 8, 5, 5, 5, 6, 7, 5, 5, 4, 8, 7, 6, 6, 6, 6, 4, 5, 6, 5, 7, 7, 7, 5, 5, 8, 6, 5, 3, 6, 7,
    3, 5, 4, 5, 6, 4, 8, 5, 6, 5, 6, 8, 3, 6, 3, 6, 3, 4, 8, 4, 6, 6, 0, 8, 6, 2, 4, 2, 3, 3] }

/-- Snapshot of the search state after examining the integers 7..506. -/
def T500 : GState :=
  { cands := [3, 7, 11, 13, 17, 19, 23, 29, 31, 37, 41, 43, 47, 53, 59, 61, 67, 71, 73, 79, 83, 89, 97, 101,
    103, 107, 109, 113, 127, 131, 137, 139, 149, 151, 157, 163, 167, 173, 179, 181, 191, 193, 197, 199, 211,
    223, 227, 229, 233, 239, 241, 251, 257, 263, 269, 271, 277, 281, 283, 293, 307, 311, 313, 317, 331, 337,
    347, 349, 353, 359, 367, 373, 379, 383, 389, 397, 401, 409, 419, 421, 431, 433, 439, 443, 449, 457, 461,
    463, 467, 479, 487, 491, 499, 503], adj := [[92, 88, 84, 71, 69, 64, 55, 47, 40, 30, 26, 18, 16, 14, 9, 8,
    4, 2, 1], [90, 81, 58, 47, 28, 26, 22, 15, 5, 0], [93, 68, 51, 49, 27, 6, 0], [70, 65, 64, 50, 28, 24, 15,
    5], [91, 84, 80, 74, 73, 52, 49, 20, 0], [81, 39, 35, 22, 19, 8, 3, 1], [61, 21, 12, 2], [76, 73, 66, 38,
    36, 30, 17], [39, 33, 31, 5, 0], [87, 62, 56, 43, 19, 16, 0], [52, 46], [92, 55, 45, 24, 22], [78, 59, 54,
    51, 32, 6], [78, 76, 68, 54, 42, 27], [78, 42, 36, 0], [90, 77, 64, 33, 3, 1], [34, 31, 9, 0], [83, 74,
    63, 53, 52, 48, 7], [56, 0], [75, 70, 50, 41, 9, 5], [84, 83, 61, 46, 4], [83, 80, 59, 30, 25, 6], [72,
    71, 50, 34, 11, 5, 1], [88, 73, 69, 42, 32, 25], [79, 60, 11, 3], [84, 23, 21], [62, 43, 31, 1, 0], [73,
    48, 46, 36, 32, 29, 13, 2], [71, 64, 55, 50, 35, 34, 3, 1], [89, 84, 27], [91, 69, 68, 49, 42, 40, 21, 7,
    0], [85, 70, 26, 16, 8], [91, 51, 37, 27, 23, 12], [92, 81, 75, 35, 15, 8], [56, 47, 39, 28, 22, 16], [77,
    70, 60, 41, 33, 28, 5], [91, 83, 54, 27, 14, 7], [80, 66, 59, 40, 32], [73, 63, 54, 7], [92, 79, 75, 58,
    43, 41, 34, 8, 5], [86, 57, 51, 46, 37, 30, 0], [81, 71, 58, 39, 35, 19], [66, 61, 30, 23, 14, 13], [72,
    71, 44, 39, 26, 9], [92, 71, 67, 62, 58, 55, 43], [65, 56, 47, 11], [57, 40, 27, 20, 10], [92, 81, 71, 45,
    34, 1, 0], [66, 51, 49, 27, 17], [86, 66, 53, 48, 30, 4, 2], [79, 62, 55, 28, 22, 19, 3], [91, 80, 66, 48,
    40, 32, 12, 2], [59, 53, 17, 10, 4], [83, 59, 52, 49, 17], [86, 80, 74, 63, 38, 36, 13, 12], [77, 50, 44,
    28, 11, 0], [92, 64, 45, 34, 18, 9], [78, 46, 40], [90, 87, 75, 44, 41, 39, 1], [88, 61, 53, 52, 37, 21,
    12], [70, 35, 24], [69, 59, 42, 20, 6], [50, 44, 26, 9], [93, 78, 68, 54, 38, 17], [67, 56, 28, 15, 3, 0],
    [75, 67, 45, 3], [83, 76, 51, 49, 48, 42, 37, 7], [92, 77, 71, 65, 64, 44], [83, 69, 63, 30, 13, 2], [68,
    61, 30, 23, 0], [85, 60, 35, 31, 19, 3], [67, 47, 44, 43, 41, 28, 22, 0], [75, 43, 22], [78, 38, 27, 23,
    7, 4], [54, 17, 4], [72, 65, 58, 39, 33, 19], [66, 13, 7], [67, 55, 35, 15], [84, 83, 73, 63, 57, 14, 13,
    12], [81, 50, 39, 24], [89, 54, 51, 37, 21, 4], [79, 47, 41, 33, 5, 1], [], [78, 68, 66, 53, 36, 21, 20,
    17], [78, 29, 25, 20, 4, 0], [70, 31], [89, 54, 49, 40], [58, 9], [59, 23, 0], [86, 80, 29], [58, 15, 1],
    [51, 36, 32, 30, 4], [67, 56, 47, 44, 39, 33, 11, 0], [63, 2]], degrees := [19, 10, 7, 8, 9, 8, 4, 7, 5,
    7, 2, 5, 6, 6, 4, 6, 4, 7, 2, 6, 5, 6, 7, 6, 4, 3, 5, 8, 8, 3, 9, 5, 6, 6, 6, 7, 6, 5, 4, 9, 7, 6, 6, 6,
    7, 4, 5, 7, 5, 7, 7, 8, 5, 5, 8, 6, 6, 3, 7, 7, 3, 5, 4, 6, 6, 4, 8, 6, 6, 5, 6, 8, 3, 6, 3, 6, 3, 4, 8,
    4, 6, 6, 0, 8, 6, 2, 4, 2, 3, 3, 3, 5, 8, 2] }

/-- Snapshot of the search state after examining the integers 7..531. -/
def T525 : GState :=
  { cands := [3, 7, 11, 13, 17, 19, 23, 29, 31, 37, 41, 43, 47, 53, 59, 61, 67, 71, 73, 79, 83, 89, 97, 101,
    103, 107, 109, 113, 127, 131, 137, 139, 149, 151, 157, 163, 167, 173, 179, 181, 191, 193, 197, 199, 211,
    223, 227, 229, 233, 239, 241, 251, 257, 263, 269, 271, 277, 281, 283, 293, 307, 311, 313, 317, 331, 337,
    347, 349, 353, 359, 367, 373, 379, 383, 389, 397, 401, 409, 419, 421, 431, 433, 439, 443, 449, 457, 461,
    463, 467, 479, 487, 491, 499, 503, 509, 521, 523], adj := [[92, 88, 84, 71, 69, 64, 55, 47, 40, 30, 26,
    18, 16, 14, 9, 8, 4, 2, 1], [96, 90, 81, 58, 47, 28, 26, 22, 15, 5, 0], [93, 68, 51, 49, 27, 6, 0], [96,
    70, 65, 64, 50, 28, 24, 15, 5], [91, 84, 80, 74, 73, 52, 49, 20, 0], [81, 39, 35, 22, 19, 8, 3, 1], [94,
    61, 21, 12, 2], [76, 73, 66, 38, 36, 30, 17], [39, 33, 31, 5, 0], [87, 62, 56, 43, 19, 16, 0], [52, 46],
    [92, 55, 45, 24, 22], [95, 78, 59, 54, 51, 32, 6], [78, 76, 68, 54, 42, 27], [78, 42, 36, 0], [90, 77, 64,
    33, 3, 1], [34, 31, 9, 0], [83, 74, 63, 53, 52, 48, 7], [56, 0], [75, 70, 50, 41, 9, 5], [84, 83, 61, 46,
    4], [95, 83, 80, 59, 30, 25, 6], [72, 71, 50, 34, 11, 5, 1], [88, 73, 69, 42, 32, 25], [79, 60, 11, 3],
    [84, 23, 21], [62, 43, 31, 1, 0], [73, 48, 46, 36, 32, 29, 13, 2], [71, 64, 55, 50, 35, 34, 3, 1], [89,
    84, 27], [91, 69, 68, 49, 42, 40, 21, 7, 0], [85, 70, 26, 16, 8], [91, 51, 37, 27, 23, 12], [92, 81, 75,
    35, 15, 8], [56, 47, 39, 28, 22, 16], [77, 70, 60, 41, 33, 28, 5], [95, 91, 83, 54, 27, 14, 7], [80, 66,
    59, 40, 32], [73, 63, 54, 7], [92, 79, 75, 58, 43, 41, 34, 8, 5], [86, 57, 51, 46, 37, 30, 0], [81, 71,
    58, 39, 35, 19], [66, 61, 30, 23, 14, 13], [72, 71, 44, 39, 26, 9], [92, 71, 67, 62, 58, 55, 43], [65, 56,
    47, 11], [57, 40, 27, 20, 10], [92, 81, 71, 45, 34, 1, 0], [66, 51, 49, 27, 17], [94, 86, 66, 53, 48, 30,
    4, 2], [79, 62, 55, 28, 22, 19, 3], [91, 80, 66, 48, 40, 32, 12, 2], [59, 53, 17, 10, 4], [83, 59, 52, 49,
    17], [86, 80, 74, 63, 38, 36, 13, 12], [77, 50, 44, 28, 11, 0], [92, 64, 45, 34, 18, 9], [94, 78, 46, 40],
    [90, 87, 75, 44, 41, 39, 1], [88, 61, 53, 52, 37, 21, 12], [96, 70, 35, 24], [69, 59, 42, 20, 6], [50, 44,
    26, 9], [93, 78, 68, 54, 38, 17], [67, 56, 28, 15, 3, 0], [75, 67, 45, 3], [83, 76, 51, 49, 48, 42, 37,
    7], [92, 77, 71, 65, 64, 44], [83, 69, 63, 30, 13, 2], [94, 68, 61, 30, 23, 0], [85, 60, 35, 31, 19, 3],
    [67, 47, 44, 43, 41, 28, 22, 0], [75, 43, 22], [78, 38, 27, 23, 7, 4], [54, 17, 4], [72, 65, 58, 39, 33,
    19], [66, 13, 7], [67, 55, 35, 15], [84, 83, 73, 63, 57, 14, 13, 12], [81, 50, 39, 24], [89, 54, 51, 37,
    21, 4], [79, 47, 41, 33, 5, 1], [], [78, 68, 66, 53, 36, 21, 20, 17], [78, 29, 25, 20, 4, 0], [70, 31],
    [89, 54, 49, 40], [96, 58, 9], [59, 23, 0], [86, 80, 29], [58, 15, 1], [51, 36, 32, 30, 4], [67, 56, 47,
    44, 39, 33, 11, 0], [63, 2], [69, 57, 49, 6], [36, 21, 12], [87, 60, 3, 1]], degrees := [19, 11, 7, 9, 9,
    8, 5, 7, 5, 7, 2, 5, 7, 6, 4, 6, 4, 7, 2, 6, 5, 7, 7, 6, 4, 3, 5, 8, 8, 3, 9, 5, 6, 6, 6, 7, 7, 5, 4, 9,
    7, 6, 6, 6, 7, 4, 5, 7, 5, 8, 7, 8, 5, 5, 8, 6, 6, 4, 7, 7, 4, 5, 4, 6, 6, 4, 8, 6, 6, 6, 6, 8, 3, 6, 3,
    6, 3, 4, 8, 4, 6, 6, 0, 8, 6, 2, 4, 3, 3, 3, 3, 5, 8, 2, 4, 3, 4] }

/-- Snapshot of the search state after examining the integers 7..556. -/
def T550 : GState :=
  { cands := [3, 7, 11, 13, 17, 19, 23, 29, 31, 37, 41, 43, 47, 53, 59, 61, 67, 71, 73, 79, 83, 89, 97, 101,
    103, 107, 109, 113, 127, 131, 137, 139, 149, 151, 157, 163, 167, 173, 179, 181, 191, 193, 197, 199, 211,
    223, 227, 229, 233, 239, 241, 251, 257, 263, 269, 271, 277, 281, 283, 293, 307, 311, 313, 317, 331, 337,
    347, 349, 353, 359, 367, 373, 379, 383, 389, 397, 401, 409, 419, 421, 431, 433, 439, 443, 449, 457, 461,
    463, 467, 479, 487, 491, 499, 503, 509, 521, 523, 541, 547], adj := [[97, 92, 88, 84, 71, 69, 64, 55, 47,
    40, 30, 26, 18, 16, 14, 9, 8, 4, 2, 1], [98, 97, 96, 90, 81, 58, 47, 28, 26, 22, 15, 5, 0], [93, 68, 51,
    49, 27, 6, 0], [96, 70, 65, 64, 50, 28, 24, 15, 5], [91, 84, 80, 74, 73, 52, 49, 20, 0], [81, 39, 35, 22,
    19, 8, 3, 1], [94, 61, 21, 12, 2], [76, 73, 66, 38, 36, 30, 17], [39, 33, 31, 5, 0], [87, 62, 56, 43, 19,
    16, 0], [52, 46], [92, 55, 45, 24, 22], [95, 78, 59, 54, 51, 32, 6], [78, 76, 68, 54, 42, 27], [78, 42,
    36, 0], [90, 77, 64, 33, 3, 1], [98, 34, 31, 9, 0], [83, 74, 63, 53, 52, 48, 7], [98, 56, 0], [75, 70, 50,
    41, 9, 5], [84, 83, 61, 46, 4], [95, 83, 80, 59, 30, 25, 6], [72, 71, 50, 34, 11, 5, 1], [88, 73, 69, 42,
    32, 25], [79, 60, 11, 3], [84, 23, 21], [62, 43, 31, 1, 0], [73, 48, 46, 36, 32, 29, 13, 2], [71, 64, 55,
    50, 35, 34, 3, 1], [89, 84, 27], [91, 69, 68, 49, 42, 40, 21, 7, 0], [98, 85, 70, 26, 16, 8], [91, 51, 37,
    27, 23, 12], [92, 81, 75, 35, 15, 8], [56, 47, 39, 28, 22, 16], [77, 70, 60, 41, 33, 28, 5], [95, 91, 83,
    54, 27, 14, 7], [80, 66, 59, 40, 32], [73, 63, 54, 7], [92, 79, 75, 58, 43, 41, 34, 8, 5], [86, 57, 51,
    46, 37, 30, 0], [97, 81, 71, 58, 39, 35, 19], [66, 61, 30, 23, 14, 13], [72, 71, 44, 39, 26, 9], [92, 71,
    67, 62, 58, 55, 43], [98, 65, 56, 47, 11], [57, 40, 27, 20, 10], [98, 92, 81, 71, 45, 34, 1, 0], [66, 51,
    49, 27, 17], [94, 86, 66, 53, 48, 30, 4, 2], [79, 62, 55, 28, 22, 19, 3], [91, 80, 66, 48, 40, 32, 12, 2],
    [59, 53, 17, 10, 4], [83, 59, 52, 49, 17], [86, 80, 74, 63, 38, 36, 13, 12], [77, 50, 44, 28, 11, 0], [92,
    64, 45, 34, 18, 9], [94, 78, 46, 40], [97, 90, 87, 75, 44, 41, 39, 1], [88, 61, 53, 52, 37, 21, 12], [96,
    70, 35, 24], [69, 59, 42, 20, 6], [50, 44, 26, 9], [93, 78, 68, 54, 38, 17], [67, 56, 28, 15, 3, 0], [75,
    67, 45, 3], [83, 76, 51, 49, 48, 42, 37, 7], [92, 77, 71, 65, 64, 44], [83, 69, 63, 30, 13, 2], [94, 68,
    61, 30, 23, 0], [85, 60, 35, 31, 19, 3], [67, 47, 44, 43, 41, 28, 22, 0], [75, 43, 22], [78, 38, 27, 23,
    7, 4], [54, 17, 4], [98, 72, 65, 58, 39, 33, 19], [66, 13, 7], [67, 55, 35, 15], [84, 83, 73, 63, 57, 14,
    13, 12], [81, 50, 39, 24], [89, 54, 51, 37, 21, 4], [79, 47, 41, 33, 5, 1], [97], [78, 68, 66, 53, 36, 21,
    20, 17], [78, 29, 25, 20, 4, 0], [70, 31], [89, 54, 49, 40], [96, 58, 9], [59, 23, 0], [86, 80, 29], [58,
    15, 1], [51, 36, 32, 30, 4], [67, 56, 47, 44, 39, 33, 11, 0], [63, 2], [69, 57, 49, 6], [36, 21, 12], [97,
    87, 60, 3, 1], [96, 82, 58, 41, 1, 0], [75, 47, 45, 31, 18, 16, 1]], degrees := [20, 13, 7, 9, 9, 8, 5, 7,
    5, 7, 2, 5, 7, 6, 4, 6, 5, 7, 3, 6, 5, 7, 7, 6, 4, 3, 5, 8, 8, 3, 9, 6, 6, 6, 6, 7, 7, 5, 4, 9, 7, 7, 6,
    6, 7, 5, 5, 8, 5, 8, 7, 8, 5, 5, 8, 6, 6, 4, 8, 7, 4, 5, 4, 6, 6, 4, 8, 6, 6, 6, 6, 8, 3, 6, 3, 7, 3, 4,
    8, 4, 6, 6, 1, 8, 6, 2, 4, 3, 3, 3, 3, 5, 8, 2, 4, 3, 5, 6, 7] }

/-- Snapshot of the search state after examining the integers 7..581. -/
def T575 : GState :=
  { cands := [3, 7, 11, 13, 17, 19, 23, 29, 31, 37, 41, 43, 47, 53, 59, 61, 67, 71, 73, 79, 83, 89, 97, 101,
    103, 107, 109, 113, 127, 131, 137, 139, 149, 151, 157, 163, 167, 173, 179, 181, 191, 193, 197, 199, 211,
    223, 227, 229, 233, 239, 241, 251, 257, 263, 269, 271, 277, 281, 283, 293, 307, 311, 313, 317, 331, 337,
    347, 349, 353, 359, 367, 373, 379, 383, 389, 397, 401, 409, 419, 421, 431, 433, 439, 443, 449, 457, 461,
    463, 467, 479, 487, 491, 499, 503, 509, 521, 523, 541, 547, 557, 563, 569, 571, 577], adj := [[99, 97, 92,
    88, 84, 71, 69, 64, 55, 47, 40, 30, 26, 18, 16, 14, 9, 8, 4, 2, 1], [98, 97, 96, 90, 81, 58, 47, 28, 26,
    22, 15, 5, 0], [93, 68, 51, 49, 27, 6, 0], [103, 96, 70, 65, 64, 50, 28, 24, 15, 5], [91, 84, 80, 74, 73,
    52, 49, 20, 0], [103, 102, 81, 39, 35, 22, 19, 8, 3, 1], [94, 61, 21, 12, 2], [101, 76, 73, 66, 38, 36,
    30, 17], [39, 33, 31, 5, 0], [87, 62, 56, 43, 19, 16, 0], [52, 46], [92, 55, 45, 24, 22], [95, 78, 59, 54,
    51, 32, 6], [78, 76, 68, 54, 42, 27], [78, 42, 36, 0], [90, 77, 64, 33, 3, 1], [98, 34, 31, 9, 0], [83,
    74, 63, 53, 52, 48, 7], [102, 98, 56, 0], [75, 70, 50, 41, 9, 5], [100, 84, 83, 61, 46, 4], [95, 83, 80,
    59, 30, 25, 6], [72, 71, 50, 34, 11, 5, 1], [88, 73, 69, 42, 32, 25], [79, 60, 11, 3], [84, 23, 21], [62,
    43, 31, 1, 0], [73, 48, 46, 36, 32, 29, 13, 2], [71, 64, 55, 50, 35, 34, 3, 1], [89, 84, 27], [91, 69, 68,
    49, 42, 40, 21, 7, 0], [98, 85, 70, 26, 16, 8], [100, 91, 51, 37, 27, 23, 12], [92, 81, 75, 35, 15, 8],
    [102, 56, 47, 39, 28, 22, 16], [77, 70, 60, 41, 33, 28, 5], [95, 91, 83, 54, 27, 14, 7], [80, 66, 59, 40,
    32], [73, 63, 54, 7], [92, 79, 75, 58, 43, 41, 34, 8, 5], [86, 57, 51, 46, 37, 30, 0], [103, 97, 81, 71,
    58, 39, 35, 19], [101, 66, 61, 30, 23, 14, 13], [72, 71, 44, 39, 26, 9], [102, 92, 71, 67, 62, 58, 55,
    43], [98, 65, 56, 47, 11], [57, 40, 27, 20, 10], [98, 92, 81, 71, 45, 34, 1, 0], [66, 51, 49, 27, 17],
    [94, 86, 66, 53, 48, 30, 4, 2], [79, 62, 55, 28, 22, 19, 3], [91, 80, 66, 48, 40, 32, 12, 2], [59, 53, 17,
    10, 4], [83, 59, 52, 49, 17], [86, 80, 74, 63, 38, 36, 13, 12], [77, 50, 44, 28, 11, 0], [92, 64, 45, 34,
    18, 9], [99, 94, 78, 46, 40], [97, 90, 87, 75, 44, 41, 39, 1], [88, 61, 53, 52, 37, 21, 12], [103, 96, 70,
    35, 24], [69, 59, 42, 20, 6], [50, 44, 26, 9], [93, 78, 68, 54, 38, 17], [103, 67, 56, 28, 15, 3, 0], [75,
    67, 45, 3], [83, 76, 51, 49, 48, 42, 37, 7], [92, 77, 71, 65, 64, 44], [83, 69, 63, 30, 13, 2], [100, 94,
    68, 61, 30, 23, 0], [85, 60, 35, 31, 19, 3], [67, 47, 44, 43, 41, 28, 22, 0], [75, 43, 22], [78, 38, 27,
    23, 7, 4], [54, 17, 4], [98, 72, 65, 58, 39, 33, 19], [66, 13, 7], [67, 55, 35, 15], [100, 84, 83, 73, 63,
    57, 14, 13, 12], [81, 50, 39, 24], [89, 54, 51, 37, 21, 4], [102, 79, 47, 41, 33, 5, 1], [97], [78, 68,
    66, 53, 36, 21, 20, 17], [100, 99, 78, 29, 25, 20, 4, 0], [70, 31], [101, 89, 54, 49, 40], [96, 58, 9],
    [59, 23, 0], [101, 86, 80, 29], [58, 15, 1], [51, 36, 32, 30, 4], [67, 56, 47, 44, 39, 33, 11, 0], [100,
    63, 2], [69, 57, 49, 6], [99, 36, 21, 12], [103, 97, 87, 60, 3, 1], [102, 96, 82, 58, 41, 1, 0], [103, 75,
    47, 45, 31, 18, 16, 1], [95, 84, 57, 0], [93, 84, 78, 69, 32, 20], [89, 86, 42, 7], [97, 81, 44, 34, 18,
    5], [98, 96, 64, 60, 41, 5, 3]], degrees := [21, 13, 7, 10, 9, 10, 5, 8, 5, 7, 2, 5, 7, 6, 4, 6, 5, 7, 4,
    6, 6, 7, 7, 6, 4, 3, 5, 8, 8, 3, 9, 6, 7, 6, 7, 7, 7, 5, 4, 9, 7, 8, 7, 6, 8, 5, 5, 8, 5, 8, 7, 8, 5, 5,
    8, 6, 6, 5, 8, 7, 5, 5, 4, 6, 7, 4, 8, 6, 6, 7, 6, 8, 3, 6, 3, 7, 3, 4, 9, 4, 6, 7, 1, 8, 8, 2, 5, 3, 3,
    4, 3, 5, 8, 3, 4, 4, 6, 7, 8, 4, 6, 4, 6, 7] }

/-- Snapshot of the search state after examining the integers 7..606. -/
def T600 : GState :=
  { cands := [3, 7, 11, 13, 17, 19, 23, 29, 31, 37, 41, 43, 47, 53, 59, 61, 67, 71, 73, 79, 83, 89, 97, 101,
    103, 107, 109, 113, 127, 131, 137, 139, 149, 151, 157, 163, 167, 173, 179, 181, 191, 193, 197, 199, 211,
    223, 227, 229, 233, 239, 241, 251, 257, 263, 269, 271, 277, 281, 283, 293, 307, 311, 313, 317, 331, 337,
    347, 349, 353, 359, 367, 373, 379, 383, 389, 397, 401, 409, 419, 421, 431, 433, 439, 443, 449, 457, 461,
    463, 467, 479, 487, 491, 499, 503, 509, 521, 523, 541, 547, 557, 563, 569, 571, 577, 587, 593, 599, 601],
    adj := [[99, 97, 92, 88, 84, 71, 69, 64, 55, 47, 40, 30, 26, 18, 16, 14, 9, 8, 4, 2, 1], [98, 97, 96, 90,
    81, 58, 47, 28, 26, 22, 15, 5, 0], [104, 93, 68, 51, 49, 27, 6, 0], [103, 96, 70, 65, 64, 50, 28, 24, 15,
    5], [91, 84, 80, 74, 73, 52, 49, 20, 0], [103, 102, 81, 39, 35, 22, 19, 8, 3, 1], [94, 61, 21, 12, 2],
    [106, 101, 76, 73, 66, 38, 36, 30, 17], [39, 33, 31, 5, 0], [87, 62, 56, 43, 19, 16, 0], [105, 52, 46],
    [92, 55, 45, 24, 22], [95, 78, 59, 54, 51, 32, 6], [78, 76, 68, 54, 42, 27], [78, 42, 36, 0], [90, 77, 64,
    33, 3, 1], [107, 98, 34, 31, 9, 0], [83, 74, 63, 53, 52, 48, 7], [102, 98, 56, 0], [75, 70, 50, 41, 9, 5],
    [100, 84, 83, 61, 46, 4], [95, 83, 80, 59, 30, 25, 6], [72, 71, 50, 34, 11, 5, 1], [88, 73, 69, 42, 32,
    25], [79, 60, 11, 3], [84, 23, 21], [62, 43, 31, 1, 0], [73, 48, 46, 36, 32, 29, 13, 2], [107, 71, 64, 55,
    50, 35, 34, 3, 1], [89, 84, 27], [104, 91, 69, 68, 49, 42, 40, 21, 7, 0], [98, 85, 70, 26, 16, 8], [100,
    91, 51, 37, 27, 23, 12], [92, 81, 75, 35, 15, 8], [102, 56, 47, 39, 28, 22, 16], [77, 70, 60, 41, 33, 28,
    5], [95, 91, 83, 54, 27, 14, 7], [80, 66, 59, 40, 32], [105, 73, 63, 54, 7], [92, 79, 75, 58, 43, 41, 34,
    8, 5], [106, 86, 57, 51, 46, 37, 30, 0], [107, 103, 97, 81, 71, 58, 39, 35, 19], [101, 66, 61, 30, 23, 14,
    13], [72, 71, 44, 39, 26, 9], [102, 92, 71, 67, 62, 58, 55, 43], [98, 65, 56, 47, 11], [105, 57, 40, 27,
    20, 10], [98, 92, 81, 71, 45, 34, 1, 0], [66, 51, 49, 27, 17], [94, 86, 66, 53, 48, 30, 4, 2], [107, 79,
    62, 55, 28, 22, 19, 3], [91, 80, 66, 48, 40, 32, 12, 2], [59, 53, 17, 10, 4], [83, 59, 52, 49, 17], [86,
    80, 74, 63, 38, 36, 13, 12], [77, 50, 44, 28, 11, 0], [92, 64, 45, 34, 18, 9], [99, 94, 78, 46, 40], [107,
    97, 90, 87, 75, 44, 41, 39, 1], [88, 61, 53, 52, 37, 21, 12], [103, 96, 70, 35, 24], [69, 59, 42, 20, 6],
    [50, 44, 26, 9], [93, 78, 68, 54, 38, 17], [103, 67, 56, 28, 15, 3, 0], [75, 67, 45, 3], [83, 76, 51, 49,
    48, 42, 37, 7], [92, 77, 71, 65, 64, 44], [83, 69, 63, 30, 13, 2], [106, 100, 94, 68, 61, 30, 23, 0], [85,
    60, 35, 31, 19, 3], [67, 47, 44, 43, 41, 28, 22, 0], [75, 43, 22], [78, 38, 27, 23, 7, 4], [54, 17, 4],
    [98, 72, 65, 58, 39, 33, 19], [105, 66, 13, 7], [67, 55, 35, 15], [106, 100, 84, 83, 73, 63, 57, 14, 13,
    12], [81, 50, 39, 24], [89, 54, 51, 37, 21, 4], [102, 79, 47, 41, 33, 5, 1], [107, 97], [78, 68, 66, 53,
    36, 21, 20, 17], [100, 99, 78, 29, 25, 20, 4, 0], [70, 31], [101, 89, 54, 49, 40], [96, 58, 9], [104, 59,
    23, 0], [106, 105, 101, 86, 80, 29], [107, 58, 15, 1], [105, 51, 36, 32, 30, 4], [67, 56, 47, 44, 39, 33,
    11, 0], [100, 63, 2], [69, 57, 49, 6], [99, 36, 21, 12], [103, 97, 87, 60, 3, 1], [102, 96, 82, 58, 41, 1,
    0], [103, 75, 47, 45, 31, 18, 16, 1], [95, 84, 57, 0], [104, 93, 84, 78, 69, 32, 20], [89, 86, 42, 7],
    [97, 81, 44, 34, 18, 5], [98, 96, 64, 60, 41, 5, 3], [100, 88, 30, 2], [91, 89, 76, 46, 38, 10], [89, 78,
    69, 40, 7], [90, 82, 58, 50, 41, 28, 16]], degrees := [21, 13, 8, 10, 9, 10, 5, 9, 5, 7, 3, 5, 7, 6, 4, 6,
    6, 7, 4, 6, 6, 7, 7, 6, 4, 3, 5, 8, 9, 3, 10, 6, 7, 6, 7, 7, 7, 5, 5, 9, 8, 9, 7, 6, 8, 5, 6, 8, 5, 8, 8,
    8, 5, 5, 8, 6, 6, 5, 9, 7, 5, 5, 4, 6, 7, 4, 8, 6, 6, 8, 6, 8, 3, 6, 3, 7, 4, 4, 10, 4, 6, 7, 2, 8, 8, 2,
    5, 3, 4, 6, 4, 6, 8, 3, 4, 4, 6, 7, 8, 4, 7, 4, 6, 7, 4, 6, 5, 7] }

/-- Snapshot of the search state after examining the integers 7..631. -/
def T625 : GState :=
  { cands := [3, 7, 11, 13, 17, 19, 23, 29, 31, 37, 41, 43, 47, 53, 59, 61, 67, 71, 73, 79, 83, 89, 97, 101,
    103, 107, 109, 113, 127, 131, 137, 139, 149, 151, 157, 163, 167, 173, 179, 181, 191, 193, 197, 199, 211,
    223, 227, 229, 233, 239, 241, 251, 257, 263, 269, 271, 277, 281, 283, 293, 307, 311, 313, 317, 331, 337,
    347, 349, 353, 359, 367, 373, 379, 383, 389, 397, 401, 409, 419, 421, 431, 433, 439, 443, 449, 457, 461,
    463, 467, 479, 487, 491, 499, 503, 509, 521, 523, 541, 547, 557, 563, 569, 571, 577, 587, 593, 599, 601,
    607, 613, 617, 619, 631], adj := [[110, 109, 108, 99, 97, 92, 88, 84, 71, 69, 64, 55, 47, 40, 30, 26, 18,
    16, 14, 9, 8, 4, 2, 1], [98, 97, 96, 90, 81, 58, 47, 28, 26, 22, 15, 5, 0], [104, 93, 68, 51, 49, 27, 6,
    0], [103, 96, 70, 65, 64, 50, 28, 24, 15, 5], [91, 84, 80, 74, 73, 52, 49, 20, 0], [103, 102, 81, 39, 35,
    22, 19, 8, 3, 1], [94, 61, 21, 12, 2], [106, 101, 76, 73, 66, 38, 36, 30, 17], [39, 33, 31, 5, 0], [108,
    87, 62, 56, 43, 19, 16, 0], [105, 52, 46], [109, 92, 55, 45, 24, 22], [95, 78, 59, 54, 51, 32, 6], [78,
    76, 68, 54, 42, 27], [78, 42, 36, 0], [90, 77, 64, 33, 3, 1], [111, 107, 98, 34, 31, 9, 0], [83, 74, 63,
    53, 52, 48, 7], [108, 102, 98, 56, 0], [112, 109, 75, 70, 50, 41, 9, 5], [100, 84, 83, 61, 46, 4], [95,
    83, 80, 59, 30, 25, 6], [72, 71, 50, 34, 11, 5, 1], [88, 73, 69, 42, 32, 25], [79, 60, 11, 3], [84, 23,
    21], [62, 43, 31, 1, 0], [73, 48, 46, 36, 32, 29, 13, 2], [108, 107, 71, 64, 55, 50, 35, 34, 3, 1], [110,
    89, 84, 27], [104, 91, 69, 68, 49, 42, 40, 21, 7, 0], [111, 98, 85, 70, 26, 16, 8], [100, 91, 51, 37, 27,
    23, 12], [112, 108, 92, 81, 75, 35, 15, 8], [102, 56, 47, 39, 28, 22, 16], [109, 77, 70, 60, 41, 33, 28,
    5], [95, 91, 83, 54, 27, 14, 7], [80, 66, 59, 40, 32], [105, 73, 63, 54, 7], [111, 108, 92, 79, 75, 58,
    43, 41, 34, 8, 5], [106, 86, 57, 51, 46, 37, 30, 0], [107, 103, 97, 81, 71, 58, 39, 35, 19], [101, 66, 61,
    30, 23, 14, 13], [72, 71, 44, 39, 26, 9], [102, 92, 71, 67, 62, 58, 55, 43], [98, 65, 56, 47, 11], [105,
    57, 40, 27, 20, 10], [112, 109, 98, 92, 81, 71, 45, 34, 1, 0], [110, 66, 51, 49, 27, 17], [94, 86, 66, 53,
    48, 30, 4, 2], [107, 79, 62, 55, 28, 22, 19, 3], [91, 80, 66, 48, 40, 32, 12, 2], [59, 53, 17, 10, 4],
    [83, 59, 52, 49, 17], [110, 86, 80, 74, 63, 38, 36, 13, 12], [77, 50, 44, 28, 11, 0], [92, 64, 45, 34, 18,
    9], [99, 94, 78, 46, 40], [107, 97, 90, 87, 75, 44, 41, 39, 1], [110, 88, 61, 53, 52, 37, 21, 12], [112,
    103, 96, 70, 35, 24], [69, 59, 42, 20, 6], [111, 50, 44, 26, 9], [93, 78, 68, 54, 38, 17], [103, 67, 56,
    28, 15, 3, 0], [108, 75, 67, 45, 3], [83, 76, 51, 49, 48, 42, 37, 7], [92, 77, 71, 65, 64, 44], [83, 69,
    63, 30, 13, 2], [106, 100, 94, 68, 61, 30, 23, 0], [109, 85, 60, 35, 31, 19, 3], [67, 47, 44, 43, 41, 28,
    22, 0], [75, 43, 22], [78, 38, 27, 23, 7, 4], [54, 17, 4], [98, 72, 65, 58, 39, 33, 19], [105, 66, 13, 7],
    [67, 55, 35, 15], [106, 100, 84, 83, 73, 63, 57, 14, 13, 12], [108, 81, 50, 39, 24], [89, 54, 51, 37, 21,
    4], [102, 79, 47, 41, 33, 5, 1], [109, 107, 97], [78, 68, 66, 53, 36, 21, 20, 17], [100, 99, 78, 29, 25,
    20, 4, 0], [70, 31], [101, 89, 54, 49, 40], [109, 96, 58, 9], [110, 104, 59, 23, 0], [106, 105, 101, 86,
    80, 29], [107, 58, 15, 1], [105, 51, 36, 32, 30, 4], [67, 56, 47, 44, 39, 33, 11, 0], [100, 63, 2], [69,
    57, 49, 6], [99, 36, 21, 12], [103, 97, 87, 60, 3, 1], [102, 96, 82, 58, 41, 1, 0], [103, 75, 47, 45, 31,
    18, 16, 1], [95, 84, 57, 0], [104, 93, 84, 78, 69, 32, 20], [89, 86, 42, 7], [97, 81, 44, 34, 18, 5],
    [109, 98, 96, 64, 60, 41, 5, 3], [110, 100, 88, 30, 2], [91, 89, 76, 46, 38, 10], [89, 78, 69, 40, 7],
    [90, 82, 58, 50, 41, 28, 16], [111, 79, 65, 39, 33, 28, 18, 9, 0], [103, 87, 82, 70, 47, 35, 19, 11, 0],
    [104, 88, 59, 54, 48, 29, 0], [108, 62, 39, 31, 16], [60, 47, 33, 19]], degrees := [24, 13, 8, 10, 9, 10,
    5, 9, 5, 8, 3, 6, 7, 6, 4, 6, 7, 7, 5, 8, 6, 7, 7, 6, 4, 3, 5, 8, 10, 4, 10, 7, 7, 8, 7, 8, 7, 5, 5, 11,
    8, 9, 7, 6, 8, 5, 6, 10, 6, 8, 8, 8, 5, 5, 9, 6, 6, 5, 9, 8, 6, 5, 5, 6, 7, 5, 8, 6, 6, 8, 7, 8, 3, 6, 3,
    7, 4, 4, 10, 5, 6, 7, 3, 8, 8, 2, 5, 4, 5, 6, 4, 6, 8, 3, 4, 4, 6, 7, 8, 4, 7, 4, 6, 8, 5, 6, 5, 7, 9, 9,
    7, 5, 4] }

/-- Snapshot of the search state after examining the integers 7..656. -/
def T650 : GState :=
  { cands := [3, 7, 11, 13, 17, 19, 23, 29, 31, 37, 41, 43, 47, 53, 59, 61, 67, 71, 73, 79, 83, 89, 97, 101,
    103, 107, 109, 113, 127, 131, 137, 139, 149, 151, 157, 163, 167, 173, 179, 181, 191, 193, 197, 199, 211,
    223, 227, 229, 233, 239, 241, 251, 257, 263, 269, 271, 277, 281, 283, 293, 307, 311, 313, 317, 331, 337,
    347, 349, 353, 359, 367, 373, 379, 383, 389, 397, 401, 409, 419, 421, 431, 433, 439, 443, 449, 457, 461,
    463, 467, 479, 487, 491, 499, 503, 509, 521, 523, 541, 547, 557, 563, 569, 571, 577, 587, 593, 599, 601,
    607, 613, 617, 619, 631, 641, 643, 647, 653], adj := [[110, 109, 108, 99, 97, 92, 88, 84, 71, 69, 64, 55,
    47, 40, 30, 26, 18, 16, 14, 9, 8, 4, 2, 1], [98, 97, 96, 90, 81, 58, 47, 28, 26, 22, 15, 5, 0], [104, 93,
    68, 51, 49, 27, 6, 0], [103, 96, 70, 65, 64, 50, 28, 24, 15, 5], [91, 84, 80, 74, 73, 52, 49, 20, 0],
    [103, 102, 81, 39, 35, 22, 19, 8, 3, 1], [94, 61, 21, 12, 2], [106, 101, 76, 73, 66, 38, 36, 30, 17], [39,
    33, 31, 5, 0], [108, 87, 62, 56, 43, 19, 16, 0], [105, 52, 46], [109, 92, 55, 45, 24, 22], [95, 78, 59,
    54, 51, 32, 6], [116, 78, 76, 68, 54, 42, 27], [78, 42, 36, 0], [90, 77, 64, 33, 3, 1], [111, 107, 98, 34,
    31, 9, 0], [83, 74, 63, 53, 52, 48, 7], [114, 108, 102, 98, 56, 0], [112, 109, 75, 70, 50, 41, 9, 5],
    [100, 84, 83, 61, 46, 4], [95, 83, 80, 59, 30, 25, 6], [72, 71, 50, 34, 11, 5, 1], [113, 88, 73, 69, 42,
    32, 25], [79, 60, 11, 3], [84, 23, 21], [62, 43, 31, 1, 0], [115, 73, 48, 46, 36, 32, 29, 13, 2], [108,
    107, 71, 64, 55, 50, 35, 34, 3, 1], [113, 110, 89, 84, 27], [104, 91, 69, 68, 49, 42, 40, 21, 7, 0], [111,
    98, 85, 70, 26, 16, 8], [100, 91, 51, 37, 27, 23, 12], [112, 108, 92, 81, 75, 35, 15, 8], [102, 56, 47,
    39, 28, 22, 16], [109, 77, 70, 60, 41, 33, 28, 5], [113, 95, 91, 83, 54, 27, 14, 7], [80, 66, 59, 40, 32],
    [105, 73, 63, 54, 7], [111, 108, 92, 79, 75, 58, 43, 41, 34, 8, 5], [106, 86, 57, 51, 46, 37, 30, 0],
    [107, 103, 97, 81, 71, 58, 39, 35, 19], [113, 101, 66, 61, 30, 23, 14, 13], [72, 71, 44, 39, 26, 9], [102,
    92, 71, 67, 62, 58, 55, 43], [98, 65, 56, 47, 11], [105, 57, 40, 27, 20, 10], [112, 109, 98, 92, 81, 71,
    45, 34, 1, 0], [110, 66, 51, 49, 27, 17], [113, 94, 86, 66, 53, 48, 30, 4, 2], [107, 79, 62, 55, 28, 22,
    19, 3], [91, 80, 66, 48, 40, 32, 12, 2], [59, 53, 17, 10, 4], [115, 83, 59, 52, 49, 17], [110, 86, 80, 74,
    63, 38, 36, 13, 12], [77, 50, 44, 28, 11, 0], [92, 64, 45, 34, 18, 9], [116, 99, 94, 78, 46, 40], [107,
    97, 90, 87, 75, 44, 41, 39, 1], [110, 88, 61, 53, 52, 37, 21, 12], [112, 103, 96, 70, 35, 24], [116, 69,
    59, 42, 20, 6], [111, 50, 44, 26, 9], [93, 78, 68, 54, 38, 17], [103, 67, 56, 28, 15, 3, 0], [108, 75, 67,
    45, 3], [83, 76, 51, 49, 48, 42, 37, 7], [92, 77, 71, 65, 64, 44], [83, 69, 63, 30, 13, 2], [106, 100, 94,
    68, 61, 30, 23, 0], [109, 85, 60, 35, 31, 19, 3], [67, 47, 44, 43, 41, 28, 22, 0], [75, 43, 22], [78, 38,
    27, 23, 7, 4], [54, 17, 4], [98, 72, 65, 58, 39, 33, 19], [105, 66, 13, 7], [67, 55, 35, 15], [106, 100,
    84, 83, 73, 63, 57, 14, 13, 12], [114, 108, 81, 50, 39, 24], [89, 54, 51, 37, 21, 4], [102, 79, 47, 41,
    33, 5, 1], [109, 107, 97], [78, 68, 66, 53, 36, 21, 20, 17], [100, 99, 78, 29, 25, 20, 4, 0], [114, 70,
    31], [116, 101, 89, 54, 49, 40], [114, 109, 96, 58, 9], [113, 110, 104, 59, 23, 0], [106, 105, 101, 86,
    80, 29], [107, 58, 15, 1], [116, 105, 51, 36, 32, 30, 4], [67, 56, 47, 44, 39, 33, 11, 0], [116, 115, 100,
    63, 2], [115, 69, 57, 49, 6], [113, 99, 36, 21, 12], [103, 97, 87, 60, 3, 1], [102, 96, 82, 58, 41, 1, 0],
    [114, 103, 75, 47, 45, 31, 18, 16, 1], [95, 84, 57, 0], [104, 93, 84, 78, 69, 32, 20], [89, 86, 42, 7],
    [97, 81, 44, 34, 18, 5], [109, 98, 96, 64, 60, 41, 5, 3], [110, 100, 88, 30, 2], [115, 91, 89, 76, 46, 38,
    10], [89, 78, 69, 40, 7], [90, 82, 58, 50, 41, 28, 16], [111, 79, 65, 39, 33, 28, 18, 9, 0], [103, 87, 82,
    70, 47, 35, 19, 11, 0], [115, 104, 88, 59, 54, 48, 29, 0], [108, 62, 39, 31, 16], [60, 47, 33, 19], [95,
    88, 49, 42, 36, 29, 23], [98, 87, 85, 79, 18], [110, 105, 94, 93, 53, 27], [93, 91, 86, 61, 57, 13]],
    degrees := [24, 13, 8, 10, 9, 10, 5, 9, 5, 8, 3, 6, 7, 7, 4, 6, 7, 7, 6, 8, 6, 7, 7, 7, 4, 3, 5, 9, 10, 5,
    10, 7, 7, 8, 7, 8, 8, 5, 5, 11, 8, 9, 8, 6, 8, 5, 6, 10, 6, 9, 8, 8, 5, 6, 9, 6, 6, 6, 9, 8, 6, 6, 5, 6,
    7, 5, 8, 6, 6, 8, 7, 8, 3, 6, 3, 7, 4, 4, 10, 6, 6, 7, 3, 8, 8, 3, 6, 5, 6, 6, 4, 7, 8, 5, 5, 5, 6, 7, 9,
    4, 7, 4, 6, 8, 5, 7, 5, 7, 9, 9, 8, 5, 4, 7, 5, 6, 6] }

/-- Snapshot of the search state after examining the integers 7..672. -/
def T666 : GState :=
  { cands := [3, 7, 11, 13, 17, 19, 23, 29, 31, 37, 41, 43, 47, 53, 59, 61, 67, 71, 73, 79, 83, 89, 97, 101,
    103, 107, 109, 113, 127, 131, 137, 139, 149, 151, 157, 163, 167, 173, 179, 181, 191, 193, 197, 199, 211,
    223, 227, 229, 233, 239, 241, 251, 257, 263, 269, 271, 277, 281, 283, 293, 307, 311, 313, 317, 331, 337,
    347, 349, 353, 359, 367, 373, 379, 383, 389, 397, 401, 409, 419, 421, 431, 433, 439, 443, 449, 457, 461,
    463, 467, 479, 487, 491, 499, 503, 509, 521, 523, 541, 547, 557, 563, 569, 571, 577, 587, 593, 599, 601,
    607, 613, 617, 619, 631, 641, 643, 647, 653, 659, 661], adj := [[110, 109, 108, 99, 97, 92, 88, 84, 71,
    69, 64, 55, 47, 40, 30, 26, 18, 16, 14, 9, 8, 4, 2, 1], [98, 97, 96, 90, 81, 58, 47, 28, 26, 22, 15, 5,
    0], [104, 93, 68, 51, 49, 27, 6, 0], [103, 96, 70, 65, 64, 50, 28, 24, 15, 5], [91, 84, 80, 74, 73, 52,
    49, 20, 0], [103, 102, 81, 39, 35, 22, 19, 8, 3, 1], [94, 61, 21, 12, 2], [106, 101, 76, 73, 66, 38, 36,
    30, 17], [39, 33, 31, 5, 0], [108, 87, 62, 56, 43, 19, 16, 0], [105, 52, 46], [109, 92, 55, 45, 24, 22],
    [95, 78, 59, 54, 51, 32, 6], [116, 78, 76, 68, 54, 42, 27], [78, 42, 36, 0], [90, 77, 64, 33, 3, 1], [111,
    107, 98, 34, 31, 9, 0], [83, 74, 63, 53, 52, 48, 7], [114, 108, 102, 98, 56, 0], [112, 109, 75, 70, 50,
    41, 9, 5], [100, 84, 83, 61, 46, 4], [95, 83, 80, 59, 30, 25, 6], [72, 71, 50, 34, 11, 5, 1], [113, 88,
    73, 69, 42, 32, 25], [79, 60, 11, 3], [84, 23, 21], [118, 62, 43, 31, 1, 0], [115, 73, 48, 46, 36, 32, 29,
    13, 2], [108, 107, 71, 64, 55, 50, 35, 34, 3, 1], [113, 110, 89, 84, 27], [117, 104, 91, 69, 68, 49, 42,
    40, 21, 7, 0], [118, 111, 98, 85, 70, 26, 16, 8], [100, 91, 51, 37, 27, 23, 12], [112, 108, 92, 81, 75,
    35, 15, 8], [102, 56, 47, 39, 28, 22, 16], [109, 77, 70, 60, 41, 33, 28, 5], [113, 95, 91, 83, 54, 27, 14,
    7], [117, 80, 66, 59, 40, 32], [105, 73, 63, 54, 7], [111, 108, 92, 79, 75, 58, 43, 41, 34, 8, 5], [106,
    86, 57, 51, 46, 37, 30, 0], [107, 103, 97, 81, 71, 58, 39, 35, 19], [113, 101, 66, 61, 30, 23, 14, 13],
    [72, 71, 44, 39, 26, 9], [102, 92, 71, 67, 62, 58, 55, 43], [98, 65, 56, 47, 11], [105, 57, 40, 27, 20,
    10], [112, 109, 98, 92, 81, 71, 45, 34, 1, 0], [110, 66, 51, 49, 27, 17], [113, 94, 86, 66, 53, 48, 30, 4,
    2], [107, 79, 62, 55, 28, 22, 19, 3], [91, 80, 66, 48, 40, 32, 12, 2], [59, 53, 17, 10, 4], [115, 83, 59,
    52, 49, 17], [110, 86, 80, 74, 63, 38, 36, 13, 12], [77, 50, 44, 28, 11, 0], [92, 64, 45, 34, 18, 9],
    [116, 99, 94, 78, 46, 40], [107, 97, 90, 87, 75, 44, 41, 39, 1], [110, 88, 61, 53, 52, 37, 21, 12], [112,
    103, 96, 70, 35, 24], [116, 69, 59, 42, 20, 6], [111, 50, 44, 26, 9], [93, 78, 68, 54, 38, 17], [103, 67,
    56, 28, 15, 3, 0], [108, 75, 67, 45, 3], [83, 76, 51, 49, 48, 42, 37, 7], [92, 77, 71, 65, 64, 44], [83,
    69, 63, 30, 13, 2], [106, 100, 94, 68, 61, 30, 23, 0], [109, 85, 60, 35, 31, 19, 3], [118, 67, 47, 44, 43,
    41, 28, 22, 0], [75, 43, 22], [78, 38, 27, 23, 7, 4], [54, 17, 4], [98, 72, 65, 58, 39, 33, 19], [105, 66,
    13, 7], [67, 55, 35, 15], [106, 100, 84, 83, 73, 63, 57, 14, 13, 12], [118, 114, 108, 81, 50, 39, 24],
    [89, 54, 51, 37, 21, 4], [102, 79, 47, 41, 33, 5, 1], [118, 109, 107, 97], [78, 68, 66, 53, 36, 21, 20,
    17], [100, 99, 78, 29, 25, 20, 4, 0], [114, 70, 31], [116, 101, 89, 54, 49, 40], [114, 109, 96, 58, 9],
    [113, 110, 104, 59, 23, 0], [106, 105, 101, 86, 80, 29], [107, 58, 15, 1], [116, 105, 51, 36, 32, 30, 4],
    [67, 56, 47, 44, 39, 33, 11, 0], [116, 115, 100, 63, 2], [115, 69, 57, 49, 6], [117, 113, 99, 36, 21, 12],
    [103, 97, 87, 60, 3, 1], [118, 102, 96, 82, 58, 41, 1, 0], [118, 114, 103, 75, 47, 45, 31, 18, 16, 1],
    [95, 84, 57, 0], [104, 93, 84, 78, 69, 32, 20], [117, 89, 86, 42, 7], [97, 81, 44, 34, 18, 5], [109, 98,
    96, 64, 60, 41, 5, 3], [110, 100, 88, 30, 2], [115, 91, 89, 76, 46, 38, 10], [89, 78, 69, 40, 7], [90, 82,
    58, 50, 41, 28, 16], [111, 79, 65, 39, 33, 28, 18, 9, 0], [118, 103, 87, 82, 70, 47, 35, 19, 11, 0], [115,
    104, 88, 59, 54, 48, 29, 0], [108, 62, 39, 31, 16], [60, 47, 33, 19], [95, 88, 49, 42, 36, 29, 23], [98,
    87, 85, 79, 18], [110, 105, 94, 93, 53, 27], [117, 93, 91, 86, 61, 57, 13], [116, 101, 95, 37, 30], [109,
    98, 97, 82, 79, 71, 31, 26]], degrees := [24, 13, 8, 10, 9, 10, 5, 9, 5, 8, 3, 6, 7, 7, 4, 6, 7, 7, 6, 8,
    6, 7, 7, 7, 4, 3, 6, 9, 10, 5, 11, 8, 7, 8, 7, 8, 8, 6, 5, 11, 8, 9, 8, 6, 8, 5, 6, 10, 6, 9, 8, 8, 5, 6,
    9, 6, 6, 6, 9, 8, 6, 6, 5, 6, 7, 5, 8, 6, 6, 8, 7, 9, 3, 6, 3, 7, 4, 4, 10, 7, 6, 7, 4, 8, 8, 3, 6, 5, 6,
    6, 4, 7, 8, 5, 5, 6, 6, 8, 10, 4, 7, 5, 6, 8, 5, 7, 5, 7, 9, 10, 8, 5, 4, 7, 5, 6, 7, 5, 8] }

/-- Snapshot of the search state after examining the integers 7..673. -/
def T667 : GState :=
  { cands := [3, 7, 11, 13, 17, 19, 23, 29, 31, 37, 41, 43, 47, 53, 59, 61, 67, 71, 73, 79, 83, 89, 97, 101,
    103, 107, 109, 113, 127, 131, 137, 139, 149, 151, 157, 163, 167, 173, 179, 181, 191, 193, 197, 199, 211,
    223, 227, 229, 233, 239, 241, 251, 257, 263, 269, 271, 277, 281, 283, 293, 307, 311, 313, 317, 331, 337,
    347, 349, 353, 359, 367, 373, 379, 383, 389, 397, 401, 409, 419, 421, 431, 433, 439, 443, 449, 457, 461,
    463, 467, 479, 487, 491, 499, 503, 509, 521, 523, 541, 547, 557, 563, 569, 571, 577, 587, 593, 599, 601,
    607, 613, 617, 619, 631, 641, 643, 647, 653, 659, 661, 673], adj := [[119, 110, 109, 108, 99, 97, 92, 88,
    84, 71, 69, 64, 55, 47, 40, 30, 26, 18, 16, 14, 9, 8, 4, 2, 1], [119, 98, 97, 96, 90, 81, 58, 47, 28, 26,
    22, 15, 5, 0], [104, 93, 68, 51, 49, 27, 6, 0], [103, 96, 70, 65, 64, 50, 28, 24, 15, 5], [91, 84, 80, 74,
    73, 52, 49, 20, 0], [103, 102, 81, 39, 35, 22, 19, 8, 3, 1], [94, 61, 21, 12, 2], [106, 101, 76, 73, 66,
    38, 36, 30, 17], [39, 33, 31, 5, 0], [108, 87, 62, 56, 43, 19, 16, 0], [105, 52, 46], [109, 92, 55, 45,
    24, 22], [95, 78, 59, 54, 51, 32, 6], [116, 78, 76, 68, 54, 42, 27], [78, 42, 36, 0], [90, 77, 64, 33, 3,
    1], [111, 107, 98, 34, 31, 9, 0], [83, 74, 63, 53, 52, 48, 7], [114, 108, 102, 98, 56, 0], [112, 109, 75,
    70, 50, 41, 9, 5], [100, 84, 83, 61, 46, 4], [95, 83, 80, 59, 30, 25, 6], [72, 71, 50, 34, 11, 5, 1],
    [113, 88, 73, 69, 42, 32, 25], [79, 60, 11, 3], [84, 23, 21], [119, 118, 62, 43, 31, 1, 0], [115, 73, 48,
    46, 36, 32, 29, 13, 2], [108, 107, 71, 64, 55, 50, 35, 34, 3, 1], [113, 110, 89, 84, 27], [117, 104, 91,
    69, 68, 49, 42, 40, 21, 7, 0], [118, 111, 98, 85, 70, 26, 16, 8], [100, 91, 51, 37, 27, 23, 12], [112,
    108, 92, 81, 75, 35, 15, 8], [102, 56, 47, 39, 28, 22, 16], [109, 77, 70, 60, 41, 33, 28, 5], [113, 95,
    91, 83, 54, 27, 14, 7], [117, 80, 66, 59, 40, 32], [105, 73, 63, 54, 7], [111, 108, 92, 79, 75, 58, 43,
    41, 34, 8, 5], [106, 86, 57, 51, 46, 37, 30, 0], [107, 103, 97, 81, 71, 58, 39, 35, 19], [113, 101, 66,
    61, 30, 23, 14, 13], [119, 72, 71, 44, 39, 26, 9], [102, 92, 71, 67, 62, 58, 55, 43], [98, 65, 56, 47,
    11], [105, 57, 40, 27, 20, 10], [112, 109, 98, 92, 81, 71, 45, 34, 1, 0], [110, 66, 51, 49, 27, 17], [113,
    94, 86, 66, 53, 48, 30, 4, 2], [107, 79, 62, 55, 28, 22, 19, 3], [91, 80, 66, 48, 40, 32, 12, 2], [59, 53,
    17, 10, 4], [115, 83, 59, 52, 49, 17], [110, 86, 80, 74, 63, 38, 36, 13, 12], [77, 50, 44, 28, 11, 0],
    [92, 64, 45, 34, 18, 9], [116, 99, 94, 78, 46, 40], [107, 97, 90, 87, 75, 44, 41, 39, 1], [110, 88, 61,
    53, 52, 37, 21, 12], [112, 103, 96, 70, 35, 24], [116, 69, 59, 42, 20, 6], [111, 50, 44, 26, 9], [93, 78,
    68, 54, 38, 17], [103, 67, 56, 28, 15, 3, 0], [108, 75, 67, 45, 3], [83, 76, 51, 49, 48, 42, 37, 7], [92,
    77, 71, 65, 64, 44], [83, 69, 63, 30, 13, 2], [106, 100, 94, 68, 61, 30, 23, 0], [109, 85, 60, 35, 31, 19,
    3], [118, 67, 47, 44, 43, 41, 28, 22, 0], [75, 43, 22], [78, 38, 27, 23, 7, 4], [54, 17, 4], [119, 98, 72,
    65, 58, 39, 33, 19], [105, 66, 13, 7], [67, 55, 35, 15], [106, 100, 84, 83, 73, 63, 57, 14, 13, 12], [118,
    114, 108, 81, 50, 39, 24], [89, 54, 51, 37, 21, 4], [102, 79, 47, 41, 33, 5, 1], [118, 109, 107, 97], [78,
    68, 66, 53, 36, 21, 20, 17], [100, 99, 78, 29, 25, 20, 4, 0], [119, 114, 70, 31], [116, 101, 89, 54, 49,
    40], [114, 109, 96, 58, 9], [113, 110, 104, 59, 23, 0], [106, 105, 101, 86, 80, 29], [107, 58, 15, 1],
    [116, 105, 51, 36, 32, 30, 4], [119, 67, 56, 47, 44, 39, 33, 11, 0], [116, 115, 100, 63, 2], [115, 69, 57,
    49, 6], [117, 113, 99, 36, 21, 12], [103, 97, 87, 60, 3, 1], [118, 102, 96, 82, 58, 41, 1, 0], [118, 114,
    103, 75, 47, 45, 31, 18, 16, 1], [95, 84, 57, 0], [104, 93, 84, 78, 69, 32, 20], [117, 89, 86, 42, 7],
    [97, 81, 44, 34, 18, 5], [109, 98, 96, 64, 60, 41, 5, 3], [110, 100, 88, 30, 2], [115, 91, 89, 76, 46, 38,
    10], [89, 78, 69, 40, 7], [90, 82, 58, 50, 41, 28, 16], [111, 79, 65, 39, 33, 28, 18, 9, 0], [119, 118,
    103, 87, 82, 70, 47, 35, 19, 11, 0], [115, 104, 88, 59, 54, 48, 29, 0], [108, 62, 39, 31, 16], [60, 47,
    33, 19], [95, 88, 49, 42, 36, 29, 23], [98, 87, 85, 79, 18], [110, 105, 94, 93, 53, 27], [117, 93, 91, 86,
    61, 57, 13], [116, 101, 95, 37, 30], [109, 98, 97, 82, 79, 71, 31, 26], [109, 92, 85, 75, 43, 26, 1, 0]],
    degrees := [25, 14, 8, 10, 9, 10, 5, 9, 5, 8, 3, 6, 7, 7, 4, 6, 7, 7, 6, 8, 6, 7, 7, 7, 4, 3, 7, 9, 10, 5,
    11, 8, 7, 8, 7, 8, 8, 6, 5, 11, 8, 9, 8, 7, 8, 5, 6, 10, 6, 9, 8, 8, 5, 6, 9, 6, 6, 6, 9, 8, 6, 6, 5, 6,
    7, 5, 8, 6, 6, 8, 7, 9, 3, 6, 3, 8, 4, 4, 10, 7, 6, 7, 4, 8, 8, 4, 6, 5, 6, 6, 4, 7, 9, 5, 5, 6, 6, 8, 10,
    4, 7, 5, 6, 8, 5, 7, 5, 7, 9, 11, 8, 5, 4, 7, 5, 6, 7, 5, 8, 8] }

/-- The reachability invariant of the search state: the three containers
have consistent sizes, candidates are distinct primes below the loop
counter, and a set matrix entry is exactly a recorded compatibility between
two distinct in-range vertices. -/
structure SearchInv (st : GState) (x : Nat) : Prop where
  len_deg : st.degrees.length = st.cands.length
  adj_len : st.adj.length = st.cands.length
  nodup : st.cands.Nodup
  mem_lb : ∀ p ∈ st.cands, 2 ≤ p
  mem_prime : ∀ p ∈ st.cands, is_prime p = true
  mem_ub : ∀ p ∈ st.cands, p < x
  edge_spec : ∀ i j, edgeQ st.adj i j = true →
    i ≠ j ∧ i < st.cands.length ∧ j < st.cands.length ∧
      is_pairwise_concatable (st.cands.getD i 0) (st.cands.getD j 0) = true

/-- The iterated evolution composes additively. -/
theorem advanceN_add (a b : Nat) : ∀ p, advanceN (a + b) p = advanceN b (advanceN a p) := by
  induction a with
  | zero => intro p; simp [advanceN]
  | succ a ih =>
    intro p
    have h : a + 1 + b = (a + b) + 1 := by omega
    rw [h]
    simp only [advanceN]
    exact ih (advance p)

/-- Unfolding lemma for `advanceN`. -/
theorem advanceN_succ (a : Nat) (p : GState × Nat) :
    advanceN (a + 1) p = advanceN a (advance p) := rfl

/-- The iterated evolution can also be peeled from the outside. -/
theorem advanceN_succ_outer (a : Nat) : ∀ p, advanceN (a + 1) p = advance (advanceN a p) := by
  induction a with
  | zero => intro p; rfl
  | succ a ih =>
    intro p
    rw [advanceN_succ (a + 1) p, ih (advance p), advanceN_succ a p]

/-- The state component of one `main` iteration is exactly `advance`. -/
theorem mainStep_fst (k : Nat) (st : GState) (x : Nat) :
    (mainStep k st x).1 = (advance (st, x)).1 := by
  simp only [mainStep, advance]
  by_cases h : is_prime x = true
  · simp only [h, if_true]
    split <;> rfl
  · simp [h]

/-- The loop outcome is the outcome component of the instrumented runner. -/
theorem runN_loop (k : Nat) : ∀ n p, mainLoop k n p.1 p.2 = (runN k n p).2 := by
  intro n
  induction n with
  | zero => intro p; rfl
  | succ n ih =>
    intro p
    simp only [mainLoop, runN]
    rcases hs : mainStep k p.1 p.2 with ⟨st2, r⟩
    cases r with
    | some v => rfl
    | none => exact ih (st2, p.2 + 1)

/-- While the runner reports no clique, its state component is the plain
state evolution. -/
theorem runN_state (k : Nat) : ∀ n p, (runN k n p).2 = none → (runN k n p).1 = advanceN n p := by
  intro n
  induction n with
  | zero => intro p _; rfl
  | succ n ih =>
    intro p h
    simp only [runN] at h ⊢
    rcases hs : mainStep k p.1 p.2 with ⟨st2, r⟩
    rw [hs] at h
    cases r with
    | some v => exact absurd h (by simp)
    | none =>
      have h2 : st2 = (advance p).1 := by
        have h3 := mainStep_fst k p.1 p.2
        rw [hs] at h3
        exact h3
      have hadv : advance p = (st2, p.2 + 1) := by subst h2; rfl
      rw [advanceN_succ, hadv]
      exact ih (st2, p.2 + 1) h

/-- A run splits at any intermediate fuel while no clique has been found. -/
theorem runN_split (k a : Nat) :
    ∀ b p, (runN k a p).2 = none → runN k (a + b) p = runN k b ((runN k a p).1) := by
  induction a with
  | zero => intro b p _; simp [runN, Nat.zero_add]
  | succ a ih =>
    intro b p h
    have hsucc : a + 1 + b = (a + b) + 1 := by omega
    rw [hsucc]
    simp only [runN] at h ⊢
    rcases hs : mainStep k p.1 p.2 with ⟨st2, r⟩
    rw [hs] at h
    cases r with
    | some v => exact absurd h (by simp)
    | none => exact ih b (st2, p.2 + 1) h

/-- Once the loop returns a value, more fuel returns the same value. -/
theorem mainLoop_mono (k : Nat) : ∀ f f' st x (r : List Nat × Nat), f ≤ f' →
    mainLoop k f st x = some r → mainLoop k f' st x = some r := by
  intro f
  induction f with
  | zero => intro f' st x r _ h; simp [mainLoop] at h
  | succ f ih =>
    intro f' st x r hle h
    match f', hle with
    | f' + 1, hle =>
      simp only [mainLoop] at h ⊢
      rcases hs : mainStep k st x with ⟨st2, rr⟩
      rw [hs] at h
      cases rr with
      | some v => exact h
      | none => exact ih f' st2 (x + 1) r (by omega) h

/-- The reached state is the state component of the iterated evolution. -/
theorem stateAt_eq (n : Nat) :
    stateAt n = (advanceN n (initState, 7)).1 ∧ (advanceN n (initState, 7)).2 = 7 + n := by
  induction n with
  | zero => exact ⟨rfl, rfl⟩
  | succ n ih =>
    obtain ⟨h1, h2⟩ := ih
    rw [advanceN_succ_outer]
    constructor
    · show (if is_prime (7 + n) then insertPrime (stateAt n) (7 + n) else stateAt n) = _
      simp only [advance, h1, h2]
    · simp only [advance, h2]
      omega

section ChunkEvaluation

set_option maxRecDepth 1000000
set_option maxHeartbeats 16000000

/-- The run of `main 4` on the integers 7..31: no clique found. -/
theorem run4_d1 : runN 4 25 (initState, 7) = ((T25, 32), none) := by decide

/-- The run of `main 4` on the integers 32..56: no clique found. -/
theorem run4_d2 : runN 4 25 (T25, 32) = ((T50, 57), none) := by decide

/-- The run of `main 4` on the integers 57..81: no clique found. -/
theorem run4_d3 : runN 4 25 (T50, 57) = ((T75, 82), none) := by decide

/-- The run of `main 4` on the integers 82..106: no clique found. -/
theorem run4_d4 : runN 4 25 (T75, 82) = ((T100, 107), none) := by decide

/-- The run of `main 4` on the integers 107..131: no clique found. -/
theorem run4_d5 : runN 4 25 (T100, 107) = ((T125, 132), none) := by decide

/-- The run of `main 4` on the integers 132..156: no clique found. -/
theorem run4_d6 : runN 4 25 (T125, 132) = ((T150, 157), none) := by decide

/-- The run of `main 4` on the integers 157..181: no clique found. -/
theorem run4_d7 : runN 4 25 (T150, 157) = ((T175, 182), none) := by decide

/-- The run of `main 4` on the integers 182..206: no clique found. -/
theorem run4_d8 : runN 4 25 (T175, 182) = ((T200, 207), none) := by decide

/-- The run of `main 4` on the integers 207..231: no clique found. -/
theorem run4_d9 : runN 4 25 (T200, 207) = ((T225, 232), none) := by decide

/-- The run of `main 4` on the integers 232..256: no clique found. -/
theorem run4_d10 : runN 4 25 (T225, 232) = ((T250, 257), none) := by decide

/-- The run of `main 4` on the integers 257..281: no clique found. -/
theorem run4_d11 : runN 4 25 (T250, 257) = ((T275, 282), none) := by decide

/-- The run of `main 4` on the integers 282..306: no clique found. -/
theorem run4_d12 : runN 4 25 (T275, 282) = ((T300, 307), none) := by decide

/-- The run of `main 4` on the integers 307..331: no clique found. -/
theorem run4_d13 : runN 4 25 (T300, 307) = ((T325, 332), none) := by decide

/-- The run of `main 4` on the integers 332..356: no clique found. -/
theorem run4_d14 : runN 4 25 (T325, 332) = ((T350, 357), none) := by decide

/-- The run of `main 4` on the integers 357..381: no clique found. -/
theorem run4_d15 : runN 4 25 (T350, 357) = ((T375, 382), none) := by decide

/-- The run of `main 4` on the integers 382..406: no clique found. -/
theorem run4_d16 : runN 4 25 (T375, 382) = ((T400, 407), none) := by decide

/-- The run of `main 4` on the integers 407..431: no clique found. -/
theorem run4_d17 : runN 4 25 (T400, 407) = ((T425, 432), none) := by decide

/-- The run of `main 4` on the integers 432..456: no clique found. -/
theorem run4_d18 : runN 4 25 (T425, 432) = ((T450, 457), none) := by decide

/-- The run of `main 4` on the integers 457..481: no clique found. -/
theorem run4_d19 : runN 4 25 (T450, 457) = ((T475, 482), none) := by decide

/-- The run of `main 4` on the integers 482..506: no clique found. -/
theorem run4_d20 : runN 4 25 (T475, 482) = ((T500, 507), none) := by decide

/-- The run of `main 4` on the integers 507..531: no clique found. -/
theorem run4_d21 : runN 4 25 (T500, 507) = ((T525, 532), none) := by decide

/-- The run of `main 4` on the integers 532..556: no clique found. -/
theorem run4_d22 : runN 4 25 (T525, 532) = ((T550, 557), none) := by decide

/-- The run of `main 4` on the integers 557..581: no clique found. -/
theorem run4_d23 : runN 4 25 (T550, 557) = ((T575, 582), none) := by decide

/-- The run of `main 4` on the integers 582..606: no clique found. -/
theorem run4_d24 : runN 4 25 (T575, 582) = ((T600, 607), none) := by decide

/-- The run of `main 4` on the integers 607..631: no clique found. -/
theorem run4_d25 : runN 4 25 (T600, 607) = ((T625, 632), none) := by decide

/-- The run of `main 4` on the integers 632..656: no clique found. -/
theorem run4_d26 : runN 4 25 (T625, 632) = ((T650, 657), none) := by decide

/-- The run of `main 4` on the integers 657..672: no clique found. -/
theorem run4_d27 : runN 4 16 (T650, 657) = ((T666, 673), none) := by decide

/-- On examining 673, `main 4` inserts it and the clique search returns. -/
theorem run4_d28 : runN 4 1 (T666, 673) = ((T667, 674), some ([3, 7, 109, 673], 792)) := by
  decide

end ChunkEvaluation

/-- Composition of the chunks: the run of `main 4` finds nothing on the
integers 7..672 and stops in the state `T666`. -/
theorem run4_666 : runN 4 666 (initState, 7) = ((T666, 673), none) := by
  have h1 : runN 4 25 (initState, 7) = ((T25, 32), none) := run4_d1
  have h2 : runN 4 50 (initState, 7) = ((T50, 57), none) := by
    rw [show (50 : Nat) = 25 + 25 from rfl, runN_split 4 25 25 _ (by rw [h1]), h1, run4_d2]
  have h3 : runN 4 75 (initState, 7) = ((T75, 82), none) := by
    rw [show (75 : Nat) = 50 + 25 from rfl, runN_split 4 50 25 _ (by rw [h2]), h2, run4_d3]
  have h4 : runN 4 100 (initState, 7) = ((T100, 107), none) := by
    rw [show (100 : Nat) = 75 + 25 from rfl, runN_split 4 75 25 _ (by rw [h3]), h3, run4_d4]
  have h5 : runN 4 125 (initState, 7) = ((T125, 132), none) := by
    rw [show (125 : Nat) = 100 + 25 from rfl, runN_split 4 100 25 _ (by rw [h4]), h4, run4_d5]
  have h6 : runN 4 150 (initState, 7) = ((T150, 157), none) := by
    rw [show (150 : Nat) = 125 + 25 from rfl, runN_split 4 125 25 _ (by rw [h5]), h5, run4_d6]
  have h7 : runN 4 175 (initState, 7) = ((T175, 182), none) := by
    rw [show (175 : Nat) = 150 + 25 from rfl, runN_split 4 150 25 _ (by rw [h6]), h6, run4_d7]
  have h8 : runN 4 200 (initState, 7) = ((T200, 207), none) := by
    rw [show (200 : Nat) = 175 + 25 from rfl, runN_split 4 175 25 _ (by rw [h7]), h7, run4_d8]
  have h9 : runN 4 225 (initState, 7) = ((T225, 232), none) := by
    rw [show (225 : Nat) = 200 + 25 from rfl, runN_split 4 200 25 _ (by rw [h8]), h8, run4_d9]
  have h10 : runN 4 250 (initState, 7) = ((T250, 257), none) := by
    rw [show (250 : Nat) = 225 + 25 from rfl, runN_split 4 225 25 _ (by rw [h9]), h9, run4_d10]
  have h11 : runN 4 275 (initState, 7) = ((T275, 282), none) := by
    rw [show (275 : Nat) = 250 + 25 from rfl, runN_split 4 250 25 _ (by rw [h10]), h10, run4_d11]
  have h12 : runN 4 300 (initState, 7) = ((T300, 307), none) := by
    rw [show (300 : Nat) = 275 + 25 from rfl, runN_split 4 275 25 _ (by rw [h11]), h11, run4_d12]
  have h13 : runN 4 325 (initState, 7) = ((T325, 332), none) := by
    rw [show (325 : Nat) = 300 + 25 from rfl, runN_split 4 300 25 _ (by rw [h12]), h12, run4_d13]
  have h14 : runN 4 350 (initState, 7) = ((T350, 357), none) := by
    rw [show (350 : Nat) = 325 + 25 from rfl, runN_split 4 325 25 _ (by rw [h13]), h13, run4_d14]
  have h15 : runN 4 375 (initState, 7) = ((T375, 382), none) := by
    rw [show (375 : Nat) = 350 + 25 from rfl, runN_split 4 350 25 _ (by rw [h14]), h14, run4_d15]
  have h16 : runN 4 400 (initState, 7) = ((T400, 407), none) := by
    rw [show (400 : Nat) = 375 + 25 from rfl, runN_split 4 375 25 _ (by rw [h15]), h15, run4_d16]
  have h17 : runN 4 425 (initState, 7) = ((T425, 432), none) := by
    rw [show (425 : Nat) = 400 + 25 from rfl, runN_split 4 400 25 _ (by rw [h16]), h16, run4_d17]
  have h18 : runN 4 450 (initState, 7) = ((T450, 457), none) := by
    rw [show (450 : Nat) = 425 + 25 from rfl, runN_split 4 425 25 _ (by rw [h17]), h17, run4_d18]
  have h19 : runN 4 475 (initState, 7) = ((T475, 482), none) := by
    rw [show (475 : Nat) = 450 + 25 from rfl, runN_split 4 450 25 _ (by rw [h18]), h18, run4_d19]
  have h20 : runN 4 500 (initState, 7) = ((T500, 507), none) := by
    rw [show (500 : Nat) = 475 + 25 from rfl, runN_split 4 475 25 _ (by rw [h19]), h19, run4_d20]
  have h21 : runN 4 525 (initState, 7) = ((T525, 532), none) := by
    rw [show (525 : Nat) = 500 + 25 from rfl, runN_split 4 500 25 _ (by rw [h20]), h20, run4_d21]
  have h22 : runN 4 550 (initState, 7) = ((T550, 557), none) := by
    rw [show (550 : Nat) = 525 + 25 from rfl, runN_split 4 525 25 _ (by rw [h21]), h21, run4_d22]
  have h23 : runN 4 575 (initState, 7) = ((T575, 582), none) := by
    rw [show (575 : Nat) = 550 + 25 from rfl, runN_split 4 550 25 _ (by rw [h22]), h22, run4_d23]
  have h24 : runN 4 600 (initState, 7) = ((T600, 607), none) := by
    rw [show (600 : Nat) = 575 + 25 from rfl, runN_split 4 575 25 _ (by rw [h23]), h23, run4_d24]
  have h25 : runN 4 625 (initState, 7) = ((T625, 632), none) := by
    rw [show (625 : Nat) = 600 + 25 from rfl, runN_split 4 600 25 _ (by rw [h24]), h24, run4_d25]
  have h26 : runN 4 650 (initState, 7) = ((T650, 657), none) := by
    rw [show (650 : Nat) = 625 + 25 from rfl, runN_split 4 625 25 _ (by rw [h25]), h25, run4_d26]
  have h27 : runN 4 666 (initState, 7) = ((T666, 673), none) := by
    rw [show (666 : Nat) = 650 + 16 from rfl, runN_split 4 650 16 _ (by rw [h26]), h26, run4_d27]
  exact h27
/-- Composition of the chunks: the run of `main 4` returns on examining 673. -/
theorem run4_667 : runN 4 667 (initState, 7) = ((T667, 674), some ([3, 7, 109, 673], 792)) := by
  rw [show (667 : Nat) = 666 + 1 from rfl, runN_split 4 666 1 _ (by rw [run4_666]),
    run4_666, run4_d28]

/-- The while-loop of `main 4` returns the 4-clique with fuel 667. -/
theorem mainFuel_4_667 : mainFuel 4 667 = some ([3, 7, 109, 673], 792) := by
  show mainLoop 4 667 initState 7 = _
  have h := runN_loop 4 667 (initState, 7)
  rw [run4_667] at h
  exact h

/-- The while-loop of `main 4` finds nothing in its first 666 iterations. -/
theorem mainFuel_4_666 : mainFuel 4 666 = none := by
  show mainLoop 4 666 initState 7 = _
  have h := runN_loop 4 666 (initState, 7)
  rw [run4_666] at h
  exact h

/-- The state reached after examining 7..672 is the snapshot `T666`. -/
theorem stateAt_666 : stateAt 666 = T666 := by
  have hs := (stateAt_eq 666).1
  have hr := runN_state 4 666 (initState, 7) (by rw [run4_666])
  rw [run4_666] at hr
  rw [hs, ← hr]

/-- One fuelled step of the runner moves the state by one `advance`. -/
theorem runN_one_fst (k : Nat) (p : GState × Nat) : (runN k 1 p).1 = advance p := by
  show (match mainStep k p.1 p.2 with
    | (st2, some r) => ((st2, p.2 + 1), some r)
    | (st2, none) => runN k 0 (st2, p.2 + 1)).1 = advance p
  rcases hs : mainStep k p.1 p.2 with ⟨st2, r⟩
  have h2 : st2 = (advance p).1 := by
    have h3 := mainStep_fst k p.1 p.2
    rw [hs] at h3
    exact h3
  cases r with
  | some v =>
    show (st2, p.2 + 1) = advance p
    subst h2
    rfl
  | none =>
    show (st2, p.2 + 1) = advance p
    subst h2
    rfl

/-- The state reached after examining 7..673 is the snapshot `T667`. -/
theorem stateAt_667 : stateAt 667 = T667 := by
  have hs := (stateAt_eq 667).1
  have hadv666 : advanceN 666 (initState, 7) = (T666, 673) := by
    have hr := runN_state 4 666 (initState, 7) (by rw [run4_666])
    rw [run4_666] at hr
    exact hr.symm
  have hone : advance (T666, 673) = (T667, 674) := by
    have h := runN_one_fst 4 (T666, 673)
    rw [run4_d28] at h
    exact h.symm
  rw [hs, show (667 : Nat) = 666 + 1 from rfl, advanceN_succ_outer, hadv666, hone]


/-- Parsing written with surface arithmetic. -/
theorem parseDigits_def (s : List Nat) : parseDigits s = s.foldl (fun n d => n * 10 + d) 0 := rfl

/-- Unfolding of the trial-division loop with surface arithmetic. -/
theorem trialLoop_succ (x d c : Nat) :
    trialLoop x d (c + 1) = if x % d = 0 then false else trialLoop x (d + 1) c := by
  show (match Nat.mod x d with
        | 0 => false
        | _ + 1 => trialLoop x (Nat.add d 1) c) = _
  rcases hm : Nat.mod x d with _ | m
  · have hm2 : x % d = 0 := hm
    rw [if_pos hm2]
  · have hm2 : x % d = m + 1 := hm
    rw [if_neg (by omega)]

/-- The trial-division loop succeeds exactly when no tested value divides. -/
theorem trialLoop_eq_true_iff (x : Nat) :
    ∀ c d, 2 ≤ d → (trialLoop x d c = true ↔ ∀ i, d ≤ i → i < d + c → ¬ i ∣ x) := by
  intro c
  induction c with
  | zero =>
    intro d _
    constructor
    · intro _ i h1 h2
      exact absurd h2 (by omega)
    · intro _
      rfl
  | succ c ih =>
    intro d hd
    rw [trialLoop_succ]
    by_cases hm : x % d = 0
    · rw [if_pos hm]
      constructor
      · intro h
        exact absurd h (by simp)
      · intro h
        exact absurd (h d le_rfl (by omega) (Nat.dvd_of_mod_eq_zero hm)) (fun c => c)
    · rw [if_neg hm]
      rw [ih (d + 1) (by omega)]
      constructor
      · intro h i h1 h2
        rcases Nat.eq_or_lt_of_le h1 with rfl | hlt
        · intro hdvd
          exact hm (Nat.mod_eq_zero_of_dvd hdvd)
        · exact h i hlt (by omega)
      · intro h i h1 h2
        exact h i (by omega) (by omega)

/-- Unfolding of one Newton step with surface arithmetic. -/
theorem sqrtIter_succ (n fuel g : Nat) :
    sqrtIter n (fuel + 1) g =
      if (g + n / g) / 2 < g then sqrtIter n fuel ((g + n / g) / 2) else g := by
  show (match Nat.blt (Nat.div (Nat.add g (Nat.div n g)) 2) g with
        | true => sqrtIter n fuel (Nat.div (Nat.add g (Nat.div n g)) 2)
        | false => g) = _
  rcases hb : Nat.blt (Nat.div (Nat.add g (Nat.div n g)) 2) g with _ | _
  · have hb2 : ¬ (g + n / g) / 2 < g := by
      have hb3 : Nat.blt ((g + n / g) / 2) g = false := hb
      have hthis := @Nat.blt_eq ((g + n / g) / 2) g
      rw [hb3] at hthis
      rw [← hthis]
      simp
    rw [if_neg hb2]
  · have hb2 : (g + n / g) / 2 < g := by
      have hb3 : Nat.blt ((g + n / g) / 2) g = true := hb
      have hthis := @Nat.blt_eq ((g + n / g) / 2) g
      rw [hb3] at hthis
      rw [← hthis]
    rw [if_pos hb2]
    rfl

/-- With enough fuel, the Newton iteration computes `Nat.sqrt.iter`. -/
theorem sqrtIter_eq_iter (n : Nat) : ∀ fuel g, g ≤ fuel → sqrtIter n fuel g = Nat.sqrt.iter n g := by
  intro fuel
  induction fuel with
  | zero =>
    intro g hg
    have hg0 : g = 0 := by omega
    subst hg0
    show (0 : Nat) = Nat.sqrt.iter n 0
    unfold Nat.sqrt.iter
    simp
  | succ fuel ih =>
    intro g hg
    rw [sqrtIter_succ]
    unfold Nat.sqrt.iter
    by_cases h : (g + n / g) / 2 < g
    · rw [if_pos h, dif_pos h]
      exact ih _ (by omega)
    · rw [if_neg h, dif_neg h]

/-- The embedded integer square root is `Nat.sqrt`. -/
theorem isqrt_eq_sqrt (n : Nat) : isqrt n = Nat.sqrt n := by
  unfold isqrt Nat.sqrt
  by_cases h : n ≤ 1
  · rw [if_pos h, if_pos h]
  · rw [if_neg h, if_neg h]
    exact sqrtIter_eq_iter n n (n / 2) (Nat.div_le_self n 2)

/-- The trial-division test agrees with primality for every argument at least 2. -/
theorem is_prime_iff_prime (x : Nat) (hx : 2 ≤ x) : is_prime x = true ↔ Nat.Prime x := by
  have hs1 : 1 ≤ Nat.sqrt x := by
    have := Nat.sqrt_le_sqrt hx
    calc 1 = Nat.sqrt 2 := by norm_num [Nat.sqrt]
    _ ≤ Nat.sqrt x := by exact this
  have hcount : Nat.sub (Nat.add (isqrt x) 1) 2 = Nat.sqrt x - 1 := by
    rw [show Nat.sub (Nat.add (isqrt x) 1) 2 = isqrt x + 1 - 2 from rfl, isqrt_eq_sqrt]
    omega
  show trialLoop x 2 (Nat.sub (Nat.add (isqrt x) 1) 2) = true ↔ _
  rw [hcount, trialLoop_eq_true_iff x (Nat.sqrt x - 1) 2 le_rfl, Nat.prime_def_le_sqrt]
  constructor
  · intro h
    refine ⟨hx, fun m hm2 hmle => h m hm2 (by omega)⟩
  · intro ⟨_, h⟩ i h1 h2
    exact h i h1 (by omega)

/-- The fuelled digit expansion is `Nat.digits 10` once the fuel covers the
argument. -/
theorem digitsLE_eq_digits : ∀ n fuel, n ≤ fuel → digitsLE fuel n = Nat.digits 10 n := by
  intro n
  induction n using Nat.strong_induction_on with
  | _ n ih =>
    intro fuel hf
    match n, fuel with
    | 0, 0 =>
      show ([] : List Nat) = Nat.digits 10 0
      rw [Nat.digits_zero]
    | 0, f + 1 =>
      show ([] : List Nat) = Nat.digits 10 0
      rw [Nat.digits_zero]
    | m + 1, f + 1 =>
      show Nat.mod (m + 1) 10 :: digitsLE f (Nat.div (m + 1) 10) = _
      rw [Nat.digits_def' (by norm_num : (1 : Nat) < 10) (Nat.succ_pos m)]
      congr 1
      exact ih ((m + 1) / 10) (Nat.div_lt_self (Nat.succ_pos m) (by norm_num)) f (by
        have := Nat.div_lt_self (Nat.succ_pos m) (show 1 < 10 by norm_num)
        omega)

/-- Folding digits from an arbitrary accumulator. -/
theorem parse_fold_init (t : List Nat) :
    ∀ m, t.foldl (fun n d => n * 10 + d) m = m * 10 ^ t.length + t.foldl (fun n d => n * 10 + d) 0 := by
  induction t with
  | nil => intro m; simp
  | cons c t ih =>
    intro m
    simp only [List.foldl_cons, List.length_cons, Nat.zero_mul, Nat.zero_add]
    rw [ih (m * 10 + c), ih c]
    ring

/-- Parsing a concatenation of digit strings. -/
theorem parse_append (s t : List Nat) :
    parseDigits (s ++ t) = parseDigits s * 10 ^ t.length + parseDigits t := by
  rw [parseDigits_def, parseDigits_def, parseDigits_def, List.foldl_append]
  exact parse_fold_init t _

/-- Parsing the reverse of a little-endian digit list. -/
theorem parse_reverse (l : List Nat) : parseDigits l.reverse = Nat.ofDigits 10 l := by
  induction l with
  | nil => rfl
  | cons d l ih =>
    rw [List.reverse_cons, parse_append, ih, Nat.ofDigits_cons]
    simp [parseDigits_def]
    ring

/-- Parsing the digit string of n gives back n. -/
theorem parse_strDigits (n : Nat) : parseDigits (strDigits n) = n := by
  show parseDigits (digitsLE n n).reverse = n
  rw [digitsLE_eq_digits n n le_rfl, parse_reverse, Nat.ofDigits_digits]

/-- The decimal concatenation in closed form. -/
theorem concatVal_eq (x y : Nat) :
    concatVal x y = x * 10 ^ (Nat.digits 10 y).length + y := by
  have hlen : (strDigits y).length = (Nat.digits 10 y).length := by
    show (digitsLE y y).reverse.length = _
    rw [List.length_reverse, digitsLE_eq_digits y y le_rfl]
  show parseDigits (strDigits x ++ strDigits y) = _
  rw [parse_append, parse_strDigits, parse_strDigits, hlen]

/-- Concatenating positive numbers yields at least 10. -/
theorem concatVal_lb (x y : Nat) (hx : 1 ≤ x) (hy : 1 ≤ y) : 10 ≤ concatVal x y := by
  rw [concatVal_eq]
  have hlen : 1 ≤ (Nat.digits 10 y).length := by
    have : Nat.digits 10 y ≠ [] := Nat.digits_ne_nil_iff_ne_zero.mpr (by omega)
    cases h : Nat.digits 10 y with
    | nil => exact absurd h this
    | cons a l => simp [h]
  calc 10 = 1 * 10 ^ 1 + 0 := by norm_num
  _ ≤ x * 10 ^ (Nat.digits 10 y).length + y := by
    have : 10 ^ 1 ≤ 10 ^ (Nat.digits 10 y).length :=
      Nat.pow_le_pow_right (by norm_num) hlen
    have hx10 : 1 * 10 ^ 1 ≤ x * 10 ^ (Nat.digits 10 y).length :=
      Nat.mul_le_mul hx this
    omega

/-- The compatibility predicate is symmetric. -/
theorem is_pairwise_concatable_comm (x y : Nat) :
    is_pairwise_concatable x y = is_pairwise_concatable y x := by
  show (is_prime (concatVal x y) && is_prime (concatVal y x))
    = (is_prime (concatVal y x) && is_prime (concatVal x y))
  exact Bool.and_comm _ _



/-- Reading a list after writing at the same index. -/
theorem getD_set_eq {α : Type} (v d : α) :
    ∀ (l : List α) (i : Nat), i < l.length → (l.set i v).getD i d = v := by
  intro l
  induction l with
  | nil => intro i h; simp at h
  | cons a l ih =>
    intro i h
    cases i with
    | zero => rfl
    | succ i => exact ih i (by simpa using h)

/-- Reading a list after writing at a different index. -/
theorem getD_set_ne {α : Type} (v d : α) :
    ∀ (l : List α) (i j : Nat), i ≠ j → (l.set i v).getD j d = l.getD j d := by
  intro l
  induction l with
  | nil => intro i j _; simp
  | cons a l ih =>
    intro i j h
    cases i with
    | zero =>
      cases j with
      | zero => exact absurd rfl h
      | succ j => rfl
    | succ i =>
      cases j with
      | zero => rfl
      | succ j => exact ih i j (by omega)

/-- Reading out of range yields the default. -/
theorem getD_of_le {α : Type} (d : α) :
    ∀ (l : List α) (i : Nat), l.length ≤ i → l.getD i d = d := by
  intro l
  induction l with
  | nil => intro i _; simp
  | cons a l ih =>
    intro i h
    cases i with
    | zero => simp at h
    | succ i => exact ih i (by simpa using h)

/-- Writing out of range is the identity. -/
theorem set_of_le {α : Type} (v : α) :
    ∀ (l : List α) (i : Nat), l.length ≤ i → l.set i v = l := by
  intro l
  induction l with
  | nil => intro i _; rfl
  | cons a l ih =>
    intro i h
    cases i with
    | zero => simp at h
    | succ i => simpa using ih i (by simpa using h)

/-- Unfolding one step of the edge loop. -/
theorem insertAux_cons (x n j q : Nat) (rest : List (Nat × Nat))
    (adj : List (List Nat)) (degs : List Nat) (dx : Nat) :
    insertAux x n ((j, q) :: rest) (adj, degs, dx) =
      if is_pairwise_concatable x q then
        insertAux x n rest
          (setEdge (setEdge adj (n - 1) j) j (n - 1), degs.set j (degs.getD j 0 + 1), dx + 1)
      else insertAux x n rest (adj, degs, dx) := rfl

/-- Resizing the matrix changes no entry. -/
theorem edgeQ_resize (adj : List (List Nat)) (i j : Nat) :
    edgeQ (resize adj) i j = edgeQ adj i j := by
  unfold edgeQ resize
  rcases Nat.lt_or_ge i adj.length with h | h
  · rw [List.getD_append _ _ _ _ h]
  · rw [List.getD_append_right _ _ _ _ h, getD_of_le _ _ _ h]
    rcases hm : i - adj.length with _ | m
    · rfl
    · rfl

/-- Setting one entry sets it. -/
theorem edgeQ_setEdge_self (adj : List (List Nat)) (a b : Nat) (ha : a < adj.length) :
    edgeQ (setEdge adj a b) a b = true := by
  unfold edgeQ setEdge
  rw [getD_set_eq _ _ _ _ ha]
  simp

/-- Setting one entry clears no other entry. -/
theorem edgeQ_setEdge_mono (adj : List (List Nat)) (a b i j : Nat)
    (h : edgeQ adj i j = true) : edgeQ (setEdge adj a b) i j = true := by
  unfold edgeQ setEdge
  unfold edgeQ at h
  by_cases hia : a = i
  · subst hia
    by_cases hlen : a < adj.length
    · rw [getD_set_eq _ _ _ _ hlen]
      simp only [decide_eq_true_eq] at h ⊢
      exact List.mem_cons_of_mem _ h
    · rw [set_of_le _ _ _ (by omega)]
      exact h
  · rw [getD_set_ne _ _ _ _ _ hia]
    exact h

/-- A set entry is the written one or was already set. -/
theorem edgeQ_setEdge_inv (adj : List (List Nat)) (a b i j : Nat)
    (h : edgeQ (setEdge adj a b) i j = true) :
    (i = a ∧ j = b) ∨ edgeQ adj i j = true := by
  unfold edgeQ setEdge at h
  unfold edgeQ
  by_cases hia : a = i
  · subst hia
    by_cases hlen : a < adj.length
    · rw [getD_set_eq _ _ _ _ hlen] at h
      simp only [decide_eq_true_eq, List.mem_cons] at h
      rcases h with h | h
      · exact Or.inl ⟨rfl, h⟩
      · exact Or.inr (by simpa using h)
    · rw [set_of_le _ _ _ (by omega)] at h
      exact Or.inr h
  · rw [getD_set_ne _ _ _ _ _ hia] at h
    exact Or.inr h

/-- The edge loop does not change the number of matrix rows. -/
theorem insertAux_adj_len (x n : Nat) :
    ∀ (l : List (Nat × Nat)) adj degs dx,
      (insertAux x n l (adj, degs, dx)).1.length = adj.length := by
  intro l
  induction l with
  | nil => intro adj degs dx; rfl
  | cons jq rest ih =>
    intro adj degs dx
    rcases jq with ⟨j, q⟩
    rw [insertAux_cons]
    by_cases hc : is_pairwise_concatable x q
    · rw [if_pos hc, ih]
      simp [setEdge]
    · rw [if_neg hc]
      exact ih adj degs dx

/-- The edge loop does not change the length of the degree table. -/
theorem insertAux_degs_len (x n : Nat) :
    ∀ (l : List (Nat × Nat)) adj degs dx,
      (insertAux x n l (adj, degs, dx)).2.1.length = degs.length := by
  intro l
  induction l with
  | nil => intro adj degs dx; rfl
  | cons jq rest ih =>
    intro adj degs dx
    rcases jq with ⟨j, q⟩
    rw [insertAux_cons]
    by_cases hc : is_pairwise_concatable x q
    · rw [if_pos hc, ih]
      simp
    · rw [if_neg hc]
      exact ih adj degs dx

/-- The edge loop clears no matrix entry. -/
theorem insertAux_adj_mono (x n : Nat) :
    ∀ (l : List (Nat × Nat)) adj degs dx i j, edgeQ adj i j = true →
      edgeQ (insertAux x n l (adj, degs, dx)).1 i j = true := by
  intro l
  induction l with
  | nil => intro adj degs dx i j h; exact h
  | cons jq rest ih =>
    intro adj degs dx i j h
    rcases jq with ⟨jj, q⟩
    rw [insertAux_cons]
    by_cases hc : is_pairwise_concatable x q
    · rw [if_pos hc]
      exact ih _ _ _ i j (edgeQ_setEdge_mono _ _ _ _ _ (edgeQ_setEdge_mono _ _ _ _ _ h))
    · rw [if_neg hc]
      exact ih adj degs dx i j h

/-- Every matrix entry after the edge loop is an old entry or one of the two
entries recorded for a compatible pair of the processed list. -/
theorem insertAux_adj_inv (x n : Nat) :
    ∀ (l : List (Nat × Nat)) adj degs dx i j,
      edgeQ (insertAux x n l (adj, degs, dx)).1 i j = true →
      edgeQ adj i j = true ∨ ∃ jj q, (jj, q) ∈ l ∧ is_pairwise_concatable x q = true ∧
        ((i = n - 1 ∧ j = jj) ∨ (i = jj ∧ j = n - 1)) := by
  intro l
  induction l with
  | nil => intro adj degs dx i j h; exact Or.inl h
  | cons jq rest ih =>
    intro adj degs dx i j h
    rcases jq with ⟨jj, q⟩
    by_cases hc : is_pairwise_concatable x q
    · rw [insertAux_cons, if_pos hc] at h
      rcases ih _ _ _ i j h with h2 | ⟨jj2, q2, hmem, hc2, hij⟩
      · rcases edgeQ_setEdge_inv _ _ _ _ _ h2 with ⟨hi, hj⟩ | h3
        · exact Or.inr ⟨jj, q, List.mem_cons_self _ _, hc, Or.inr ⟨hi, hj⟩⟩
        · rcases edgeQ_setEdge_inv _ _ _ _ _ h3 with ⟨hi, hj⟩ | h4
          · exact Or.inr ⟨jj, q, List.mem_cons_self _ _, hc, Or.inl ⟨hi, hj⟩⟩
          · exact Or.inl h4
      · exact Or.inr ⟨jj2, q2, List.mem_cons_of_mem _ hmem, hc2, hij⟩
    · rw [insertAux_cons, if_neg hc] at h
      rcases ih _ _ _ i j h with h2 | ⟨jj2, q2, hmem, hc2, hij⟩
      · exact Or.inl h2
      · exact Or.inr ⟨jj2, q2, List.mem_cons_of_mem _ hmem, hc2, hij⟩

/-- The edge loop leaves untouched the degree of an index it never visits. -/
theorem insertAux_degs_other (x n : Nat) :
    ∀ (l : List (Nat × Nat)) adj degs dx j, (∀ q, (j, q) ∉ l) →
      (insertAux x n l (adj, degs, dx)).2.1.getD j 0 = degs.getD j 0 := by
  intro l
  induction l with
  | nil => intro adj degs dx j _; rfl
  | cons jq rest ih =>
    intro adj degs dx j hj
    rcases jq with ⟨jj, q⟩
    have hne : jj ≠ j := by
      intro he
      exact hj q (by rw [he]; exact List.mem_cons_self _ _)
    rw [insertAux_cons]
    by_cases hc : is_pairwise_concatable x q
    · rw [if_pos hc, ih _ _ _ _ (fun q2 hq2 => hj q2 (List.mem_cons_of_mem _ hq2))]
      exact getD_set_ne _ _ _ _ _ hne
    · rw [if_neg hc]
      exact ih _ _ _ _ (fun q2 hq2 => hj q2 (List.mem_cons_of_mem _ hq2))

/-- The degree of a visited index after the edge loop: incremented exactly
when its prime is compatible with the new one. -/
theorem insertAux_degs_mem (x n : Nat) :
    ∀ (l : List (Nat × Nat)) adj degs dx j q,
      (l.map Prod.fst).Nodup → (j, q) ∈ l → j < degs.length →
      (insertAux x n l (adj, degs, dx)).2.1.getD j 0 =
        degs.getD j 0 + (if is_pairwise_concatable x q = true then 1 else 0) := by
  intro l
  induction l with
  | nil => intro adj degs dx j q _ hmem _; simp at hmem
  | cons jq rest ih =>
    intro adj degs dx j q hnd hmem hlen
    rcases jq with ⟨jj, qq⟩
    rw [insertAux_cons]
    simp only [List.map_cons, List.nodup_cons] at hnd
    rcases List.mem_cons.mp hmem with heq | htail
    · have hj : j = jj := congrArg Prod.fst heq
      have hq : q = qq := congrArg Prod.snd heq
      subst hj
      subst hq
      have hrest : ∀ q2, (j, q2) ∉ rest := by
        intro q2 hq2
        exact hnd.1 (List.mem_map.mpr ⟨(j, q2), hq2, rfl⟩)
      by_cases hc : is_pairwise_concatable x q
      · rw [if_pos hc, if_pos hc, insertAux_degs_other _ _ _ _ _ _ _ hrest,
          getD_set_eq _ _ _ _ hlen]
      · rw [if_neg hc, if_neg (by simpa using hc),
          insertAux_degs_other _ _ _ _ _ _ _ hrest]
        omega
    · have hjj : jj ≠ j := by
        intro he
        subst he
        exact hnd.1 (List.mem_map.mpr ⟨(jj, q), htail, rfl⟩)
      by_cases hc : is_pairwise_concatable x qq
      · rw [if_pos hc]
        rw [ih _ _ _ _ _ hnd.2 htail (by simpa using hlen)]
        rw [getD_set_ne _ _ _ _ _ hjj]
      · rw [if_neg hc]
        exact ih _ _ _ _ _ hnd.2 htail hlen

/-- The edge loop never decreases a degree. -/
theorem insertAux_degs_mono (x n : Nat) :
    ∀ (l : List (Nat × Nat)) adj degs dx j,
      degs.getD j 0 ≤ (insertAux x n l (adj, degs, dx)).2.1.getD j 0 := by
  intro l
  induction l with
  | nil => intro adj degs dx j; exact Nat.le_refl _
  | cons jq rest ih =>
    intro adj degs dx j
    rcases jq with ⟨jj, q⟩
    rw [insertAux_cons]
    by_cases hc : is_pairwise_concatable x q
    · rw [if_pos hc]
      refine Nat.le_trans ?_ (ih _ _ _ j)
      by_cases hjj : jj = j
      · subst hjj
        by_cases hlen : jj < degs.length
        · rw [getD_set_eq _ _ _ _ hlen]
          omega
        · rw [set_of_le _ _ _ (by omega)]
      · rw [getD_set_ne _ _ _ _ _ hjj]
    · rw [if_neg hc]
      exact ih _ _ _ j

/-- The accumulated count of the edge loop. -/
theorem insertAux_count (x n : Nat) :
    ∀ (l : List (Nat × Nat)) adj degs dx,
      (insertAux x n l (adj, degs, dx)).2.2 =
        dx + l.countP (fun jq => is_pairwise_concatable x jq.2) := by
  intro l
  induction l with
  | nil => intro adj degs dx; rfl
  | cons jq rest ih =>
    intro adj degs dx
    rcases jq with ⟨jj, q⟩
    rw [insertAux_cons, List.countP_cons]
    by_cases hc : is_pairwise_concatable x q
    · rw [if_pos hc, ih]
      simp [hc]
      omega
    · rw [if_neg hc, ih]
      simp [hc]

/-- Counting over the enumerated list counts the underlying elements. -/
theorem countP_enumFrom (p : Nat → Bool) :
    ∀ (l : List Nat) (s : Nat),
      (List.enumFrom s l).countP (fun jq => p jq.2) = l.countP p := by
  intro l
  induction l with
  | nil => intro s; rfl
  | cons a l ih =>
    intro s
    show ((s, a) :: List.enumFrom (s + 1) l).countP (fun jq => p jq.2) = _
    rw [List.countP_cons, List.countP_cons, ih]

/-- Counting over `enum` counts the underlying elements. -/
theorem countP_enum (p : Nat → Bool) (l : List Nat) :
    l.enum.countP (fun jq => p jq.2) = l.countP p := countP_enumFrom p l 0

/-- The candidate list after an insertion. -/
theorem insertPrime_cands (st : GState) (x : Nat) :
    (insertPrime st x).cands = st.cands ++ [x] := rfl

/-- The matrix after an insertion keeps one row per candidate. -/
theorem insertPrime_adj_len (st : GState) (x : Nat) :
    (insertPrime st x).adj.length = st.adj.length + 1 := by
  show (insertAux x (st.cands.length + 1) st.cands.enum
      (resize st.adj, st.degrees, 0)).1.length = _
  rw [insertAux_adj_len]
  simp [resize]

/-- The degree table after an insertion grows by the new entry. -/
theorem insertPrime_degs_len (st : GState) (x : Nat) :
    (insertPrime st x).degrees.length = st.degrees.length + 1 := by
  show ((insertAux x (st.cands.length + 1) st.cands.enum
      (resize st.adj, st.degrees, 0)).2.1
      ++ [(insertAux x (st.cands.length + 1) st.cands.enum
      (resize st.adj, st.degrees, 0)).2.2]).length = _
  rw [List.length_append, insertAux_degs_len]
  rfl

/-- Insertion clears no matrix entry. -/
theorem insertPrime_edge_mono (st : GState) (x i j : Nat)
    (h : edgeQ st.adj i j = true) : edgeQ (insertPrime st x).adj i j = true := by
  show edgeQ (insertAux x (st.cands.length + 1) st.cands.enum
      (resize st.adj, st.degrees, 0)).1 i j = true
  exact insertAux_adj_mono _ _ _ _ _ _ i j (by rw [edgeQ_resize]; exact h)

/-- Every matrix entry after an insertion is an old entry or one of the two
entries recorded between the new vertex and a compatible existing one. -/
theorem insertPrime_edge_inv (st : GState) (x i j : Nat)
    (h : edgeQ (insertPrime st x).adj i j = true) :
    edgeQ st.adj i j = true ∨ ∃ jj q, (jj, q) ∈ st.cands.enum ∧
      is_pairwise_concatable x q = true ∧
      ((i = st.cands.length ∧ j = jj) ∨ (i = jj ∧ j = st.cands.length)) := by
  have h2 := insertAux_adj_inv x (st.cands.length + 1) st.cands.enum
    (resize st.adj) st.degrees 0 i j h
  rcases h2 with h2 | ⟨jj, q, hmem, hc, hij⟩
  · rw [edgeQ_resize] at h2
    exact Or.inl h2
  · refine Or.inr ⟨jj, q, hmem, hc, ?_⟩
    simpa using hij

/-- The degree of an existing vertex after an insertion. -/
theorem insertPrime_degs_getD_lt (st : GState) (x j : Nat)
    (hlen : st.degrees.length = st.cands.length) (hj : j < st.cands.length) :
    (insertPrime st x).degrees.getD j 0 =
      st.degrees.getD j 0 +
        (if is_pairwise_concatable x (st.cands.getD j 0) = true then 1 else 0) := by
  have hmem : (j, st.cands.getD j 0) ∈ st.cands.enum := by
    rw [List.mk_mem_enum_iff_getElem?]
    rw [List.getElem?_eq_getElem hj]
    rw [List.getD_eq_getElem _ _ hj]
  have hnd : (st.cands.enum.map Prod.fst).Nodup := List.nodup_enum_map_fst _
  have hlen2 : (insertAux x (st.cands.length + 1) st.cands.enum
      (resize st.adj, st.degrees, 0)).2.1.length = st.degrees.length :=
    insertAux_degs_len _ _ _ _ _ _
  show ((insertAux x (st.cands.length + 1) st.cands.enum
      (resize st.adj, st.degrees, 0)).2.1 ++ [_]).getD j 0 = _
  rw [List.getD_append _ _ _ _ (by omega)]
  exact insertAux_degs_mem x _ st.cands.enum (resize st.adj) st.degrees 0 j
    (st.cands.getD j 0) hnd hmem (by omega)

/-- The degree of the inserted vertex: the number of compatible existing
vertices. -/
theorem insertPrime_degs_getD_self (st : GState) (x : Nat)
    (hlen : st.degrees.length = st.cands.length) :
    (insertPrime st x).degrees.getD st.cands.length 0 =
      st.cands.countP (fun q => is_pairwise_concatable x q) := by
  have hlen2 : (insertAux x (st.cands.length + 1) st.cands.enum
      (resize st.adj, st.degrees, 0)).2.1.length = st.degrees.length :=
    insertAux_degs_len _ _ _ _ _ _
  show ((insertAux x (st.cands.length + 1) st.cands.enum
      (resize st.adj, st.degrees, 0)).2.1 ++ [_]).getD st.cands.length 0 = _
  rw [List.getD_append_right _ _ _ _ (by omega), hlen2, hlen]
  rw [Nat.sub_self]
  show (insertAux x (st.cands.length + 1) st.cands.enum
      (resize st.adj, st.degrees, 0)).2.2 = _
  rw [insertAux_count]
  rw [Nat.zero_add]
  exact countP_enum _ _

/-- Insertion never decreases a degree. -/
theorem insertPrime_degs_mono (st : GState) (x j : Nat) :
    st.degrees.getD j 0 ≤ (insertPrime st x).degrees.getD j 0 := by
  have hlen2 : (insertAux x (st.cands.length + 1) st.cands.enum
      (resize st.adj, st.degrees, 0)).2.1.length = st.degrees.length :=
    insertAux_degs_len _ _ _ _ _ _
  show _ ≤ ((insertAux x (st.cands.length + 1) st.cands.enum
      (resize st.adj, st.degrees, 0)).2.1 ++ [_]).getD j 0
  by_cases hj : j < st.degrees.length
  · rw [List.getD_append _ _ _ _ (by omega)]
    exact insertAux_degs_mono _ _ _ _ _ _ _
  · rw [getD_of_le _ _ _ (by omega)]
    exact Nat.zero_le _

/-- Reading the extended candidate list in the old range. -/
theorem cands_getD_append_lt (st : GState) (x j : Nat) (hj : j < st.cands.length) :
    (st.cands ++ [x]).getD j 0 = st.cands.getD j 0 :=
  List.getD_append _ _ _ _ hj

/-- Reading the extended candidate list at the new index. -/
theorem cands_getD_append_self (st : GState) (x : Nat) :
    (st.cands ++ [x]).getD st.cands.length 0 = x := by
  rw [List.getD_append_right _ _ _ _ (Nat.le_refl _), Nat.sub_self]
  rfl

/-- Insertion of a fresh prime preserves the search invariant. -/
theorem searchInv_insert (st : GState) (x : Nat) (h : SearchInv st x)
    (hx2 : 2 ≤ x) (hxp : is_prime x = true) : SearchInv (insertPrime st x) (x + 1) := by
  have hnotmem : x ∉ st.cands := fun hmem => absurd (h.mem_ub x hmem) (by omega)
  have hcands := insertPrime_cands st x
  constructor
  · rw [insertPrime_degs_len, hcands, h.len_deg]
    simp
  · rw [insertPrime_adj_len, hcands, h.adj_len]
    simp
  · rw [hcands]
    exact List.Nodup.append h.nodup (List.nodup_singleton x)
      (List.disjoint_singleton.mpr hnotmem)
  · rw [hcands]
    intro p hp
    rcases List.mem_append.mp hp with hp | hp
    · exact h.mem_lb p hp
    · rw [List.mem_singleton.mp hp]
      exact hx2
  · rw [hcands]
    intro p hp
    rcases List.mem_append.mp hp with hp | hp
    · exact h.mem_prime p hp
    · rw [List.mem_singleton.mp hp]
      exact hxp
  · rw [hcands]
    intro p hp
    rcases List.mem_append.mp hp with hp | hp
    · have := h.mem_ub p hp
      omega
    · rw [List.mem_singleton.mp hp]
      omega
  · intro i j he
    rcases insertPrime_edge_inv st x i j he with he | ⟨jj, q, hmem, hc, hij⟩
    · obtain ⟨hne, hi, hj, hcomp⟩ := h.edge_spec i j he
      refine ⟨hne, ?_, ?_, ?_⟩
      · rw [hcands]
        simp only [List.length_append, List.length_singleton]
        omega
      · rw [hcands]
        simp only [List.length_append, List.length_singleton]
        omega
      · rw [hcands, cands_getD_append_lt st x i hi, cands_getD_append_lt st x j hj]
        exact hcomp
    · have hjq : st.cands.getD jj 0 = q ∧ jj < st.cands.length := by
        rw [List.mk_mem_enum_iff_getElem?] at hmem
        have hlt : jj < st.cands.length := by
          by_contra hge
          rw [List.getElem?_eq_none (by omega)] at hmem
          exact Option.noConfusion hmem
        rw [List.getElem?_eq_getElem hlt] at hmem
        refine ⟨?_, hlt⟩
        rw [List.getD_eq_getElem _ _ hlt]
        exact Option.some.inj hmem
      rcases hij with ⟨hi, hj⟩ | ⟨hi, hj⟩
      · subst hi
        subst hj
        refine ⟨by omega, ?_, ?_, ?_⟩
        · rw [hcands]
          simp
        · rw [hcands]
          simp only [List.length_append, List.length_singleton]
          omega
        · rw [hcands, cands_getD_append_self, cands_getD_append_lt st x j hjq.2, hjq.1]
          exact hc
      · subst hi
        subst hj
        refine ⟨by omega, ?_, ?_, ?_⟩
        · rw [hcands]
          simp only [List.length_append, List.length_singleton]
          omega
        · rw [hcands]
          simp
        · rw [hcands, cands_getD_append_self, cands_getD_append_lt st x i hjq.2, hjq.1]
          rw [is_pairwise_concatable_comm]
          exact hc

/-- One loop iteration preserves the search invariant. -/
theorem searchInv_advance (st : GState) (x : Nat) (h : SearchInv st x) (hx2 : 2 ≤ x) :
    SearchInv (advance (st, x)).1 (x + 1) := by
  show SearchInv (if is_prime x then insertPrime st x else st) (x + 1)
  by_cases hp : is_prime x = true
  · rw [if_pos hp]
    exact searchInv_insert st x h hx2 hp
  · rw [if_neg hp]
    constructor
    · exact h.len_deg
    · exact h.adj_len
    · exact h.nodup
    · exact h.mem_lb
    · exact h.mem_prime
    · intro p hp2
      have := h.mem_ub p hp2
      omega
    · exact h.edge_spec

/-- The initial state satisfies the invariant. -/
theorem searchInv_init : SearchInv initState 7 := by
  constructor
  · rfl
  · rfl
  · exact List.nodup_singleton 3
  · intro p hp
    rw [List.mem_singleton.mp hp]
    omega
  · intro p hp
    rw [List.mem_singleton.mp hp]
    rfl
  · intro p hp
    rw [List.mem_singleton.mp hp]
    omega
  · intro i j he
    exfalso
    have hrow : initState.adj.getD i [] = [] := by
      cases i with
      | zero => rfl
      | succ i =>
        cases i with
        | zero => rfl
        | succ i => rfl
    unfold edgeQ at he
    rw [hrow] at he
    simp at he

/-- Every state the loop reaches satisfies the invariant. -/
theorem searchInv_stateAt : ∀ n, SearchInv (stateAt n) (7 + n) := by
  intro n
  induction n with
  | zero => exact searchInv_init
  | succ n ih =>
    have h2 : stateAt (n + 1) = (advance (stateAt n, 7 + n)).1 := by
      show (if is_prime (7 + n) then insertPrime (stateAt n) (7 + n) else stateAt n) = _
      rfl
    rw [h2, show 7 + (n + 1) = (7 + n) + 1 from rfl]
    exact searchInv_advance (stateAt n) (7 + n) ih (by omega)

/-- Characterisation of membership in the filtered candidate neighbour set. -/
theorem cliqueCands_mem (st : GState) (k i q : Nat) :
    q ∈ cliqueCands st k i ↔ ∃ j, (j, q) ∈ st.cands.enum ∧
      k - 1 ≤ st.degrees.getD j 0 ∧ edgeQ st.adj j i = true := by
  unfold cliqueCands
  rw [List.mem_filterMap]
  constructor
  · rintro ⟨⟨j, q2⟩, hmem, hf⟩
    by_cases hc : k - 1 ≤ st.degrees.getD j 0 ∧ edgeQ st.adj j i = true
    · rw [if_pos hc] at hf
      refine ⟨j, ?_, hc.1, hc.2⟩
      have hq : q2 = q := Option.some.inj hf
      rw [hq] at hmem
      exact hmem
    · rw [if_neg hc] at hf
      exact Option.noConfusion hf
  · rintro ⟨j, hmem, h1, h2⟩
    exact ⟨(j, q), hmem, by rw [if_pos ⟨h1, h2⟩]⟩

/-- The filtered candidate neighbour set lists a subsequence of the
candidates. -/
theorem filterMap_enumFrom_sublist (C : Nat × Nat → Prop) [DecidablePred C] :
    ∀ (l : List Nat) (s : Nat),
      List.Sublist ((List.enumFrom s l).filterMap fun jq => if C jq then some jq.2 else none) l := by
  intro l
  induction l with
  | nil => intro s; exact List.Sublist.refl []
  | cons a l ih =>
    intro s
    show List.Sublist (((s, a) :: List.enumFrom (s + 1) l).filterMap
      fun jq => if C jq then some jq.2 else none) (a :: l)
    rw [List.filterMap_cons]
    by_cases hc : C (s, a)
    · rw [if_pos hc]
      exact List.Sublist.cons₂ a (ih (s + 1))
    · rw [if_neg hc]
      exact List.Sublist.cons a (ih (s + 1))

/-- The filtered candidate neighbour set is a subsequence of the candidate
list. -/
theorem cliqueCands_sublist (st : GState) (k i : Nat) : List.Sublist (cliqueCands st k i) st.cands :=
  filterMap_enumFrom_sublist
    (fun jq => k - 1 ≤ st.degrees.getD jq.1 0 ∧ edgeQ st.adj jq.1 i = true) st.cands 0

/-- Every combination has the requested size. -/
theorem combinations_length :
    ∀ (l : List Nat) (r : Nat) (sub : List Nat), sub ∈ combinations r l → sub.length = r := by
  intro l
  induction l with
  | nil =>
    intro r sub h
    cases r with
    | zero =>
      rw [List.mem_singleton.mp h]
      rfl
    | succ r => exact absurd h (List.not_mem_nil sub)
  | cons a as ih =>
    intro r sub h
    cases r with
    | zero =>
      rw [List.mem_singleton.mp h]
      rfl
    | succ r =>
      rcases List.mem_append.mp h with h | h
      · rcases List.mem_map.mp h with ⟨t, ht, hts⟩
        rw [← hts, List.length_cons, ih r t ht]
      · exact ih (r + 1) sub h

/-- Every combination is a subsequence of the source list. -/
theorem combinations_sublist :
    ∀ (l : List Nat) (r : Nat) (sub : List Nat), sub ∈ combinations r l → List.Sublist sub l := by
  intro l
  induction l with
  | nil =>
    intro r sub h
    cases r with
    | zero => rw [List.mem_singleton.mp h]
    | succ r => exact absurd h (List.not_mem_nil sub)
  | cons a as ih =>
    intro r sub h
    cases r with
    | zero =>
      rw [List.mem_singleton.mp h]
      exact List.nil_sublist _
    | succ r =>
      rcases List.mem_append.mp h with h | h
      · rcases List.mem_map.mp h with ⟨t, ht, hts⟩
        rw [← hts]
        exact List.Sublist.cons₂ a (ih r t ht)
      · exact List.Sublist.cons a (ih (r + 1) sub h)

/-- Combinations of size one. -/
theorem combinations_one :
    ∀ (l : List Nat), combinations 1 l = l.map (fun b => [b]) := by
  intro l
  induction l with
  | nil => rfl
  | cons a as ih =>
    show (combinations 0 as).map (a :: ·) ++ combinations 1 as = _
    rw [ih]
    simp only [combinations]
    rfl

/-- Testing a predicate on a mapped list tests the composite on the
original list (stated for an arbitrary map between different types). -/
theorem list_all_map {α β : Type} (f : α → β) (p : β → Bool) :
    ∀ l : List α, (l.map f).all p = l.all (p ∘ f) := by
  intro l
  induction l with
  | nil => rfl
  | cons a as ih => simp only [List.map_cons, List.all_cons, ih, Function.comp_apply]

/-- The check over all 2-subsets is a pairwise property. -/
theorem combinations_two_all (P : List Nat → Bool) :
    ∀ l : List Nat,
      ((combinations 2 l).all P = true) ↔ l.Pairwise (fun a b => P [a, b] = true) := by
  intro l
  induction l with
  | nil => simp [combinations]
  | cons a as ih =>
    show (((combinations 1 as).map (a :: ·) ++ combinations 2 as).all P = true) ↔ _
    rw [List.all_append, Bool.and_eq_true, ih, combinations_one, List.map_map,
      list_all_map, List.pairwise_cons, List.all_eq_true]
    constructor
    · rintro ⟨h1, h2⟩
      exact ⟨fun b hb => h1 b hb, h2⟩
    · rintro ⟨h1, h2⟩
      exact ⟨fun b hb => h1 b hb, h2⟩

/-- The pairwise connectivity test as a `Pairwise` property. -/
theorem pairwiseAdj_iff (st : GState) (sub : List Nat) :
    pairwiseAdj st sub = true ↔
      sub.Pairwise
        (fun a b => edgeQ st.adj (st.cands.indexOf a) (st.cands.indexOf b) = true) :=
  combinations_two_all
    (fun pr =>
      match pr with
      | [a, b] => edgeQ st.adj (st.cands.indexOf a) (st.cands.indexOf b)
      | _ => true) sub

/-- The clique loop returns exactly the first pairwise-connected combination
of the scanned list, extended by the anchor and paired with its sum. -/
theorem cliqueLoop_some_iff (st : GState) (x : Nat) :
    ∀ (combos : List (List Nat)) (pset : List Nat) (s : Nat),
      cliqueLoop st x combos = some (pset, s) ↔
        ∃ pre sub post, combos = pre ++ sub :: post ∧
          (∀ t ∈ pre, pairwiseAdj st t = false) ∧ pairwiseAdj st sub = true ∧
          pset = sub ++ [x] ∧ s = (sub ++ [x]).sum := by
  intro combos
  induction combos with
  | nil =>
    intro pset s
    constructor
    · intro h
      exact Option.noConfusion h
    · rintro ⟨pre, sub, post, habs, -⟩
      exact absurd habs.symm (List.append_ne_nil_of_right_ne_nil pre (by simp))
  | cons c rest ih =>
    intro pset s
    show (if pairwiseAdj st c then some (c ++ [x], (c ++ [x]).sum)
      else cliqueLoop st x rest) = some (pset, s) ↔ _
    by_cases hc : pairwiseAdj st c = true
    · rw [if_pos hc]
      constructor
      · intro h
        have h2 := Option.some.inj h
        exact ⟨[], c, rest, rfl, by simp, hc,
          (congrArg Prod.fst h2).symm, (congrArg Prod.snd h2).symm⟩
      · rintro ⟨pre, sub, post, heq, hpre, hsub, hp, hs⟩
        cases pre with
        | nil =>
          have hc2 : c = sub := by
            have := congrArg (fun l => List.head? l) heq
            simpa using this
          rw [hp, hs, hc2]
        | cons p pre2 =>
          have hcp : c = p := by
            have := congrArg (fun l => List.head? l) heq
            simpa using this
          exact absurd hc (by rw [hcp, hpre p (List.mem_cons_self _ _)]; simp)
    · rw [if_neg hc]
      rw [ih pset s]
      constructor
      · rintro ⟨pre, sub, post, heq, hpre, hsub, hp, hs⟩
        refine ⟨c :: pre, sub, post, by rw [List.cons_append, heq], ?_, hsub, hp, hs⟩
        intro t ht
        rcases List.mem_cons.mp ht with ht | ht
        · rw [ht]
          exact Bool.not_eq_true _ ▸ (by simpa using hc)
        · exact hpre t ht
      · rintro ⟨pre, sub, post, heq, hpre, hsub, hp, hs⟩
        cases pre with
        | nil =>
          have hc2 : c = sub := by
            have := congrArg (fun l => List.head? l) heq
            simpa using this
          exact absurd hsub (by rw [← hc2]; exact hc)
        | cons p pre2 =>
          have hcp : c = p := by
            have := congrArg (fun l => List.head? l) heq
            simpa using this
          have htl : rest = pre2 ++ sub :: post := by
            have := congrArg (fun l => List.tail l) heq
            simpa using this
          exact ⟨pre2, sub, post, htl,
            fun t ht => hpre t (List.mem_cons_of_mem _ ht), hsub, hp, hs⟩

/-- The instrumented clique loop computes the same outcome. -/
theorem cliqueLoopSteps_fst (st : GState) (x : Nat) :
    ∀ combos : List (List Nat), (cliqueLoopSteps st x combos).1 = cliqueLoop st x combos := by
  intro combos
  induction combos with
  | nil => rfl
  | cons c rest ih =>
    show (if pairwiseAdj st c then (some (c ++ [x], (c ++ [x]).sum), 1)
      else ((cliqueLoopSteps st x rest).1, (cliqueLoopSteps st x rest).2 + 1)).1
      = if pairwiseAdj st c then some (c ++ [x], (c ++ [x]).sum) else cliqueLoop st x rest
    by_cases hc : pairwiseAdj st c = true
    · rw [if_pos hc, if_pos hc]
    · rw [if_neg hc, if_neg hc]
      exact ih

/-- Reading at the index of a member recovers the member. -/
theorem getD_indexOf (l : List Nat) (a : Nat) (h : a ∈ l) :
    l.getD (l.indexOf a) 0 = a := by
  have hlt : l.indexOf a < l.length := List.indexOf_lt_length.mpr h
  rw [List.getD_eq_getElem _ _ hlt]
  exact List.getElem_indexOf hlt

/-- Enumerated membership gives the indexed value. -/
theorem enum_mem_getD (l : List Nat) (j q : Nat) (h : (j, q) ∈ l.enum) :
    j < l.length ∧ l.getD j 0 = q := by
  rw [List.mk_mem_enum_iff_getElem?] at h
  have hlt : j < l.length := by
    by_contra hge
    rw [List.getElem?_eq_none (by omega)] at h
    exact Option.noConfusion h
  rw [List.getElem?_eq_getElem hlt] at h
  refine ⟨hlt, ?_⟩
  rw [List.getD_eq_getElem _ _ hlt]
  exact Option.some.inj h

/-- Unfolding the loop body at a prime, with the lets expanded. -/
theorem mainStep_of_prime (k : Nat) (st : GState) (x : Nat) (hp : is_prime x = true) :
    mainStep k st x =
      (if k - 1 ≤ (insertPrime st x).degrees.getD ((insertPrime st x).cands.length - 1) 0 then
        (insertPrime st x, cliqueLoop (insertPrime st x) x
          (combinations (k - 1) (cliqueCands (insertPrime st x) k
            ((insertPrime st x).cands.length - 1))))
      else (insertPrime st x, none)) := by
  unfold mainStep
  rw [if_pos hp]

/-- Unfolding the loop body at a composite. -/
theorem mainStep_of_not_prime (k : Nat) (st : GState) (x : Nat) (hp : ¬ is_prime x = true) :
    mainStep k st x = (st, none) := by
  unfold mainStep
  rw [if_neg hp]

/-- A successful clique search at a prime `x` yields a set of `k` distinct
primes (by the embedded test) that are pairwise compatible, together with
its sum. -/
theorem mainStep_some_valid (k : Nat) (st : GState) (x : Nat) (pset : List Nat) (s : Nat)
    (hInv : SearchInv st x) (hk : 2 ≤ k) (hx2 : 2 ≤ x)
    (hs : (mainStep k st x).2 = some (pset, s)) :
    pset.length = k ∧ pset.Nodup ∧ (∀ p ∈ pset, 2 ≤ p ∧ is_prime p = true) ∧
      (∀ p ∈ pset, ∀ q ∈ pset, p ≠ q → is_pairwise_concatable p q = true) ∧
      s = pset.sum := by
  by_cases hp : is_prime x = true
  · rw [mainStep_of_prime k st x hp] at hs
    set st2 := insertPrime st x with hst2def
    set i := st2.cands.length - 1 with hidef
    by_cases hdeg : k - 1 ≤ st2.degrees.getD i 0
    · rw [if_pos hdeg] at hs
      have hclique : cliqueLoop st2 x (combinations (k - 1) (cliqueCands st2 k i))
          = some (pset, s) := hs
      obtain ⟨pre, sub, post, heq, hpre, hsub, hp1, hs1⟩ :=
        (cliqueLoop_some_iff st2 x _ pset s).mp hclique
      have hInv2 : SearchInv st2 (x + 1) := searchInv_insert st x hInv hx2 hp
      have hsubmem : sub ∈ combinations (k - 1) (cliqueCands st2 k i) := by
        rw [heq]
        exact List.mem_append_right _ (List.mem_cons_self _ _)
      have hlen_sub : sub.length = k - 1 := combinations_length _ _ _ hsubmem
      have hsub_cands : List.Sublist sub st2.cands :=
        (combinations_sublist _ _ _ hsubmem).trans (cliqueCands_sublist st2 k i)
      have hnodup_sub : sub.Nodup := hsub_cands.nodup hInv2.nodup
      have hi_lt : i < st2.cands.length := by
        rw [hidef, hst2def, insertPrime_cands]
        simp
      have hx_at_i : st2.cands.getD i 0 = x := by
        rw [hidef, hst2def, insertPrime_cands]
        simp only [List.length_append, List.length_singleton, Nat.add_sub_cancel]
        exact cands_getD_append_self st x
      have hcc_x : ∀ q, q ∈ cliqueCands st2 k i → q ≠ x := by
        intro q hq hqx
        subst hqx
        obtain ⟨j, hjm, _, hedge⟩ := (cliqueCands_mem st2 k i q).mp hq
        obtain ⟨hjlt, hjget⟩ := enum_mem_getD _ _ _ hjm
        obtain ⟨hne, _, _, _⟩ := hInv2.edge_spec j i hedge
        apply hne
        have h1 : st2.cands[j] = st2.cands[i] := by
          rw [← List.getD_eq_getElem st2.cands 0 hjlt, ← List.getD_eq_getElem st2.cands 0 hi_lt,
            hjget, hx_at_i]
        exact (List.Nodup.getElem_inj_iff hInv2.nodup).mp h1
      have hx_notin_sub : x ∉ sub := by
        intro hmem
        exact hcc_x x ((combinations_sublist _ _ _ hsubmem).subset hmem) rfl
      have hcompat_x : ∀ p ∈ sub, is_pairwise_concatable p x = true := by
        intro p hpmem
        obtain ⟨j, hjm, _, hedge⟩ := (cliqueCands_mem st2 k i p).mp
          ((combinations_sublist _ _ _ hsubmem).subset hpmem)
        obtain ⟨hjlt, hjget⟩ := enum_mem_getD _ _ _ hjm
        obtain ⟨_, _, _, hcomp⟩ := hInv2.edge_spec j i hedge
        rw [hjget, hx_at_i] at hcomp
        exact hcomp
      have hpw : ∀ p ∈ sub, ∀ q ∈ sub, p ≠ q → is_pairwise_concatable p q = true := by
        have h1 : sub.Pairwise (fun a b => is_pairwise_concatable a b = true) := by
          refine ((pairwiseAdj_iff st2 sub).mp hsub).imp_of_mem ?_
          intro a b ha hb hedge
          obtain ⟨_, _, _, hcomp⟩ := hInv2.edge_spec _ _ hedge
          rw [getD_indexOf _ _ (hsub_cands.subset ha),
            getD_indexOf _ _ (hsub_cands.subset hb)] at hcomp
          exact hcomp
        exact h1.forall (fun a b hab => by
          rw [is_pairwise_concatable_comm]
          exact hab)
      subst hp1
      refine ⟨?_, ?_, ?_, ?_, hs1⟩
      · rw [List.length_append, hlen_sub]
        simp
        omega
      · rw [List.nodup_append]
        exact ⟨hnodup_sub, List.nodup_singleton x,
          fun a ha hax => hx_notin_sub ((List.mem_singleton.mp hax) ▸ ha)⟩
      · intro p hpm
        rcases List.mem_append.mp hpm with hpm | hpm
        · exact ⟨hInv2.mem_lb p (hsub_cands.subset hpm),
            hInv2.mem_prime p (hsub_cands.subset hpm)⟩
        · rw [List.mem_singleton.mp hpm]
          exact ⟨hx2, hp⟩
      · intro p hpm q hqm hpq
        rcases List.mem_append.mp hpm with hpm | hpm <;>
          rcases List.mem_append.mp hqm with hqm | hqm
        · exact hpw p hpm q hqm hpq
        · rw [List.mem_singleton.mp hqm]
          exact hcompat_x p hpm
        · rw [List.mem_singleton.mp hpm]
          rw [is_pairwise_concatable_comm]
          exact hcompat_x q hqm
        · exact absurd (by rw [List.mem_singleton.mp hpm, List.mem_singleton.mp hqm]) hpq
    · rw [if_neg hdeg] at hs
      exact absurd hs (by simp)
  · rw [mainStep_of_not_prime k st x hp] at hs
    exact absurd hs (by simp)

/-- Any value the while-loop returns from an invariant-satisfying state is a
valid clique result. -/
theorem mainLoop_some_valid (k : Nat) :
    ∀ (fuel : Nat) (st : GState) (x : Nat) (pset : List Nat) (s : Nat),
      SearchInv st x → 2 ≤ k → 2 ≤ x → mainLoop k fuel st x = some (pset, s) →
      pset.length = k ∧ pset.Nodup ∧ (∀ p ∈ pset, 2 ≤ p ∧ is_prime p = true) ∧
        (∀ p ∈ pset, ∀ q ∈ pset, p ≠ q → is_pairwise_concatable p q = true) ∧
        s = pset.sum := by
  intro fuel
  induction fuel with
  | zero =>
    intro st x pset s _ _ _ h
    exact absurd h (by simp [mainLoop])
  | succ fuel ih =>
    intro st x pset s hInv hk hx2 h
    simp only [mainLoop] at h
    rcases hms : mainStep k st x with ⟨st2, r⟩
    rw [hms] at h
    cases r with
    | some v =>
      have hv : v = (pset, s) := Option.some.inj h
      exact mainStep_some_valid k st x pset s hInv hk hx2 (by rw [hms, hv])
    | none =>
      have hst2 : st2 = (advance (st, x)).1 := by
        have h3 := mainStep_fst k st x
        rw [hms] at h3
        exact h3
      refine ih st2 (x + 1) pset s ?_ hk (by omega) h
      rw [hst2]
      exact searchInv_advance st x hInv hx2

/-- Degrees never decrease along the state evolution. -/
theorem stateAt_degs_mono (j : Nat) :
    ∀ n m, n ≤ m → (stateAt n).degrees.getD j 0 ≤ (stateAt m).degrees.getD j 0 := by
  intro n m hnm
  induction m, hnm using Nat.le_induction with
  | base => exact Nat.le_refl _
  | succ m _ ih =>
    refine Nat.le_trans ih ?_
    show _ ≤ (if is_prime (7 + m) then insertPrime (stateAt m) (7 + m) else stateAt m).degrees.getD j 0
    by_cases hp : is_prime (7 + m) = true
    · rw [if_pos hp]
      exact insertPrime_degs_mono _ _ _
    · rw [if_neg hp]

/-- Matrix entries are never cleared along the state evolution. -/
theorem stateAt_edge_mono (i j : Nat) :
    ∀ n m, n ≤ m → edgeQ (stateAt n).adj i j = true → edgeQ (stateAt m).adj i j = true := by
  intro n m hnm h
  induction m, hnm using Nat.le_induction with
  | base => exact h
  | succ m _ ih =>
    show edgeQ (if is_prime (7 + m) then insertPrime (stateAt m) (7 + m) else stateAt m).adj i j = true
    by_cases hp : is_prime (7 + m) = true
    · rw [if_pos hp]
      exact insertPrime_edge_mono _ _ _ _ ih
    · rw [if_neg hp]
      exact ih


set_option maxRecDepth 100000 in
set_option maxHeartbeats 2000000 in
/-- The first iteration of `main 2` already returns the pair clique. -/
theorem mainFuel_2_1 : mainFuel 2 1 = some ([3, 7], 10) := by decide

/-- C1 (amended): when the anchored clique search runs after inserting a new
prime `x`, the loop over the combinations of `k - 1` vertices drawn from the
filtered candidate neighbour set returns precisely the FIRST combination (in
Python enumeration order) that is pairwise fully connected — extended by `x`
and paired with the sum of its member values — immediately upon finding it;
the combinations after it are never examined, and when no combination is
connected the search falls through.  (The recorded best sum plays no role:
it is still None whenever a combination is tested.) -/
theorem c1_clique_search_first_valid (st : GState) (x : Nat) (combos : List (List Nat))
    (pset : List Nat) (s : Nat) :
    cliqueLoop st x combos = some (pset, s) ↔
      ∃ pre sub post, combos = pre ++ sub :: post ∧
        (∀ t ∈ pre, pairwiseAdj st t = false) ∧ pairwiseAdj st sub = true ∧
        pset = sub ++ [x] ∧ s = (sub ++ [x]).sum :=
  cliqueLoop_some_iff st x combos pset s

set_option maxRecDepth 100000 in
set_option maxHeartbeats 8000000 in
/-- C1 counterexample to the claim as stated: in the run of `main 4`, the
first 666 iterations (integers 7..672) find no clique; inserting 673 reaches
the state `T667`, whose filtered candidate neighbour set yields 56
combinations of size 3, and the clique loop returns after examining only
the FIRST of them — not after examining all combinations as the claim
requires.  (Here the spec-modelled examine-all loop happens to return the
same clique, so only the control flow, not the returned value, deviates.) -/
theorem c1_counterexample :
    mainFuel 4 666 = none ∧
    mainFuel 4 667 = some ([3, 7, 109, 673], 792) ∧
    stateAt 667 = T667 ∧
    (combinations 3 (cliqueCands T667 4 119)).length = 56 ∧
    cliqueLoopSteps T667 673 (combinations 3 (cliqueCands T667 4 119))
      = (some ([3, 7, 109, 673], 792), 1) ∧
    cliqueSpecLoop T667 673 (combinations 3 (cliqueCands T667 4 119)) none
      = some ([3, 7, 109, 673], 792) :=
  ⟨mainFuel_4_666, mainFuel_4_667, stateAt_667, by decide, by decide, by decide⟩

/-- C2: whenever `main k` (for k at least 2) returns within its fuel, the
returned pair is a list of exactly `k` distinct primes whose pairwise
decimal concatenations in both orders are prime, together with the sum of
those primes. -/
theorem c2_result_valid (k fuel : Nat) (pset : List Nat) (s : Nat)
    (hk : 2 ≤ k) (h : mainFuel k fuel = some (pset, s)) :
    pset.length = k ∧ pset.Nodup ∧ (∀ p ∈ pset, Nat.Prime p) ∧
      (∀ p ∈ pset, ∀ q ∈ pset, p ≠ q →
        Nat.Prime (concatVal p q) ∧ Nat.Prime (concatVal q p)) ∧
      s = pset.sum := by
  obtain ⟨hlen, hnd, hmem, hcompat, hsum⟩ :=
    mainLoop_some_valid k fuel initState 7 pset s searchInv_init hk (by omega) h
  refine ⟨hlen, hnd, ?_, ?_, hsum⟩
  · intro p hp
    exact (is_prime_iff_prime p (hmem p hp).1).mp (hmem p hp).2
  · intro p hp q hq hpq
    have hc := hcompat p hp q hq hpq
    have hc2 : is_prime (concatVal p q) = true ∧ is_prime (concatVal q p) = true := by
      have hc3 : (is_prime (concatVal p q) && is_prime (concatVal q p)) = true := hc
      rw [Bool.and_eq_true] at hc3
      exact hc3
    have hcp : 2 ≤ concatVal p q := by
      have := concatVal_lb p q (by have := (hmem p hp).1; omega)
        (by have := (hmem q hq).1; omega)
      omega
    have hcq : 2 ≤ concatVal q p := by
      have := concatVal_lb q p (by have := (hmem q hq).1; omega)
        (by have := (hmem p hp).1; omega)
      omega
    exact ⟨(is_prime_iff_prime _ hcp).mp hc2.1, (is_prime_iff_prime _ hcq).mp hc2.2⟩

/-- C2 witness at the concrete run of `main 2` with fuel 1. -/
theorem c2_result_valid_witness :
    ([3, 7] : List Nat).length = 2 ∧ ([3, 7] : List Nat).Nodup ∧
      (∀ p ∈ ([3, 7] : List Nat), Nat.Prime p) ∧
      (∀ p ∈ ([3, 7] : List Nat), ∀ q ∈ ([3, 7] : List Nat), p ≠ q →
        Nat.Prime (concatVal p q) ∧ Nat.Prime (concatVal q p)) ∧
      10 = ([3, 7] : List Nat).sum :=
  c2_result_valid 2 1 [3, 7] 10 (by decide) (by decide)

/-- C3: `main 4` returns the clique 3, 7, 109, 673 with sum 792 (it does so
on examining 673, and every larger fuel returns the same value). -/
theorem c3_main_four (fuel : Nat) (h : 667 ≤ fuel) :
    mainFuel 4 fuel = some ([3, 7, 109, 673], 792) :=
  mainLoop_mono 4 667 fuel initState 7 _ h mainFuel_4_667

/-- C3 witness: the concrete run with fuel 667. -/
theorem c3_main_four_witness : mainFuel 4 667 = some ([3, 7, 109, 673], 792) :=
  c3_main_four 667 (by decide)

/-- C4: `main 2` returns the primes 3 and 7 with sum 10 (on its very first
iteration, and every larger fuel returns the same value). -/
theorem c4_main_two (fuel : Nat) (h : 1 ≤ fuel) :
    mainFuel 2 fuel = some ([3, 7], 10) :=
  mainLoop_mono 2 1 fuel initState 7 _ h mainFuel_2_1

/-- C4 witness: the concrete run with fuel 1. -/
theorem c4_main_two_witness : mainFuel 2 1 = some ([3, 7], 10) :=
  c4_main_two 1 (by decide)

/-- C5: the InvalidInput condition is raised for every integer k at most 1
(for every fuel, so the search never starts), and by the primality test and
the compatibility predicate on any non-positive integer argument. -/
theorem c5_invalid_input :
    (∀ (k : Int) (fuel : Nat), k ≤ 1 → mainChecked k fuel = .error .invalidInput) ∧
    (∀ x : Int, x ≤ 0 → is_prime_checked x = .error .invalidInput) ∧
    (∀ x y : Int, x ≤ 0 ∨ y ≤ 0 →
      is_pairwise_concatable_checked x y = .error .invalidInput) := by
  refine ⟨?_, ?_, ?_⟩
  · intro k fuel hk
    unfold mainChecked
    rw [if_neg (by omega)]
  · intro x hx
    unfold is_prime_checked
    rw [if_neg (by omega)]
  · intro x y hxy
    unfold is_pairwise_concatable_checked
    rw [if_neg (by omega)]

/-- C6: on every integer from 2 to 100000 the trial-division test `is_prime`
(dividing by every integer from 2 up to and including the floor of the
square root) agrees with primality, hence with any reference sieve of that
range. -/
theorem c6_is_prime_agrees (x : Nat) (h1 : 2 ≤ x) (h2 : x ≤ 100000) :
    is_prime x = true ↔ Nat.Prime x :=
  is_prime_iff_prime x h1

/-- C6 witness at 97. -/
theorem c6_is_prime_agrees_witness : is_prime 97 = true ↔ Nat.Prime 97 :=
  c6_is_prime_agrees 97 (by decide) (by decide)

/-- C7: the pairwise-compatibility predicate is symmetric on positive
integers. -/
theorem c7_concatable_symm (p q : Nat) (hp : 0 < p) (hq : 0 < q) :
    is_pairwise_concatable p q = is_pairwise_concatable q p :=
  is_pairwise_concatable_comm p q

/-- C7 witness at the pair 3, 7. -/
theorem c7_concatable_symm_witness :
    is_pairwise_concatable 3 7 = is_pairwise_concatable 7 3 :=
  c7_concatable_symm 3 7 (by decide) (by decide)

/-- C8: at every point of the search the adjacency matrix holds no
self-loop entry, and an entry once set stays set across all further
insertions and resizes. -/
theorem c8_no_self_loop_persistent :
    (∀ n i, edgeQ (stateAt n).adj i i = false) ∧
    (∀ n m i j, n ≤ m → edgeQ (stateAt n).adj i j = true →
      edgeQ (stateAt m).adj i j = true) := by
  constructor
  · intro n i
    cases hb : edgeQ (stateAt n).adj i i
    · rfl
    · exact absurd rfl (((searchInv_stateAt n).edge_spec i i hb).1)
  · intro n m i j hnm h
    exact stateAt_edge_mono i j n m hnm h

/-- C9: degrees are non-decreasing over the lifetime of the graph; when a
new prime x is inserted, the degree of each existing vertex grows by one
exactly when it is compatible with x (otherwise it is unchanged, never
decremented), and the degree of x itself is the number of compatible
existing vertices. -/
theorem c9_degree_evolution :
    (∀ n m j, n ≤ m → (stateAt n).degrees.getD j 0 ≤ (stateAt m).degrees.getD j 0) ∧
    (∀ (st : GState) (x j : Nat), st.degrees.length = st.cands.length →
      j < st.cands.length →
      (insertPrime st x).degrees.getD j 0 =
        st.degrees.getD j 0 +
          (if is_pairwise_concatable x (st.cands.getD j 0) = true then 1 else 0)) ∧
    (∀ (st : GState) (x : Nat), st.degrees.length = st.cands.length →
      (insertPrime st x).degrees.getD st.cands.length 0 =
        st.cands.countP (fun q => is_pairwise_concatable x q)) :=
  ⟨fun n m j h => stateAt_degs_mono j n m h,
    fun st x j h1 h2 => insertPrime_degs_getD_lt st x j h1 h2,
    fun st x h1 => insertPrime_degs_getD_self st x h1⟩

/-- C10: the input 1 passes the positivity assertion of `is_prime`, the
trial-division loop runs over an empty range, and 1 is reported prime even
though it is not. -/
theorem c10_one_reported_prime :
    is_prime_checked 1 = .ok true ∧ is_prime 1 = true ∧ ¬ Nat.Prime 1 :=
  ⟨rfl, by decide, Nat.not_prime_one⟩
